import Mathlib

/-!
# ATT/GATT discovery state machine of `bluetooth.cc`

A shallow embedding of `BLEGATTStateMachine` (src/bluetooth.cc) and of the three
GATT views defined next to it (`GATTReadCharacteristic`, `GATTReadCCC`,
`GATTReadServiceGroup`).

Conventions of the embedding.

* `dev.receive(buf)` is the input of `read_and_process_next`: the received frame is
  passed as a `PDUResponse` (a list of bytes, every byte read modulo 256; a byte
  beyond the received length reads as 0).
* `dev.send_*` appends a `send_*` event to the machine's `trace`, with the arguments
  exactly as the code passes them.
* A C++ exception is the `thrown` field of an `Outcome`; `m` is the machine as the
  statements executed before the `throw` left it.
* The four phase callbacks (`std::function<void(BLEGATTStateMachine&)>`) are
  arbitrary functions from the machine to an `Outcome`.  Each invocation is also
  recorded in the trace together with the `state`, `next_handle_to_read` and
  `last_request` the callback sees when it starts.
* The notification callbacks are recorded as trace events (which function was
  called, for which stored characteristic, with which PDU).  An empty
  `std::function` is `none`; calling it throws `std::bad_function_call`.
* The headers att_pdu.h, bledevice.h and att.h are not among the sources.  The opcodes,
  the flag bits and the accessors of the PDU views are taken from the tables of the
  specification and marked `Modelled from the spec:`; the constructors of the base
  views are taken not to throw.
-/

namespace Blepp

/-! ## Constants -/

/-- Modelled from the spec: opcode 0x01 ERROR_RESP of §4.1 (att.h is not among the sources). -/
def ATT_OP_ERROR : Nat := 0x01
/-- Modelled from the spec: opcode 0x08 READ_BY_TYPE_REQ of §4.1. -/
def ATT_OP_READ_BY_TYPE_REQ : Nat := 0x08
/-- Modelled from the spec: opcode 0x09 READ_BY_TYPE_RESP of §4.1. -/
def ATT_OP_READ_BY_TYPE_RESP : Nat := 0x09
/-- Modelled from the spec: opcode 0x10 READ_BY_GROUP_REQ of §4.1. -/
def ATT_OP_READ_BY_GROUP_REQ : Nat := 0x10
/-- Modelled from the spec: opcode 0x1B HANDLE_NOTIFY of §4.1. -/
def ATT_OP_HANDLE_NOTIFY : Nat := 0x1B
/-- Modelled from the spec: opcode 0x1D HANDLE_IND of §4.1. -/
def ATT_OP_HANDLE_IND : Nat := 0x1D
/-- Modelled from the spec: error code 0x0A ATTR_NOT_FOUND of §6. -/
def ATT_ECODE_ATTR_NOT_FOUND : Nat := 0x0A
/-- Modelled from the spec: reserved UUID 0x2800, primary service (§6). -/
def GATT_UUID_PRIMARY : Nat := 0x2800
/-- Modelled from the spec: reserved UUID 0x2803, characteristic declaration (§6). -/
def GATT_CHARACTERISTIC : Nat := 0x2803
/-- Modelled from the spec: reserved UUID 0x2902, CCC descriptor (§6). -/
def GATT_CLIENT_CHARACTERISTIC_CONFIGURATION : Nat := 0x2902

/-- Modelled from the spec: flag-byte bit of `broadcast` (§4.4). -/
def GATT_CHARACTERISTIC_FLAGS_BROADCAST : Nat := 0x01
/-- Modelled from the spec: flag-byte bit of `read` (§4.4). -/
def GATT_CHARACTERISTIC_FLAGS_READ : Nat := 0x02
/-- Modelled from the spec: flag-byte bit of `write_without_response` (§4.4). -/
def GATT_CHARACTERISTIC_FLAGS_WRITE_WITHOUT_RESPONSE : Nat := 0x04
/-- Modelled from the spec: flag-byte bit of `write` (§4.4). -/
def GATT_CHARACTERISTIC_FLAGS_WRITE : Nat := 0x08
/-- Modelled from the spec: flag-byte bit of `notify` (§4.4). -/
def GATT_CHARACTERISTIC_FLAGS_NOTIFY : Nat := 0x10
/-- Modelled from the spec: flag-byte bit of `indicate` (§4.4). -/
def GATT_CHARACTERISTIC_FLAGS_INDICATE : Nat := 0x20
/-- Modelled from the spec: flag-byte bit of `authenticated_signed_writes` (§4.4). -/
def GATT_CHARACTERISTIC_FLAGS_AUTHENTICATED_SIGNED_WRITES : Nat := 0x40
/-- Modelled from the spec: flag-byte bit of `extended_properties` (§4.4). -/
def GATT_CHARACTERISTIC_FLAGS_EXTENDED_PROPERTIES : Nat := 0x80

/-! ## PDU views -/

/-- A received frame: the bytes `dev.receive` returned, the opcode first. -/
structure PDUResponse where
  data : List Nat
deriving DecidableEq, Repr

/-- A UUID as carried by `bt_uuid_t`: the tag and the value. -/
inductive UUID where
  | u16 (v : Nat)
  | u128 (v : Nat)
deriving DecidableEq, Repr

namespace PDUResponse

/-- Modelled from the spec: the number of bytes of the frame. -/
def length (r : PDUResponse) : Nat := r.data.length

/-- Modelled from the spec: the byte at offset `i` of the frame. -/
def uint8 (r : PDUResponse) (i : Nat) : Nat := r.data.getD i 0 % 256

/-- Modelled from the spec: the little-endian u16 at offset `i` (`att_get_u16`). -/
def uint16 (r : PDUResponse) (i : Nat) : Nat := r.uint8 i + 256 * r.uint8 (i + 1)

/-- Modelled from the spec: the little-endian value of the `n` bytes at offset `i`
(`att_get_u128` for `n = 16`). -/
def le_value (r : PDUResponse) (i : Nat) : Nat → Nat
  | 0 => 0
  | n + 1 => r.uint8 i + 256 * le_value r (i + 1) n

/-- Modelled from the spec: the opcode, the first byte of every frame (§4.1). -/
def type (r : PDUResponse) : Nat := r.uint8 0

end PDUResponse

namespace PDUErrorResponse

/-- Modelled from the spec: ERROR_RESP is `u8 request_opcode, u16 handle, u8 error_code`. -/
def request_opcode (r : PDUResponse) : Nat := r.uint8 1

/-- Modelled from the spec: ERROR_RESP is `u8 request_opcode, u16 handle, u8 error_code`. -/
def error_code (r : PDUResponse) : Nat := r.uint8 4

end PDUErrorResponse

namespace PDUNotificationOrIndication

/-- Modelled from the spec: HANDLE_NOTIFY and HANDLE_IND are `u16 handle, value bytes`. -/
def handle (r : PDUResponse) : Nat := r.uint16 1

/-- Modelled from the spec: the frame is a notification (0x1B), not an indication (0x1D). -/
def notification (r : PDUResponse) : Bool := r.type == ATT_OP_HANDLE_NOTIFY

end PDUNotificationOrIndication

namespace PDUReadByTypeResponse

/-- Modelled from the spec: READ_BY_TYPE_RESP is `u8 element_size`, then the elements. -/
def element_size (r : PDUResponse) : Nat := r.uint8 1

/-- Modelled from the spec: an element is `(u16 handle, value_size = element_size − 2 bytes)`. -/
def value_size (r : PDUResponse) : Int := (element_size r : Int) - 2

/-- Modelled from the spec: the element count is `(payload_len − header) / element_size`,
with the 1-byte opcode header of §4.1. -/
def num_elements (r : PDUResponse) : Nat := (r.length - 1) / element_size r

/-- Modelled from the spec: the handle of element `i`, its first two bytes. -/
def handle (r : PDUResponse) (i : Nat) : Nat := r.uint16 (i * element_size r + 2)

/-- Modelled from the spec: the offset at which the value of element `i` begins
(`value(i).first`), right after its handle. -/
def value (r : PDUResponse) (i : Nat) : Nat := i * element_size r + 4

end PDUReadByTypeResponse

namespace PDUReadGroupByTypeResponse

/-- Modelled from the spec: READ_BY_GROUP_RESP is `u8 element_size`, then the elements. -/
def element_size (r : PDUResponse) : Nat := r.uint8 1

/-- Modelled from the spec: an element is
`(u16 start_handle, u16 end_handle, value_size = element_size − 4 bytes)`. -/
def value_size (r : PDUResponse) : Int := (element_size r : Int) - 4

/-- Modelled from the spec: the element count is `(payload_len − header) / element_size`,
with the 1-byte opcode header of §4.1. -/
def num_elements (r : PDUResponse) : Nat := (r.length - 1) / element_size r

/-- Modelled from the spec: the start handle of element `i`, its first two bytes. -/
def start_handle (r : PDUResponse) (i : Nat) : Nat := r.uint16 (i * element_size r + 2)

/-- Modelled from the spec: the end handle of element `i`, its bytes 2 and 3. -/
def end_handle (r : PDUResponse) (i : Nat) : Nat := r.uint16 (i * element_size r + 4)

end PDUReadGroupByTypeResponse

/-! ## Exceptions -/

/-- The exceptions of bluetooth.cc, one constructor per `throw` site kind. -/
inductive Exn where
  /-- Thrown as `"Error trying to issue command mid state\n"`. -/
  | mid_state
  /-- Thrown as `"Error: this is not indicateable"`. -/
  | not_indicateable
  /-- Thrown as `"Error: this is not notifiable"`. -/
  | not_notifiable
  /-- Thrown as `StateMachineGoneBad("Unexpected opcode in error. Expected .. got ..")`. -/
  | unexpected_opcode_in_error (expected : Int) (got : Nat)
  /-- Thrown as `StateMachineGoneBad("Unexpected response. Expected .. got ..")`. -/
  | unexpected_response (expected : Int) (got : Nat)
  /-- Thrown as `StateMachineGoneBad("Received unexpected error:..")`. -/
  | received_unexpected_error (error_code : Nat)
  /-- Thrown as `runtime_error("Invalid packet size in GATTReadCharacteristic")`. -/
  | invalid_packet_size
  /-- Thrown as `runtime_error("Invalid UUID length in PDUReadGroupByTypeResponse")`. -/
  | invalid_uuid_length
  /-- Thrown by the call of an empty `std::function`. -/
  | bad_function_call
  /-- Not an exception: `back()` of an empty `std::vector`, undefined behaviour. -/
  | back_of_empty_vector
deriving DecidableEq, Repr

/-- The two `StateMachineGoneBad` errors of the opcode validation of
`read_and_process_next` (lines 590-605). -/
def Exn.is_desync : Exn → Bool
  | .unexpected_opcode_in_error _ _ => true
  | .unexpected_response _ _ => true
  | _ => false

/-! ## GATT views (src/bluetooth.cc, lines 157-241) -/

namespace GATTReadCharacteristic

/-- The nested `struct Characteristic` of the view: value handle, flag byte, UUID. -/
structure Characteristic where
  handle : Nat
  flags : Nat
  uuid : UUID
deriving DecidableEq, Repr

/-- The constructor: throws unless `value_size()` is 5 or 19. -/
def ctor (p : PDUResponse) : Option Exn :=
  if PDUReadByTypeResponse.value_size p ≠ 5 ∧ PDUReadByTypeResponse.value_size p ≠ 19 then
    some Exn.invalid_packet_size
  else none

/-- The element `i` read as a characteristic declaration. -/
def characteristic (p : PDUResponse) (i : Nat) : Characteristic :=
  { handle := p.uint16 (PDUReadByTypeResponse.value p i + 1)
    flags := p.uint8 (PDUReadByTypeResponse.value p i)
    uuid :=
      if PDUReadByTypeResponse.value_size p = 5 then
        UUID.u16 (p.uint16 (PDUReadByTypeResponse.value p i + 3))
      else
        UUID.u128 (p.le_value (PDUReadByTypeResponse.value p i + 3) 16) }

end GATTReadCharacteristic

namespace GATTReadCCC

/-- The constructor: throws unless `value_size()` is 2. -/
def ctor (p : PDUResponse) : Option Exn :=
  if PDUReadByTypeResponse.value_size p ≠ 2 then some Exn.invalid_packet_size else none

/-- The value of element `i` read as a u16. -/
def ccc (p : PDUResponse) (i : Nat) : Nat := p.uint16 (PDUReadByTypeResponse.value p i)

end GATTReadCCC

namespace GATTReadServiceGroup

/-- The constructor: raises a `runtime_error` unless `value_size()` is 2 or 16. -/
def ctor (p : PDUResponse) : Option Exn :=
  if PDUReadGroupByTypeResponse.value_size p ≠ 2 ∧ PDUReadGroupByTypeResponse.value_size p ≠ 16 then
    some Exn.invalid_uuid_length
  else none

/-- The UUID of element `i`, read at `data + i*element_size() + 6`. -/
def uuid (p : PDUResponse) (i : Nat) : UUID :=
  if PDUReadGroupByTypeResponse.value_size p = 2 then
    UUID.u16 (p.uint16 (i * PDUReadGroupByTypeResponse.element_size p + 6))
  else
    UUID.u128 (p.le_value (i * PDUReadGroupByTypeResponse.element_size p + 6) 16)

end GATTReadServiceGroup

/-! ## Attribute database and machine (lines 312-518) -/

/-- The `enum States`. -/
inductive States where
  | Idle
  | ReadingPrimaryService
  | FindAllCharacteristics
  | GetClientCharaceristicConfiguration
  | AwaitingWriteResponse
deriving DecidableEq, Repr

/-- The `struct Characteristic`.  `cb_notify_or_indicate` is `none` for an empty
`std::function` and `some k` when the host bound its function number `k`.  The
back pointer `s` is the machine passed to `set_notify_and_indicate`.  The struct has no
constructor initialising `ccc_last_known_value`: the member is `none` until the code
assigns it and `some v` afterwards. -/
structure Characteristic where
  cb_notify_or_indicate : Option Nat
  broadcast : Bool
  read : Bool
  write_without_response : Bool
  write : Bool
  notify : Bool
  indicate : Bool
  authenticated_write : Bool
  extended : Bool
  uuid : UUID
  value_handle : Nat
  client_characteric_configuration_handle : Nat
  ccc_last_known_value : Option Nat
  first_handle : Nat
  last_handle : Nat
deriving DecidableEq, Repr

/-- The `struct PrimaryService`. -/
structure PrimaryService where
  start_handle : Nat
  end_handle : Nat
  uuid : UUID
  characteristics : List Characteristic
deriving DecidableEq, Repr

/-- The four phase-completion callbacks of the machine. -/
inductive CallbackName where
  | cb_services_read
  | cb_find_characteristics
  | cb_get_client_characteristic_configuration
  | cb_write_response
deriving DecidableEq, Repr

/-- What the machine did, in order: PDUs handed to `dev.send_*` and callbacks invoked. -/
inductive Event where
  /-- Call `dev.send_read_group_by_type(uuid, start, end)`. -/
  | send_read_group_by_type (uuid : UUID) (start : Int) (last : Int)
  /-- Call `dev.send_read_by_type(uuid, start, end)`. -/
  | send_read_by_type (uuid : UUID) (start : Int) (last : Int)
  /-- Call `dev.send_handle_value_confirmation()`. -/
  | send_handle_value_confirmation
  /-- Call `dev.send_write_command(handle, value)`. -/
  | send_write_command (handle : Nat) (value : Nat)
  /-- A phase callback starts, seeing this `state`, `next_handle_to_read`, `last_request`. -/
  | callback (cb : CallbackName) (state : States) (next_handle_to_read : Int) (last_request : Int)
  /-- Call `c.cb_notify_or_indicate(n)`, bound to function `k`, for the characteristic
  number `ci` of service number `si`. -/
  | characteristic_cb (k : Nat) (si : Nat) (ci : Nat) (n : PDUResponse)
  /-- Call the machine-wide `cb_notify_or_indicate(c, n)`, bound to function `k`, for the
  characteristic number `ci` of service number `si`. -/
  | machine_cb (k : Nat) (si : Nat) (ci : Nat) (n : PDUResponse)
deriving DecidableEq, Repr

/-- The event is an outbound PDU. -/
def Event.is_send : Event → Bool
  | .send_read_group_by_type _ _ _ => true
  | .send_read_by_type _ _ _ => true
  | .send_handle_value_confirmation => true
  | .send_write_command _ _ => true
  | _ => false

/-- The event is the invocation of a callback. -/
def Event.is_callback : Event → Bool
  | .callback _ _ _ _ => true
  | .characteristic_cb _ _ _ _ => true
  | .machine_cb _ _ _ _ => true
  | _ => false

/-- The event is a notification callback invoked for characteristic `ci` of service `si`. -/
def Event.is_notify_cb_for (si ci : Nat) : Event → Bool
  | .characteristic_cb _ i j _ => i == si && j == ci
  | .machine_cb _ i j _ => i == si && j == ci
  | _ => false

/-- The data members of `class BLEGATTStateMachine`; `trace` stands for `dev` and for the
calls into host code.  `cb_notify_or_indicate` is the machine-wide notification callback,
declared without an initialiser (so empty, `none`, until the host binds it). -/
structure BLEGATTStateMachine where
  primary_services : List PrimaryService
  state : States
  next_handle_to_read : Int
  last_request : Int
  cb_notify_or_indicate : Option Nat
  trace : List Event
deriving DecidableEq, Repr

/-- The result of a member function: the machine afterwards and the exception that left
the function, if any. -/
structure Outcome where
  m : BLEGATTStateMachine
  thrown : Option Exn
deriving DecidableEq, Repr

/-- The host's phase callbacks. -/
structure Callbacks where
  cb_services_read : BLEGATTStateMachine → Outcome
  cb_find_characteristics : BLEGATTStateMachine → Outcome
  cb_get_client_characteristic_configuration : BLEGATTStateMachine → Outcome
  cb_write_response : BLEGATTStateMachine → Outcome

/-- The default callback `buggerall`. -/
def buggerall (m : BLEGATTStateMachine) : Outcome := { m := m, thrown := none }

/-- The callbacks of a machine whose host bound none. -/
def Callbacks.default : Callbacks :=
  { cb_services_read := buggerall
    cb_find_characteristics := buggerall
    cb_get_client_characteristic_configuration := buggerall
    cb_write_response := buggerall }

/-- The machine right after construction: `Idle`, both integers -1, nothing discovered. -/
def BLEGATTStateMachine.init : BLEGATTStateMachine :=
  { primary_services := []
    state := States.Idle
    next_handle_to_read := -1
    last_request := -1
    cb_notify_or_indicate := none
    trace := [] }

/-! ## Operations (lines 513-564 and 790-805) -/

/-- The member `reset()`. -/
def reset (m : BLEGATTStateMachine) : BLEGATTStateMachine :=
  { m with state := States.Idle, next_handle_to_read := -1, last_request := -1 }

/-- The member `state_machine_write()`: records the request opcode and sends the request
of the current phase from `next_handle_to_read` to 0xffff. -/
def state_machine_write (m : BLEGATTStateMachine) : BLEGATTStateMachine :=
  if m.state = States.ReadingPrimaryService then
    { m with
      last_request := ATT_OP_READ_BY_GROUP_REQ
      trace := m.trace ++
        [Event.send_read_group_by_type (UUID.u16 GATT_UUID_PRIMARY) m.next_handle_to_read 0xffff] }
  else if m.state = States.FindAllCharacteristics then
    { m with
      last_request := ATT_OP_READ_BY_TYPE_REQ
      trace := m.trace ++
        [Event.send_read_by_type (UUID.u16 GATT_CHARACTERISTIC) m.next_handle_to_read 0xffff] }
  else if m.state = States.GetClientCharaceristicConfiguration then
    { m with
      last_request := ATT_OP_READ_BY_TYPE_REQ
      trace := m.trace ++
        [Event.send_read_by_type (UUID.u16 GATT_CLIENT_CHARACTERISTIC_CONFIGURATION)
          m.next_handle_to_read 0xffff] }
  else m

/-- The member `read_primary_services()`. -/
def read_primary_services (m : BLEGATTStateMachine) : Outcome :=
  { m := state_machine_write
      { m with state := States.ReadingPrimaryService, next_handle_to_read := 1 }
    thrown := none }

/-- The member `find_all_characteristics()`. -/
def find_all_characteristics (m : BLEGATTStateMachine) : Outcome :=
  if m.state ≠ States.Idle then
    { m := m, thrown := some Exn.mid_state }
  else
    { m := state_machine_write
        { m with state := States.FindAllCharacteristics, next_handle_to_read := 1 }
      thrown := none }

/-- The member `get_client_characteristic_configuration()`. -/
def get_client_characteristic_configuration (m : BLEGATTStateMachine) : Outcome :=
  if m.state ≠ States.Idle then
    { m := m, thrown := some Exn.mid_state }
  else
    { m := state_machine_write
        { m with state := States.GetClientCharaceristicConfiguration, next_handle_to_read := 1 }
      thrown := none }

/-- The member `set_notify_and_indicate(Characteristic& c, bool notify, bool indicate)`.
The second component is `c` after the call. -/
def set_notify_and_indicate (m : BLEGATTStateMachine) (c : Characteristic)
    (notify indicate : Bool) : Outcome × Characteristic :=
  if m.state ≠ States.Idle then
    ({ m := m, thrown := some Exn.mid_state }, c)
  else if (!c.indicate && indicate) = true then
    ({ m := m, thrown := some Exn.not_indicateable }, c)
  else if (!c.notify && notify) = true then
    ({ m := m, thrown := some Exn.not_notifiable }, c)
  else
    let v : Nat := (notify.toNat ||| (indicate.toNat <<< 1)) % 65536
    let c1 : Characteristic := { c with ccc_last_known_value := some v }
    ({ m := { m with
              trace := m.trace ++
                [Event.send_write_command c1.client_characteric_configuration_handle v] }
       thrown := none }, c1)

/-- Replace element `i` of a list, when there is one. -/
def replace_at {α : Type} (xs : List α) (i : Nat) (x : α) : List α := xs.set i x

/-- The member `Characteristic::set_notify_and_indicate(notify, indicate)` called on the
characteristic number `ci` of service number `si` of the machine's own database: the
reference `c` aliases that entry, so the entry is what changes. -/
def Characteristic.set_notify_and_indicate (m : BLEGATTStateMachine) (si ci : Nat)
    (notify indicate : Bool) : Outcome :=
  match m.primary_services.get? si with
  | none => { m := m, thrown := none }
  | some s =>
    match s.characteristics.get? ci with
    | none => { m := m, thrown := none }
    | some c =>
      let r := Blepp.set_notify_and_indicate m c notify indicate
      { m := { r.1.m with
               primary_services := replace_at r.1.m.primary_services si
                 { s with characteristics := replace_at s.characteristics ci r.2 } }
        thrown := r.1.thrown }

/-! ## The pump: notifications and indications (lines 571-589) -/

/-- Lines 580-583, the call made for a characteristic whose value handle matches: its
own callback when bound, else the machine-wide one; `none` when the function called is
empty. -/
def notify_call (fallback : Option Nat) (n : PDUResponse) (si ci : Nat) (c : Characteristic) :
    Option Event :=
  match c.cb_notify_or_indicate with
  | some k => some (Event.characteristic_cb k si ci n)
  | none =>
    match fallback with
    | some k => some (Event.machine_cb k si ci n)
    | none => none

/-- The inner loop `for(auto& c:s.characteristics)` of the notification branch, from
characteristic number `ci` on: the callback events, and the exception that ended it. -/
def notify_characteristics (fallback : Option Nat) (n : PDUResponse) (si : Nat) :
    Nat → List Characteristic → List Event × Option Exn
  | _, [] => ([], none)
  | ci, c :: cs =>
    if PDUNotificationOrIndication.handle n = c.value_handle then
      match notify_call fallback n si ci c with
      | some ev =>
        (ev :: (notify_characteristics fallback n si (ci + 1) cs).1,
          (notify_characteristics fallback n si (ci + 1) cs).2)
      | none => ([], some Exn.bad_function_call)
    else notify_characteristics fallback n si (ci + 1) cs

/-- The outer loop `for(auto& s:primary_services)` of the notification branch, from
service number `si` on. -/
def notify_services (fallback : Option Nat) (n : PDUResponse) :
    Nat → List PrimaryService → List Event × Option Exn
  | _, [] => ([], none)
  | si, s :: ss =>
    if PDUNotificationOrIndication.handle n > s.start_handle ∧
        PDUNotificationOrIndication.handle n ≤ s.end_handle then
      match notify_characteristics fallback n si 0 s.characteristics with
      | (es, some e) => (es, some e)
      | (es, none) =>
        (es ++ (notify_services fallback n (si + 1) ss).1,
          (notify_services fallback n (si + 1) ss).2)
    else notify_services fallback n (si + 1) ss

/-- The notification branch of `read_and_process_next`: dispatch, then the confirmation
of an indication. -/
def handle_notification (m : BLEGATTStateMachine) (n : PDUResponse) : Outcome :=
  match notify_services m.cb_notify_or_indicate n 0 m.primary_services with
  | (es, some e) => { m := { m with trace := m.trace ++ es }, thrown := some e }
  | (es, none) =>
    if PDUNotificationOrIndication.notification n = false then
      { m := { m with trace := m.trace ++ es ++ [Event.send_handle_value_confirmation] }
        thrown := none }
    else
      { m := { m with trace := m.trace ++ es }, thrown := none }

/-! ## The pump: phase handling (lines 606-785) -/

/-- Invoke a phase callback: the trace records what the callback sees on entry. -/
def fire (name : CallbackName) (cb : BLEGATTStateMachine → Outcome)
    (m : BLEGATTStateMachine) : Outcome :=
  cb { m with
       trace := m.trace ++ [Event.callback name m.state m.next_handle_to_read m.last_request] }

/-- The body of the loop of lines 631-638: element `i` as a new `PrimaryService`. -/
def service_of (g : PDUResponse) (i : Nat) : PrimaryService :=
  { start_handle := PDUReadGroupByTypeResponse.start_handle g i
    end_handle := PDUReadGroupByTypeResponse.end_handle g i
    uuid := GATTReadServiceGroup.uuid g i
    characteristics := [] }

/-- The `ReadingPrimaryService` branch (lines 608-652). -/
def process_ReadingPrimaryService (cbs : Callbacks) (m : BLEGATTStateMachine)
    (r : PDUResponse) : Outcome :=
  if r.type = ATT_OP_ERROR then
    if PDUErrorResponse.error_code r = ATT_ECODE_ATTR_NOT_FOUND then
      let o := fire CallbackName.cb_services_read cbs.cb_services_read m
      match o.thrown with
      | some e => { m := o.m, thrown := some e }
      | none => { m := reset o.m, thrown := none }
    else
      { m := reset m
        thrown := some (Exn.received_unexpected_error (PDUErrorResponse.error_code r)) }
  else
    match GATTReadServiceGroup.ctor r with
    | some e => { m := m, thrown := some e }
    | none =>
      let m1 : BLEGATTStateMachine :=
        { m with
          primary_services := m.primary_services ++
            (List.range (PDUReadGroupByTypeResponse.num_elements r)).map (service_of r) }
      match m1.primary_services.getLast? with
      | none => { m := m1, thrown := some Exn.back_of_empty_vector }
      | some back =>
        if back.end_handle = 0xffff then
          fire CallbackName.cb_services_read cbs.cb_services_read (reset m1)
        else
          { m := state_machine_write { m1 with next_handle_to_read := (back.end_handle : Int) + 1 }
            thrown := none }

/-- Lines 689-706: the `Characteristic` built for the declaration at `handle` in a
service ending at `end_handle`.  The code assigns neither `cb_notify_or_indicate` (an empty
`std::function`, `none`) nor `ccc_last_known_value` (left uninitialised, `none`). -/
def new_characteristic (handle : Nat) (ch : GATTReadCharacteristic.Characteristic)
    (end_handle : Nat) : Characteristic :=
  { cb_notify_or_indicate := none
    broadcast := ch.flags &&& GATT_CHARACTERISTIC_FLAGS_BROADCAST != 0
    read := ch.flags &&& GATT_CHARACTERISTIC_FLAGS_READ != 0
    write_without_response := ch.flags &&& GATT_CHARACTERISTIC_FLAGS_WRITE_WITHOUT_RESPONSE != 0
    write := ch.flags &&& GATT_CHARACTERISTIC_FLAGS_WRITE != 0
    notify := ch.flags &&& GATT_CHARACTERISTIC_FLAGS_NOTIFY != 0
    indicate := ch.flags &&& GATT_CHARACTERISTIC_FLAGS_INDICATE != 0
    authenticated_write := ch.flags &&& GATT_CHARACTERISTIC_FLAGS_AUTHENTICATED_SIGNED_WRITES != 0
    extended := ch.flags &&& GATT_CHARACTERISTIC_FLAGS_EXTENDED_PROPERTIES != 0
    uuid := ch.uuid
    value_handle := ch.handle
    client_characteric_configuration_handle := 0
    ccc_last_known_value := none
    first_handle := handle
    last_handle := end_handle }

/-- Lines 709-710: `characteristics.back().last_handle = handle-1` (a uint16_t) when the
list is not empty. -/
def terminate_previous (handle : Nat) : List Characteristic → List Characteristic
  | [] => []
  | [c] => [{ c with last_handle := (handle + 65535) % 65536 }]
  | c :: d :: cs => c :: terminate_previous handle (d :: cs)

/-- The body of the service loop of lines 684-717 for one service. -/
def add_characteristic (handle : Nat) (ch : GATTReadCharacteristic.Characteristic)
    (s : PrimaryService) : PrimaryService :=
  if handle > s.start_handle ∧ handle ≤ s.end_handle then
    { s with
      characteristics :=
        terminate_previous handle s.characteristics ++ [new_characteristic handle ch s.end_handle] }
  else s

/-- The body of the element loop of lines 676-720 for element `i`. -/
def find_characteristics_element (rc : PDUResponse) (m : BLEGATTStateMachine) (i : Nat) :
    BLEGATTStateMachine :=
  { m with
    primary_services :=
      m.primary_services.map
        (add_characteristic (PDUReadByTypeResponse.handle rc i)
          (GATTReadCharacteristic.characteristic rc i))
    next_handle_to_read := (PDUReadByTypeResponse.handle rc i : Int) + 1 }

/-- The `FindAllCharacteristics` branch (lines 653-724). -/
def process_FindAllCharacteristics (cbs : Callbacks) (m : BLEGATTStateMachine)
    (r : PDUResponse) : Outcome :=
  if r.type = ATT_OP_ERROR then
    if PDUErrorResponse.error_code r = ATT_ECODE_ATTR_NOT_FOUND then
      fire CallbackName.cb_find_characteristics cbs.cb_find_characteristics (reset m)
    else
      { m := reset m
        thrown := some (Exn.received_unexpected_error (PDUErrorResponse.error_code r)) }
  else
    match GATTReadCharacteristic.ctor r with
    | some e => { m := m, thrown := some e }
    | none =>
      { m := state_machine_write
          ((List.range (PDUReadByTypeResponse.num_elements r)).foldl
            (find_characteristics_element r) m)
        thrown := none }

/-- Lines 758-763 for one characteristic of a service that contains `handle`. -/
def set_ccc (handle ccc : Nat) (c : Characteristic) : Characteristic :=
  if handle > c.first_handle ∧ handle ≤ c.last_handle then
    { c with client_characteric_configuration_handle := handle, ccc_last_known_value := some ccc }
  else c

/-- Lines 756-763 for one service. -/
def set_ccc_service (handle ccc : Nat) (s : PrimaryService) : PrimaryService :=
  if handle > s.start_handle ∧ handle ≤ s.end_handle then
    { s with characteristics := s.characteristics.map (set_ccc handle ccc) }
  else s

/-- The body of the element loop of lines 748-765 for element `i`. -/
def ccc_element (rc : PDUResponse) (m : BLEGATTStateMachine) (i : Nat) : BLEGATTStateMachine :=
  { m with
    next_handle_to_read := (PDUReadByTypeResponse.handle rc i : Int) + 1
    primary_services :=
      m.primary_services.map
        (set_ccc_service (PDUReadByTypeResponse.handle rc i) (GATTReadCCC.ccc rc i)) }

/-- The `GetClientCharaceristicConfiguration` branch (lines 725-768). -/
def process_GetClientCharaceristicConfiguration (cbs : Callbacks) (m : BLEGATTStateMachine)
    (r : PDUResponse) : Outcome :=
  if r.type = ATT_OP_ERROR then
    if PDUErrorResponse.error_code r = ATT_ECODE_ATTR_NOT_FOUND then
      fire CallbackName.cb_get_client_characteristic_configuration
        cbs.cb_get_client_characteristic_configuration (reset m)
    else
      { m := reset m
        thrown := some (Exn.received_unexpected_error (PDUErrorResponse.error_code r)) }
  else
    match GATTReadCCC.ctor r with
    | some e => { m := m, thrown := some e }
    | none =>
      { m := state_machine_write
          ((List.range (PDUReadByTypeResponse.num_elements r)).foldl (ccc_element r) m)
        thrown := none }

/-- The `AwaitingWriteResponse` branch (lines 769-784). -/
def process_AwaitingWriteResponse (cbs : Callbacks) (m : BLEGATTStateMachine)
    (r : PDUResponse) : Outcome :=
  if r.type = ATT_OP_ERROR then
    { m := m, thrown := some (Exn.received_unexpected_error (PDUErrorResponse.error_code r)) }
  else
    fire CallbackName.cb_write_response cbs.cb_write_response (reset m)

/-- The member `read_and_process_next()` (the pump), on the frame `r` that `dev.receive`
returned. -/
def read_and_process_next (cbs : Callbacks) (m : BLEGATTStateMachine) (r : PDUResponse) :
    Outcome :=
  if r.type = ATT_OP_HANDLE_NOTIFY ∨ r.type = ATT_OP_HANDLE_IND then
    handle_notification m r
  else if r.type = ATT_OP_ERROR ∧ (PDUErrorResponse.request_opcode r : Int) ≠ m.last_request then
    { m := reset m
      thrown := some (Exn.unexpected_opcode_in_error m.last_request
        (PDUErrorResponse.request_opcode r)) }
  else if r.type ≠ ATT_OP_ERROR ∧ (r.type : Int) ≠ m.last_request + 1 then
    { m := reset m
      thrown := some (Exn.unexpected_response (m.last_request + 1) r.type) }
  else
    match m.state with
    | States.ReadingPrimaryService => process_ReadingPrimaryService cbs m r
    | States.FindAllCharacteristics => process_FindAllCharacteristics cbs m r
    | States.GetClientCharaceristicConfiguration =>
      process_GetClientCharaceristicConfiguration cbs m r
    | States.AwaitingWriteResponse => process_AwaitingWriteResponse cbs m r
    | States.Idle => { m := m, thrown := none }

/-! ## The host of `main` (lines 885-913) -/

/-- The lambda bound to `cb_services_read` by `main`: start the characteristic discovery. -/
def main_cb_services_read (s : BLEGATTStateMachine) : Outcome := find_all_characteristics s

/-- A characteristic with every flag clear, no callback, all handles 0 and the last known
CCC value 0. -/
def Characteristic.blank : Characteristic :=
  { cb_notify_or_indicate := none
    broadcast := false
    read := false
    write_without_response := false
    write := false
    notify := false
    indicate := false
    authenticated_write := false
    extended := false
    uuid := UUID.u16 0
    value_handle := 0
    client_characteric_configuration_handle := 0
    ccc_last_known_value := some 0
    first_handle := 0
    last_handle := 0 }

/-- A machine in the middle of the characteristic discovery: the request for the page
from handle 5 is outstanding. -/
def ex_mid_discovery : BLEGATTStateMachine :=
  { BLEGATTStateMachine.init with
    state := States.FindAllCharacteristics
    next_handle_to_read := 5
    last_request := 8 }

/-- A machine awaiting the second page of primary services, the first page recorded:
one service 0x0001..0x000B with UUID 0x1800 (scenario 2 of the spec). -/
def ex_reading_services : BLEGATTStateMachine :=
  { BLEGATTStateMachine.init with
    primary_services :=
      [{ start_handle := 1, end_handle := 0x0B, uuid := UUID.u16 0x1800, characteristics := [] }]
    state := States.ReadingPrimaryService
    next_handle_to_read := 0x0C
    last_request := 0x10 }

/-- The frame ERROR_RESP(request READ_BY_GROUP_REQ, handle 0x000C, ATTR_NOT_FOUND). -/
def ex_attr_not_found : PDUResponse := { data := [0x01, 0x10, 0x0C, 0x00, 0x0A] }

/-- A characteristic that advertises indicate and whose CCC descriptor is at 0x0011
(scenario 6 of the spec). -/
def ex_indicatable : Characteristic :=
  { Characteristic.blank with
    indicate := true
    value_handle := 0x10
    client_characteric_configuration_handle := 0x11
    first_handle := 0x0F
    last_handle := 0x11 }

/-- A write response: the single opcode byte 0x13. -/
def ex_write_resp : PDUResponse := { data := [0x13] }

/-- A characteristic that advertises notify and for which no CCC descriptor was found
(`client_characteric_configuration_handle` 0), its last known CCC value 0. -/
def ex_no_ccc : Characteristic :=
  { Characteristic.blank with
    notify := true
    value_handle := 0x10
    first_handle := 0x0F
    last_handle := 0x11 }

/-- The frame READ_BY_GROUP_RESP with one 6-byte element: the service 0x0001..0xFFFF with
UUID 0x1809 (Health Thermometer). -/
def ex_services_page : PDUResponse :=
  { data := [0x11, 0x06, 0x01, 0x00, 0xFF, 0xFF, 0x09, 0x18] }

/-- The frame READ_BY_TYPE_RESP with one 7-byte element: the declaration at handle 0x000F
of a characteristic with flag byte 0x20 (indicate), value handle 0x0010, UUID 0x2A1C. -/
def ex_characteristics_page : PDUResponse :=
  { data := [0x09, 0x07, 0x0F, 0x00, 0x20, 0x10, 0x00, 0x1C, 0x2A] }

/-- The frame ERROR_RESP(request READ_BY_TYPE_REQ, handle 0x0010, ATTR_NOT_FOUND). -/
def ex_type_not_found : PDUResponse := { data := [0x01, 0x08, 0x10, 0x00, 0x0A] }

/-- The loop `for(;;) gatt.read_and_process_next();` of `main` over the frames the peer
sends, until one throws. -/
def pump_frames (cbs : Callbacks) : BLEGATTStateMachine → List PDUResponse → Outcome
  | m, [] => { m := m, thrown := none }
  | m, r :: rs =>
    match (read_and_process_next cbs m r).thrown with
    | some e => { m := (read_and_process_next cbs m r).m, thrown := some e }
    | none => pump_frames cbs (read_and_process_next cbs m r).m rs

/-- A freshly constructed machine (no callback bound) after the discovery of the services
and of the characteristics of a peer with one service and one indicatable characteristic
whose value handle is 0x0010. -/
def ex_discovered : BLEGATTStateMachine :=
  (pump_frames Callbacks.default
    (find_all_characteristics
      (pump_frames Callbacks.default (read_primary_services BLEGATTStateMachine.init).m
        [ex_services_page]).m).m
    [ex_characteristics_page, ex_type_not_found]).m

/-- The frame HANDLE_IND handle=0x0010 payload=[0x00] (scenario 5 of the spec). -/
def ex_indication : PDUResponse := { data := [0x1D, 0x10, 0x00, 0x00] }

/-- The frame HANDLE_NOTIFY handle=0x0010 payload=[0x2A, 0x01] (scenario 4 of the spec). -/
def ex_notification : PDUResponse := { data := [0x1B, 0x10, 0x00, 0x2A, 0x01] }

/-- The frame READ_BY_GROUP_RESP with one 6-byte element: the service 0x0001..0x000B with
UUID 0x1800 (scenario 2 of the spec). -/
def ex_first_services_page : PDUResponse :=
  { data := [0x11, 0x06, 0x01, 0x00, 0x0B, 0x00, 0x00, 0x18] }

/-- The frame READ_BY_TYPE_RESP with one 7-byte element: the declaration at handle 0x0002
of a characteristic with flag byte 0x10 (notify), value handle 0x0010, UUID 0x2A00. -/
def ex_far_value_page : PDUResponse :=
  { data := [0x09, 0x07, 0x02, 0x00, 0x10, 0x10, 0x00, 0x00, 0x2A] }

/-- A machine after the discovery of a peer that declares, inside its service
0x0001..0x000B, a characteristic at handle 0x0002 whose value handle 0x0010 lies outside
the service; the host then bound its function 9 to the machine-wide
`cb_notify_or_indicate`. -/
def ex_value_handle_outside : BLEGATTStateMachine :=
  { (pump_frames Callbacks.default
      (find_all_characteristics
        (pump_frames Callbacks.default (read_primary_services BLEGATTStateMachine.init).m
          [ex_first_services_page, ex_attr_not_found]).m).m
      [ex_far_value_page, ex_type_not_found]).m with
    cb_notify_or_indicate := some 9 }

/-- The characteristic stored by the run that defines `ex_discovered`; the discovery never
assigned its `ccc_last_known_value`. -/
def ex_thermometer_characteristic : Characteristic :=
  { Characteristic.blank with
    indicate := true
    uuid := UUID.u16 0x2A1C
    value_handle := 0x10
    ccc_last_known_value := none
    first_handle := 0x0F
    last_handle := 0xFFFF }

/-- The service stored by the run that defines `ex_discovered`. -/
def ex_thermometer_service : PrimaryService :=
  { start_handle := 1
    end_handle := 0xFFFF
    uuid := UUID.u16 0x1809
    characteristics := [ex_thermometer_characteristic] }

/-- The machine `ex_discovered` once the host bound its function 9 to the machine-wide
`cb_notify_or_indicate`. -/
def ex_discovered_bound : BLEGATTStateMachine :=
  { ex_discovered with cb_notify_or_indicate := some 9 }

/-- A frame with opcode READ_BY_TYPE_RESP whose element_size byte is 5 (so value_size 3):
one element, handle 0x0003, then three value bytes. -/
def ex_width_5_page : PDUResponse := { data := [0x09, 0x05, 0x03, 0x00, 0x02, 0x04, 0x00] }

/-- A frame with opcode READ_BY_TYPE_RESP whose element_size byte is 7 (so value_size 5):
the declaration at handle 0x0003 of scenario 3 of the spec, flag byte 0x02, value handle
0x0004, UUID 0x2A00. -/
def ex_width_7_page : PDUResponse :=
  { data := [0x09, 0x07, 0x03, 0x00, 0x02, 0x04, 0x00, 0x00, 0x2A] }

/-- The machine right after `find_all_characteristics()` on a freshly constructed machine:
the first page of characteristics is awaited. -/
def ex_awaiting_characteristics : BLEGATTStateMachine :=
  (find_all_characteristics BLEGATTStateMachine.init).m

/-- A call the host can make on the machine: a phase entry, a subscription (on a
characteristic object of its own, or on the one stored at position `ci` of service `si`),
or one turn of the pump on the frame received. -/
inductive Call where
  | read_primary_services
  | find_all_characteristics
  | get_client_characteristic_configuration
  | set_notify_and_indicate (c : Characteristic) (notify indicate : Bool)
  | stored_set_notify_and_indicate (si ci : Nat) (notify indicate : Bool)
  | read_and_process_next (r : PDUResponse)
deriving DecidableEq, Repr

/-- The machine after one call, under the default (no-op) callbacks; when the call throws,
the machine is as the throw left it and the host carries on. -/
def Call.apply (m : BLEGATTStateMachine) : Call → BLEGATTStateMachine
  | Call.read_primary_services => (Blepp.read_primary_services m).m
  | Call.find_all_characteristics => (Blepp.find_all_characteristics m).m
  | Call.get_client_characteristic_configuration =>
    (Blepp.get_client_characteristic_configuration m).m
  | Call.set_notify_and_indicate c notify indicate =>
    (Blepp.set_notify_and_indicate m c notify indicate).1.m
  | Call.stored_set_notify_and_indicate si ci notify indicate =>
    (Characteristic.set_notify_and_indicate m si ci notify indicate).m
  | Call.read_and_process_next r => (Blepp.read_and_process_next Callbacks.default m r).m

/-- The machine reached from the freshly constructed one by a sequence of calls. -/
def run_calls (calls : List Call) : BLEGATTStateMachine :=
  calls.foldl Call.apply BLEGATTStateMachine.init

/-- The machine right after `read_primary_services()` on a freshly constructed machine:
the first page of services is awaited. -/
def ex_awaiting_services : BLEGATTStateMachine :=
  (read_primary_services BLEGATTStateMachine.init).m

/-- The machine after the services page of `ex_services_page` and
`find_all_characteristics()`: the service 0x0001..0xFFFF is stored and the first page of
characteristics is awaited. -/
def ex_awaiting_thermometer_characteristics : BLEGATTStateMachine :=
  (find_all_characteristics
    (pump_frames Callbacks.default ex_awaiting_services [ex_services_page]).m).m

/-- The machine `ex_discovered` after `get_client_characteristic_configuration()`: the first
page of CCC descriptors is awaited. -/
def ex_awaiting_ccc : BLEGATTStateMachine :=
  (get_client_characteristic_configuration ex_discovered).m

/-- The frame READ_BY_TYPE_RESP with one 4-byte element: the CCC descriptor at handle
0x0011 with value 0x0002. -/
def ex_ccc_page : PDUResponse := { data := [0x09, 0x04, 0x11, 0x00, 0x02, 0x00] }

/-- The frame READ_BY_TYPE_RESP with one 7-byte element: the declaration at handle 0xFFFF
of a characteristic with flag byte 0x02, value handle 0xFFFF, UUID 0x2A00. -/
def ex_last_handle_declaration_page : PDUResponse :=
  { data := [0x09, 0x07, 0xFF, 0xFF, 0x02, 0xFF, 0xFF, 0x00, 0x2A] }

/-- The frame READ_BY_TYPE_RESP with one 4-byte element: a CCC descriptor at handle 0xFFFF,
the last handle of the attribute space, with value 0x0000. -/
def ex_last_handle_ccc_page : PDUResponse :=
  { data := [0x09, 0x04, 0xFF, 0xFF, 0x00, 0x00] }

/-- The machine after the discovery of the single service 0x0001..0x000B (scenario 2 of
the spec) and `find_all_characteristics()`: the first page of characteristics is awaited. -/
def ex_awaiting_first_characteristics : BLEGATTStateMachine :=
  (find_all_characteristics
    (pump_frames Callbacks.default ex_awaiting_services
      [ex_first_services_page, ex_attr_not_found]).m).m

/-- The frame READ_BY_GROUP_RESP that is its two header bytes only: element_size 6 and no
element. -/
def ex_empty_services_page : PDUResponse := { data := [0x11, 0x06] }

/-- The handle bounds that hold of every stored service `s` whatever the peer sends: each
characteristic of `s` has its `first_handle` in the range of `s` (`start_handle` excluded)
and its `last_handle` at most `end_handle`, and the last characteristic of `s` ends at
`end_handle`. -/
def PrimaryService.handles_bounded (s : PrimaryService) : Prop :=
  (∀ c ∈ s.characteristics,
    s.start_handle < c.first_handle ∧ c.first_handle ≤ s.end_handle ∧
      c.last_handle ≤ s.end_handle) ∧
  (∀ c, s.characteristics.getLast? = some c → c.last_handle = s.end_handle)

/-- The invariant of §3 and §8 of the specification for one service `s`, in its words:
every characteristic `c` of `s` has `s.start_handle < c.first_handle <= c.last_handle <=
s.end_handle` and `c.value_handle` in `[c.first_handle, c.last_handle]`. -/
def PrimaryService.handles_ordered (s : PrimaryService) : Prop :=
  ∀ c ∈ s.characteristics,
    s.start_handle < c.first_handle ∧ c.first_handle ≤ c.last_handle ∧
      c.last_handle ≤ s.end_handle ∧ c.first_handle ≤ c.value_handle ∧
      c.value_handle ≤ c.last_handle

/-- Two consecutive characteristics of a service, in append order, are contiguous: the
first ends right before the declaration handle of the second. -/
def contiguous (c1 c2 : Characteristic) : Prop := c1.last_handle + 1 = c2.first_handle

/-- Two consecutive characteristics of a service, in append order, are in strictly
ascending order of declaration handle. -/
def ascending (c1 c2 : Characteristic) : Prop := c1.first_handle < c2.first_handle

/-- The characteristic `d` has the three handles of `c`: they differ at most in the CCC
members, the flags, the UUID and the callback. -/
def same_handles (c d : Characteristic) : Prop :=
  d.first_handle = c.first_handle ∧ d.last_handle = c.last_handle ∧
    d.value_handle = c.value_handle

/-- The eight booleans of a stored characteristic, in the order of their masks: 0x01 for
`broadcast`, up to 0x80 for `extended`. -/
def Characteristic.flag_bools (c : Characteristic) : List Bool :=
  [c.broadcast, c.read, c.write_without_response, c.write, c.notify, c.indicate,
    c.authenticated_write, c.extended]

/-- The eight bits of a byte, from bit 0 (mask 0x01) to bit 7 (mask 0x80). -/
def byte_bits (f : Nat) : List Bool :=
  [f.testBit 0, f.testBit 1, f.testBit 2, f.testBit 3, f.testBit 4, f.testBit 5,
    f.testBit 6, f.testBit 7]

/-- A page of two characteristic declarations in descending order: at handle 0x0005 (value
handle 0x0006, UUID 0x2A00), then at handle 0x0003 (value handle 0x0010, UUID 0x2A01). -/
def ex_descending_page : PDUResponse :=
  { data := [0x09, 0x07, 0x05, 0x00, 0x02, 0x06, 0x00, 0x00, 0x2A,
      0x03, 0x00, 0x02, 0x10, 0x00, 0x01, 0x2A] }

/-- The calls of a discovery of the service 0x0001..0x000B (scenario 2 of the spec) whose
characteristic page is `ex_descending_page`. -/
def ex_descending_calls : List Call :=
  [Call.read_primary_services,
    Call.read_and_process_next ex_first_services_page,
    Call.read_and_process_next ex_attr_not_found,
    Call.find_all_characteristics,
    Call.read_and_process_next ex_descending_page]

/-- The calls of a discovery of the service 0x0001..0xFFFF and of its characteristic at
0x000F (value handle 0x0010), after which the host runs the characteristic discovery a
second time and the peer answers with the same page. -/
def ex_rediscovery_calls : List Call :=
  [Call.read_primary_services,
    Call.read_and_process_next ex_services_page,
    Call.find_all_characteristics,
    Call.read_and_process_next ex_characteristics_page,
    Call.read_and_process_next ex_type_not_found,
    Call.find_all_characteristics,
    Call.read_and_process_next ex_characteristics_page]

/-! # Theorems -/

/-! ## Phase entry -/

/-- Helper: `find_all_characteristics` called while not Idle throws and changes nothing. -/
theorem find_all_characteristics_mid_state (m : BLEGATTStateMachine)
    (h : m.state ≠ States.Idle) :
    find_all_characteristics m = { m := m, thrown := some Exn.mid_state } := by
  simp [find_all_characteristics, h]

/-- Helper: `get_client_characteristic_configuration` called while not Idle throws and
changes nothing. -/
theorem get_client_characteristic_configuration_mid_state (m : BLEGATTStateMachine)
    (h : m.state ≠ States.Idle) :
    get_client_characteristic_configuration m = { m := m, thrown := some Exn.mid_state } := by
  simp [get_client_characteristic_configuration, h]

/-- Helper: `set_notify_and_indicate` called while not Idle throws and changes nothing. -/
theorem set_notify_and_indicate_mid_state (m : BLEGATTStateMachine) (c : Characteristic)
    (notify indicate : Bool) (h : m.state ≠ States.Idle) :
    set_notify_and_indicate m c notify indicate =
      ({ m := m, thrown := some Exn.mid_state }, c) := by
  simp [set_notify_and_indicate, h]

/-- C1, evaluated where it fails: `read_primary_services` has no `state != Idle` guard.
Called in the middle of the characteristic discovery it throws nothing, overwrites
`state`, `next_handle_to_read` and `last_request`, and sends a READ_BY_GROUP_REQ. -/
theorem C1_read_primary_services_mid_state_not_rejected :
    ex_mid_discovery.state ≠ States.Idle ∧
    (read_primary_services ex_mid_discovery).thrown = none ∧
    (read_primary_services ex_mid_discovery).m.state = States.ReadingPrimaryService ∧
    (read_primary_services ex_mid_discovery).m.next_handle_to_read = 1 ∧
    (read_primary_services ex_mid_discovery).m.last_request = 0x10 ∧
    (read_primary_services ex_mid_discovery).m.trace =
      [Event.send_read_group_by_type (UUID.u16 0x2800) 1 0xffff] := by
  decide

/-! ## Phase completion -/

/-- Helper: a callback fired on a machine that was just reset sees `Idle`, -1, -1. -/
theorem fire_reset (name : CallbackName) (cb : BLEGATTStateMachine → Outcome)
    (m : BLEGATTStateMachine) :
    fire name cb (reset m) =
      cb { reset m with trace := m.trace ++ [Event.callback name States.Idle (-1) (-1)] } := by
  rfl

/-- Helper: a write response resets first and fires `cb_write_response` then. -/
theorem process_AwaitingWriteResponse_response (cbs : Callbacks) (m : BLEGATTStateMachine)
    (r : PDUResponse) (ht : r.type ≠ ATT_OP_ERROR) :
    process_AwaitingWriteResponse cbs m r =
      cbs.cb_write_response
        { reset m with
          trace := m.trace ++
            [Event.callback CallbackName.cb_write_response States.Idle (-1) (-1)] } := by
  simp [process_AwaitingWriteResponse, ht, fire_reset]

/-- C2, evaluated where it fails: in `ReadingPrimaryService` the ATTR_NOT_FOUND
terminator calls `cb_services_read` before `reset()`.  The callback sees state
`ReadingPrimaryService`, `next_handle_to_read` 0x0C and `last_request` 0x10; with the
callback of `main`, which starts the characteristic discovery, the pump ends in the
throw of `find_all_characteristics` and no request is sent. -/
theorem C2_services_read_fired_before_reset :
    (read_and_process_next Callbacks.default ex_reading_services ex_attr_not_found).m.trace =
      [Event.callback CallbackName.cb_services_read States.ReadingPrimaryService 0x0C 0x10] ∧
    (read_and_process_next
        { Callbacks.default with cb_services_read := main_cb_services_read }
        ex_reading_services ex_attr_not_found).thrown = some Exn.mid_state ∧
    (read_and_process_next
        { Callbacks.default with cb_services_read := main_cb_services_read }
        ex_reading_services ex_attr_not_found).m.trace =
      [Event.callback CallbackName.cb_services_read States.ReadingPrimaryService 0x0C 0x10] := by
  decide

/-! ## Subscription: `set_notify_and_indicate` -/

/-- Helper: `set_notify_and_indicate` never touches `state`, `next_handle_to_read`,
`last_request` or the stored services, whatever its arguments. -/
theorem set_notify_and_indicate_frame (m : BLEGATTStateMachine) (c : Characteristic)
    (notify indicate : Bool) :
    (set_notify_and_indicate m c notify indicate).1.m.state = m.state ∧
    (set_notify_and_indicate m c notify indicate).1.m.next_handle_to_read =
      m.next_handle_to_read ∧
    (set_notify_and_indicate m c notify indicate).1.m.last_request = m.last_request ∧
    (set_notify_and_indicate m c notify indicate).1.m.primary_services = m.primary_services := by
  unfold set_notify_and_indicate
  split_ifs <;> simp

/-- C3, evaluated where it fails: subscribing to indications of a characteristic with
`indicate` set and CCC handle 0x0011 from Idle is accepted and sends the write, but the
machine stays `Idle` with `last_request` -1 (`AwaitingWriteResponse` is never entered).
The write response that follows is then rejected by the opcode validation as
"Unexpected response", and `cb_write_response` is not fired. -/
theorem C3_set_notify_and_indicate_leaves_idle :
    (set_notify_and_indicate BLEGATTStateMachine.init ex_indicatable false true).1.thrown = none ∧
    (set_notify_and_indicate BLEGATTStateMachine.init ex_indicatable false true).1.m.state =
      States.Idle ∧
    (set_notify_and_indicate BLEGATTStateMachine.init ex_indicatable false true).1.m.last_request =
      -1 ∧
    (read_and_process_next Callbacks.default
        (set_notify_and_indicate BLEGATTStateMachine.init ex_indicatable false true).1.m
        ex_write_resp).thrown = some (Exn.unexpected_response 0 0x13) ∧
    (read_and_process_next Callbacks.default
        (set_notify_and_indicate BLEGATTStateMachine.init ex_indicatable false true).1.m
        ex_write_resp).m.trace = [Event.send_write_command 0x11 2] := by
  decide

/-- C4, evaluated where it fails: the CCC handle is not checked (the code says
`//FIXME: check for CCC`).  For a characteristic whose CCC handle is 0 the call throws
nothing, sends a write to handle 0 and overwrites `ccc_last_known_value` (0 before, 1
after). -/
theorem C4_set_notify_and_indicate_without_ccc_handle :
    ex_no_ccc.client_characteric_configuration_handle = 0 ∧
    ex_no_ccc.ccc_last_known_value = some 0 ∧
    (set_notify_and_indicate BLEGATTStateMachine.init ex_no_ccc true false).1.thrown = none ∧
    (set_notify_and_indicate BLEGATTStateMachine.init ex_no_ccc true false).1.m.trace =
      [Event.send_write_command 0 1] ∧
    (set_notify_and_indicate BLEGATTStateMachine.init ex_no_ccc true false).2.ccc_last_known_value
      = some 1 := by
  decide

/-- C5: when notify is requested of a characteristic that does not advertise notify, or
indicate of one that does not advertise indicate, `set_notify_and_indicate` throws, and
neither the machine (its state, its trace: nothing is sent) nor the characteristic
(its `ccc_last_known_value`) changes.  This holds in every machine state. -/
theorem C5_set_notify_and_indicate_unadvertised (m : BLEGATTStateMachine) (c : Characteristic)
    (notify indicate : Bool)
    (h : (notify = true ∧ c.notify = false) ∨ (indicate = true ∧ c.indicate = false)) :
    (set_notify_and_indicate m c notify indicate).1.thrown ≠ none ∧
    (set_notify_and_indicate m c notify indicate).1.m = m ∧
    (set_notify_and_indicate m c notify indicate).2 = c := by
  unfold set_notify_and_indicate
  rcases h with ⟨h1, h2⟩ | ⟨h1, h2⟩ <;> split_ifs <;> simp_all

/-- C5, witness: notify requested of `ex_indicatable`, which advertises indicate only. -/
theorem C5_set_notify_and_indicate_unadvertised_witness :
    ((true = true ∧ ex_indicatable.notify = false) ∨
      (false = true ∧ ex_indicatable.indicate = false)) ∧
    ((set_notify_and_indicate BLEGATTStateMachine.init ex_indicatable true false).1.thrown ≠ none ∧
      (set_notify_and_indicate BLEGATTStateMachine.init ex_indicatable true false).1.m =
        BLEGATTStateMachine.init ∧
      (set_notify_and_indicate BLEGATTStateMachine.init ex_indicatable true false).2 =
        ex_indicatable) :=
  ⟨by decide,
    C5_set_notify_and_indicate_unadvertised BLEGATTStateMachine.init ex_indicatable true false
      (by decide)⟩

/-- C6: a call of `set_notify_and_indicate` that is accepted (throws nothing; the machine
is then Idle) sends exactly one PDU, the write of `notify | (indicate << 1)` to the characteristic's CCC
handle; that value is at most 3 and is stored in `ccc_last_known_value` by the call
itself, no other field of the characteristic changing. -/
theorem C6_set_notify_and_indicate_write (m : BLEGATTStateMachine) (c : Characteristic)
    (notify indicate : Bool)
    (hacc : (set_notify_and_indicate m c notify indicate).1.thrown = none) :
    m.state = States.Idle ∧
    (set_notify_and_indicate m c notify indicate).1.m.trace =
      m.trace ++ [Event.send_write_command c.client_characteric_configuration_handle
        (notify.toNat ||| (indicate.toNat <<< 1))] ∧
    (set_notify_and_indicate m c notify indicate).2 =
      { c with ccc_last_known_value := some (notify.toNat ||| (indicate.toNat <<< 1)) } ∧
    notify.toNat ||| (indicate.toNat <<< 1) ≤ 3 := by
  have hv : (notify.toNat ||| (indicate.toNat <<< 1)) % 65536 =
      notify.toNat ||| (indicate.toNat <<< 1) := by
    cases notify <;> cases indicate <;> decide
  have hb : notify.toNat ||| (indicate.toNat <<< 1) ≤ 3 := by
    cases notify <;> cases indicate <;> decide
  unfold set_notify_and_indicate at hacc ⊢
  split_ifs at hacc ⊢
  simp_all

/-- C6, witness: (false, true) on CCC handle 0x0011 writes 0x0002 to handle 0x0011. -/
theorem C6_set_notify_and_indicate_write_witness :
    BLEGATTStateMachine.init.state = States.Idle ∧
    (set_notify_and_indicate BLEGATTStateMachine.init ex_indicatable false true).1.m.trace =
      [Event.send_write_command 0x0011 0x0002] ∧
    (set_notify_and_indicate BLEGATTStateMachine.init ex_indicatable false true).2 =
      { ex_indicatable with ccc_last_known_value := some 0x0002 } ∧
    (2 : Nat) ≤ 3 :=
  C6_set_notify_and_indicate_write BLEGATTStateMachine.init ex_indicatable false true
    (by decide)

/-! ## The pump: opcode validation -/

/-- Helper: a fired callback throws what the callback throws. -/
theorem fire_thrown (name : CallbackName) (cb : BLEGATTStateMachine → Outcome)
    (m : BLEGATTStateMachine) (e : Exn)
    (hcb : ∀ m1 e1, (cb m1).thrown = some e1 → e1.is_desync = false)
    (h : (fire name cb m).thrown = some e) : e.is_desync = false :=
  hcb _ e h

/-- Helper: past the opcode validation, the `ReadingPrimaryService` branch throws no
desync error unless the host callback does. -/
theorem process_ReadingPrimaryService_no_desync (cbs : Callbacks) (m : BLEGATTStateMachine)
    (r : PDUResponse) (e : Exn)
    (hcb : ∀ m1 e1, (cbs.cb_services_read m1).thrown = some e1 → e1.is_desync = false)
    (h : (process_ReadingPrimaryService cbs m r).thrown = some e) : e.is_desync = false := by
  unfold process_ReadingPrimaryService at h
  split_ifs at h with h1 h2
  · simp only at h
    split at h
    · next e2 he2 =>
      simp only [Option.some.injEq] at h
      subst h
      exact fire_thrown _ _ _ _ hcb he2
    · simp at h
  · simp only [Option.some.injEq] at h
    subst h
    rfl
  · split at h
    · next e2 he2 =>
      simp only [Option.some.injEq] at h
      subst h
      unfold GATTReadServiceGroup.ctor at he2
      split_ifs at he2
      simp only [Option.some.injEq] at he2
      subst he2
      rfl
    · simp only at h
      split at h
      · simp only [Option.some.injEq] at h
        subst h
        rfl
      · split_ifs at h
        exact fire_thrown _ _ _ _ hcb h

/-- Helper: past the opcode validation, the `FindAllCharacteristics` branch throws no
desync error unless the host callback does. -/
theorem process_FindAllCharacteristics_no_desync (cbs : Callbacks) (m : BLEGATTStateMachine)
    (r : PDUResponse) (e : Exn)
    (hcb : ∀ m1 e1, (cbs.cb_find_characteristics m1).thrown = some e1 → e1.is_desync = false)
    (h : (process_FindAllCharacteristics cbs m r).thrown = some e) : e.is_desync = false := by
  unfold process_FindAllCharacteristics at h
  split_ifs at h with h1 h2
  · exact fire_thrown _ _ _ _ hcb h
  · simp only [Option.some.injEq] at h
    subst h
    rfl
  · split at h
    · next e2 he2 =>
      simp only [Option.some.injEq] at h
      subst h
      unfold GATTReadCharacteristic.ctor at he2
      split_ifs at he2
      simp only [Option.some.injEq] at he2
      subst he2
      rfl
    · simp at h

/-- Helper: past the opcode validation, the CCC branch throws no desync error unless the
host callback does. -/
theorem process_GetClientCharaceristicConfiguration_no_desync (cbs : Callbacks)
    (m : BLEGATTStateMachine) (r : PDUResponse) (e : Exn)
    (hcb : ∀ m1 e1, (cbs.cb_get_client_characteristic_configuration m1).thrown = some e1 →
      e1.is_desync = false)
    (h : (process_GetClientCharaceristicConfiguration cbs m r).thrown = some e) :
    e.is_desync = false := by
  unfold process_GetClientCharaceristicConfiguration at h
  split_ifs at h with h1 h2
  · exact fire_thrown _ _ _ _ hcb h
  · simp only [Option.some.injEq] at h
    subst h
    rfl
  · split at h
    · next e2 he2 =>
      simp only [Option.some.injEq] at h
      subst h
      unfold GATTReadCCC.ctor at he2
      split_ifs at he2
      simp only [Option.some.injEq] at he2
      subst he2
      rfl
    · simp at h

/-- Helper: past the opcode validation, the `AwaitingWriteResponse` branch throws no
desync error unless the host callback does. -/
theorem process_AwaitingWriteResponse_no_desync (cbs : Callbacks) (m : BLEGATTStateMachine)
    (r : PDUResponse) (e : Exn)
    (hcb : ∀ m1 e1, (cbs.cb_write_response m1).thrown = some e1 → e1.is_desync = false)
    (h : (process_AwaitingWriteResponse cbs m r).thrown = some e) : e.is_desync = false := by
  unfold process_AwaitingWriteResponse at h
  split_ifs at h with h1
  · simp only [Option.some.injEq] at h
    subst h
    rfl
  · exact fire_thrown _ _ _ _ hcb h

/-- C7: for a frame that is neither HANDLE_NOTIFY nor HANDLE_IND, in every machine state.
If it is an ERROR_RESP whose request opcode differs from `last_request`, or it is not an
ERROR_RESP and its opcode differs from `last_request + 1`, the pump throws one of the two
desync errors and leaves exactly the reset machine: state Idle, `last_request` and
`next_handle_to_read` -1, the trace as it was (no PDU sent, no callback fired) and
`primary_services` as they were.  Otherwise whatever the pump throws is not a desync
error, as long as the host callbacks, which run inside the pump, throw none themselves. -/
theorem C7_opcode_validation (cbs : Callbacks) (m : BLEGATTStateMachine) (r : PDUResponse)
    (hn : r.type ≠ ATT_OP_HANDLE_NOTIFY) (hi : r.type ≠ ATT_OP_HANDLE_IND) :
    (((r.type = ATT_OP_ERROR ∧ (PDUErrorResponse.request_opcode r : Int) ≠ m.last_request) ∨
        (r.type ≠ ATT_OP_ERROR ∧ (r.type : Int) ≠ m.last_request + 1)) →
      (∃ e, (read_and_process_next cbs m r).thrown = some e ∧ e.is_desync = true) ∧
      (read_and_process_next cbs m r).m.state = States.Idle ∧
      (read_and_process_next cbs m r).m.last_request = -1 ∧
      (read_and_process_next cbs m r).m.next_handle_to_read = -1 ∧
      (read_and_process_next cbs m r).m.trace = m.trace ∧
      (read_and_process_next cbs m r).m.primary_services = m.primary_services) ∧
    (¬ ((r.type = ATT_OP_ERROR ∧ (PDUErrorResponse.request_opcode r : Int) ≠ m.last_request) ∨
        (r.type ≠ ATT_OP_ERROR ∧ (r.type : Int) ≠ m.last_request + 1)) →
      (∀ cb ∈ [cbs.cb_services_read, cbs.cb_find_characteristics,
          cbs.cb_get_client_characteristic_configuration, cbs.cb_write_response],
        ∀ m1 e1, (cb m1).thrown = some e1 → e1.is_desync = false) →
      ∀ e, (read_and_process_next cbs m r).thrown = some e → e.is_desync = false) := by
  have hni : ¬ (r.type = ATT_OP_HANDLE_NOTIFY ∨ r.type = ATT_OP_HANDLE_IND) := by
    rintro (h | h)
    · exact hn h
    · exact hi h
  constructor
  · intro hbad
    unfold read_and_process_next
    rw [if_neg hni]
    by_cases h1 : r.type = ATT_OP_ERROR ∧
        (PDUErrorResponse.request_opcode r : Int) ≠ m.last_request
    · rw [if_pos h1]
      exact ⟨⟨_, rfl, rfl⟩, rfl, rfl, rfl, rfl, rfl⟩
    · rw [if_neg h1]
      have h2 : r.type ≠ ATT_OP_ERROR ∧ (r.type : Int) ≠ m.last_request + 1 := by
        rcases hbad with h | h
        · exact absurd h h1
        · exact h
      rw [if_pos h2]
      exact ⟨⟨_, rfl, rfl⟩, rfl, rfl, rfl, rfl, rfl⟩
  · intro hok hcb e he
    have h1 : ¬ (r.type = ATT_OP_ERROR ∧
        (PDUErrorResponse.request_opcode r : Int) ≠ m.last_request) :=
      fun h => hok (Or.inl h)
    have h2 : ¬ (r.type ≠ ATT_OP_ERROR ∧ (r.type : Int) ≠ m.last_request + 1) :=
      fun h => hok (Or.inr h)
    unfold read_and_process_next at he
    rw [if_neg hni, if_neg h1, if_neg h2] at he
    split at he
    · exact process_ReadingPrimaryService_no_desync cbs m r e (hcb _ (by simp)) he
    · exact process_FindAllCharacteristics_no_desync cbs m r e (hcb _ (by simp)) he
    · exact process_GetClientCharaceristicConfiguration_no_desync cbs m r e
        (hcb _ (by simp)) he
    · exact process_AwaitingWriteResponse_no_desync cbs m r e (hcb _ (by simp)) he
    · simp at he

/-- Helper: the default callbacks throw nothing. -/
theorem default_callbacks_throw_nothing :
    ∀ cb ∈ [Callbacks.default.cb_services_read, Callbacks.default.cb_find_characteristics,
        Callbacks.default.cb_get_client_characteristic_configuration,
        Callbacks.default.cb_write_response],
      ∀ (m1 : BLEGATTStateMachine) (e1 : Exn), (cb m1).thrown = some e1 →
        e1.is_desync = false := by
  intro cb hcb m1 e1 h
  simp only [Callbacks.default, List.mem_cons, List.mem_singleton, or_self,
    List.not_mem_nil, or_false] at hcb
  subst hcb
  simp [buggerall] at h

/-- C7, witness: a write response (opcode 0x13) received while the second page of primary
services is awaited (`last_request` 0x10, so 0x11 is expected) is a desync. -/
theorem C7_opcode_validation_witness :
    ex_write_resp.type ≠ ATT_OP_HANDLE_NOTIFY ∧ ex_write_resp.type ≠ ATT_OP_HANDLE_IND ∧
    (((ex_write_resp.type = ATT_OP_ERROR ∧
          (PDUErrorResponse.request_opcode ex_write_resp : Int) ≠
            ex_reading_services.last_request) ∨
        (ex_write_resp.type ≠ ATT_OP_ERROR ∧
          (ex_write_resp.type : Int) ≠ ex_reading_services.last_request + 1)) →
      (∃ e, (read_and_process_next Callbacks.default ex_reading_services ex_write_resp).thrown =
          some e ∧ e.is_desync = true) ∧
      (read_and_process_next Callbacks.default ex_reading_services ex_write_resp).m.state =
        States.Idle ∧
      (read_and_process_next Callbacks.default ex_reading_services ex_write_resp).m.last_request =
        -1 ∧
      (read_and_process_next Callbacks.default ex_reading_services
        ex_write_resp).m.next_handle_to_read = -1 ∧
      (read_and_process_next Callbacks.default ex_reading_services ex_write_resp).m.trace =
        ex_reading_services.trace ∧
      (read_and_process_next Callbacks.default ex_reading_services
        ex_write_resp).m.primary_services = ex_reading_services.primary_services) ∧
    (¬ ((ex_write_resp.type = ATT_OP_ERROR ∧
          (PDUErrorResponse.request_opcode ex_write_resp : Int) ≠
            ex_reading_services.last_request) ∨
        (ex_write_resp.type ≠ ATT_OP_ERROR ∧
          (ex_write_resp.type : Int) ≠ ex_reading_services.last_request + 1)) →
      (∀ cb ∈ [Callbacks.default.cb_services_read, Callbacks.default.cb_find_characteristics,
          Callbacks.default.cb_get_client_characteristic_configuration,
          Callbacks.default.cb_write_response],
        ∀ m1 e1, (cb m1).thrown = some e1 → e1.is_desync = false) →
      ∀ e, (read_and_process_next Callbacks.default ex_reading_services ex_write_resp).thrown =
        some e → e.is_desync = false) :=
  ⟨by decide, by decide,
    C7_opcode_validation Callbacks.default ex_reading_services ex_write_resp
      (by decide) (by decide)⟩

/-! ## The pump: notifications and indications -/

/-- Helper: the characteristic loop can only throw `bad_function_call`. -/
theorem notify_characteristics_thrown (fallback : Option Nat) (n : PDUResponse) (si : Nat)
    (cs : List Characteristic) (ci : Nat) (e : Exn)
    (h : (notify_characteristics fallback n si ci cs).2 = some e) :
    e = Exn.bad_function_call := by
  induction cs generalizing ci with
  | nil => simp [notify_characteristics] at h
  | cons c cs ih =>
    unfold notify_characteristics at h
    split_ifs at h with hh
    · split at h
      · exact ih _ h
      · simpa using h.symm
    · exact ih _ h

/-- Helper: the service loop can only throw `bad_function_call`. -/
theorem notify_services_thrown (fallback : Option Nat) (n : PDUResponse)
    (ss : List PrimaryService) (si : Nat) (e : Exn)
    (h : (notify_services fallback n si ss).2 = some e) :
    e = Exn.bad_function_call := by
  induction ss generalizing si with
  | nil => simp [notify_services] at h
  | cons s ss ih =>
    unfold notify_services at h
    split_ifs at h with hh
    · split at h
      · next es e2 heq =>
        simp only [Option.some.injEq] at h
        subst h
        exact notify_characteristics_thrown fallback n si s.characteristics 0 e2
          (by rw [heq])
      · exact ih _ h
    · exact ih _ h

/-- C8: a HANDLE_NOTIFY or HANDLE_IND frame, received in any machine state, leaves
`state`, `last_request` and `next_handle_to_read` as they were and the stored services
and characteristics untouched; the only thing the pump can throw on it is the
`bad_function_call` of an unbound callback, never a desync error. -/
theorem C8_notification_frame (cbs : Callbacks) (m : BLEGATTStateMachine) (r : PDUResponse)
    (h : r.type = ATT_OP_HANDLE_NOTIFY ∨ r.type = ATT_OP_HANDLE_IND) :
    (read_and_process_next cbs m r).m.state = m.state ∧
    (read_and_process_next cbs m r).m.last_request = m.last_request ∧
    (read_and_process_next cbs m r).m.next_handle_to_read = m.next_handle_to_read ∧
    (read_and_process_next cbs m r).m.primary_services = m.primary_services ∧
    (∀ e, (read_and_process_next cbs m r).thrown = some e →
      e = Exn.bad_function_call ∧ e.is_desync = false) := by
  unfold read_and_process_next
  rw [if_pos h]
  unfold handle_notification
  split
  · next es e2 heq =>
    refine ⟨rfl, rfl, rfl, rfl, ?_⟩
    intro e he
    simp only [Option.some.injEq] at he
    subst he
    have := notify_services_thrown m.cb_notify_or_indicate r m.primary_services 0 e2
      (by rw [heq])
    subst this
    exact ⟨rfl, rfl⟩
  · split_ifs
    · exact ⟨rfl, rfl, rfl, rfl, by simp⟩
    · exact ⟨rfl, rfl, rfl, rfl, by simp⟩

/-- C8, witness: the notification of scenario 4 received while the second page of primary
services is awaited. -/
theorem C8_notification_frame_witness :
    (ex_notification.type = ATT_OP_HANDLE_NOTIFY ∨ ex_notification.type = ATT_OP_HANDLE_IND) ∧
    ((read_and_process_next Callbacks.default ex_reading_services ex_notification).m.state =
        ex_reading_services.state ∧
      (read_and_process_next Callbacks.default ex_reading_services ex_notification).m.last_request =
        ex_reading_services.last_request ∧
      (read_and_process_next Callbacks.default ex_reading_services
        ex_notification).m.next_handle_to_read = ex_reading_services.next_handle_to_read ∧
      (read_and_process_next Callbacks.default ex_reading_services
        ex_notification).m.primary_services = ex_reading_services.primary_services ∧
      (∀ e, (read_and_process_next Callbacks.default ex_reading_services ex_notification).thrown =
        some e → e = Exn.bad_function_call ∧ e.is_desync = false)) :=
  ⟨by decide,
    C8_notification_frame Callbacks.default ex_reading_services ex_notification (by decide)⟩

/-- Helper: the discovery run that defines `ex_discovered` ends Idle with the service and
its characteristic stored, the characteristic without a callback of its own and the
machine-wide callback unbound. -/
theorem ex_discovered_eq :
    ex_discovered.state = States.Idle ∧
    ex_discovered.cb_notify_or_indicate = none ∧
    ex_discovered.primary_services = [ex_thermometer_service] := by
  decide

/-- C9, evaluated where it fails: on a freshly constructed machine that discovered a
characteristic with value handle 0x0010, an indication for that handle makes the pump call
the empty machine-wide `cb_notify_or_indicate`; the call throws and
`send_handle_value_confirmation` is never reached: nothing is sent. -/
theorem C9_indication_unconfirmed_when_callback_unbound :
    ex_indication.type = ATT_OP_HANDLE_IND ∧
    (read_and_process_next Callbacks.default ex_discovered ex_indication).thrown =
      some Exn.bad_function_call ∧
    (read_and_process_next Callbacks.default ex_discovered ex_indication).m.trace =
      ex_discovered.trace ∧
    Event.send_handle_value_confirmation ∉
      (read_and_process_next Callbacks.default ex_discovered ex_indication).m.trace := by
  decide

/-- Helper: the event of a notification call is a callback for exactly the position it
was made for, and not a sent PDU. -/
theorem notify_call_event (fallback : Option Nat) (n : PDUResponse) (si ci : Nat)
    (c : Characteristic) (ev : Event) (h : notify_call fallback n si ci c = some ev) :
    ev.is_send = false ∧ ev.is_callback = true ∧
    ∀ si1 ci1, Event.is_notify_cb_for si1 ci1 ev = (si == si1 && ci == ci1) := by
  unfold notify_call at h
  split at h
  · simp only [Option.some.injEq] at h
    subst h
    exact ⟨rfl, rfl, fun _ _ => rfl⟩
  · split at h
    · simp only [Option.some.injEq] at h
      subst h
      exact ⟨rfl, rfl, fun _ _ => rfl⟩
    · simp at h

/-- Helper: the characteristic loop produces callback events only. -/
theorem notify_characteristics_events (fallback : Option Nat) (n : PDUResponse) (si : Nat)
    (cs : List Characteristic) (ci : Nat) :
    ∀ ev ∈ (notify_characteristics fallback n si ci cs).1,
      ev.is_send = false ∧ ev.is_callback = true := by
  induction cs generalizing ci with
  | nil => simp [notify_characteristics]
  | cons c cs ih =>
    intro ev hev
    unfold notify_characteristics at hev
    split_ifs at hev with hh
    · split at hev
      · next ev1 hcall =>
        simp only [List.mem_cons] at hev
        rcases hev with rfl | hev
        · exact ⟨(notify_call_event _ _ _ _ _ _ hcall).1, (notify_call_event _ _ _ _ _ _ hcall).2.1⟩
        · exact ih _ ev hev
      · simp at hev
    · exact ih _ ev hev

/-- Helper: the service loop produces callback events only. -/
theorem notify_services_events (fallback : Option Nat) (n : PDUResponse)
    (ss : List PrimaryService) (si : Nat) :
    ∀ ev ∈ (notify_services fallback n si ss).1,
      ev.is_send = false ∧ ev.is_callback = true := by
  induction ss generalizing si with
  | nil => simp [notify_services]
  | cons s ss ih =>
    intro ev hev
    unfold notify_services at hev
    split_ifs at hev with hh
    · split at hev
      · next es e2 heq =>
        have := notify_characteristics_events fallback n si s.characteristics 0 ev
        rw [heq] at this
        exact this hev
      · next es heq =>
        simp only [List.mem_append] at hev
        rcases hev with hev | hev
        · have := notify_characteristics_events fallback n si s.characteristics 0 ev
          rw [heq] at this
          exact this hev
        · exact ih _ ev hev
    · exact ih _ ev hev

/-- Helper, the part of C9 that holds: when no callback call throws, an indication makes the
pump send exactly one PDU, the confirmation, after every callback event of that frame
(there may be none); a notification makes it send nothing, whether a call throws or not. -/
theorem notification_sends (cbs : Callbacks) (m : BLEGATTStateMachine) (r : PDUResponse) :
    (r.type = ATT_OP_HANDLE_IND → (read_and_process_next cbs m r).thrown = none →
      ∃ es, (read_and_process_next cbs m r).m.trace =
          m.trace ++ es ++ [Event.send_handle_value_confirmation] ∧
        ∀ ev ∈ es, ev.is_send = false ∧ ev.is_callback = true) ∧
    (r.type = ATT_OP_HANDLE_NOTIFY →
      ∃ es, (read_and_process_next cbs m r).m.trace = m.trace ++ es ∧
        ∀ ev ∈ es, ev.is_send = false ∧ ev.is_callback = true) := by
  have hev := notify_services_events m.cb_notify_or_indicate r m.primary_services 0
  constructor
  · intro ht hok
    have hnot : PDUNotificationOrIndication.notification r = false := by
      simp [PDUNotificationOrIndication.notification, ht, ATT_OP_HANDLE_IND,
        ATT_OP_HANDLE_NOTIFY]
    unfold read_and_process_next at hok ⊢
    rw [if_pos (Or.inr ht)] at hok ⊢
    unfold handle_notification at hok ⊢
    split at hok
    · simp at hok
    · next es heq =>
      rw [heq] at hev
      simp only [hnot, if_true]
      exact ⟨es, rfl, hev⟩
  · intro ht
    have hnot : PDUNotificationOrIndication.notification r = true := by
      simp [PDUNotificationOrIndication.notification, ht]
    unfold read_and_process_next
    rw [if_pos (Or.inl ht)]
    unfold handle_notification
    split
    · next es e heq =>
      rw [heq] at hev
      exact ⟨es, rfl, hev⟩
    · next es heq =>
      rw [heq] at hev
      simp only [hnot, Bool.true_eq_false, if_false]
      exact ⟨es, rfl, hev⟩

/-! ## Notification dispatch: which callbacks are invoked -/

/-- Helper: the characteristic loop of service `si` started at `ci0` invokes nothing for a
characteristic of another service, nor for one before `ci0`. -/
theorem notify_characteristics_filter_other (fallback : Option Nat) (n : PDUResponse)
    (si : Nat) (cs : List Characteristic) (ci0 si1 ci1 : Nat) (h : si1 ≠ si ∨ ci1 < ci0) :
    (notify_characteristics fallback n si ci0 cs).1.filter (Event.is_notify_cb_for si1 ci1) =
      [] := by
  induction cs generalizing ci0 with
  | nil => simp [notify_characteristics]
  | cons c cs ih =>
    have hnext : si1 ≠ si ∨ ci1 < ci0 + 1 := by
      rcases h with h | h
      · exact Or.inl h
      · exact Or.inr (by omega)
    unfold notify_characteristics
    split_ifs with hh
    · split
      · next ev hcall =>
        have hfalse : Event.is_notify_cb_for si1 ci1 ev = false := by
          rw [(notify_call_event _ _ _ _ _ _ hcall).2.2 si1 ci1]
          rcases h with h | h
          · have : (si == si1) = false := by simpa using Ne.symm h
            simp [this]
          · have : (ci0 == ci1) = false := by simp; omega
            simp [this]
        simp only [List.filter_cons, hfalse]
        exact ih (ci0 + 1) hnext
      · simp
    · exact ih (ci0 + 1) hnext

/-- Helper: when the characteristic loop of service `si` throws nothing, the callback events
it produces for the characteristic at position `ci0 + j` are exactly the one call made for
it when its value handle is the frame's handle, and none otherwise. -/
theorem notify_characteristics_filter_at (fallback : Option Nat) (n : PDUResponse)
    (si : Nat) (cs : List Characteristic) (ci0 : Nat)
    (hok : (notify_characteristics fallback n si ci0 cs).2 = none)
    (j : Nat) (c : Characteristic) (hc : cs[j]? = some c) :
    (PDUNotificationOrIndication.handle n = c.value_handle →
      ∃ ev, notify_call fallback n si (ci0 + j) c = some ev ∧
        (notify_characteristics fallback n si ci0 cs).1.filter
          (Event.is_notify_cb_for si (ci0 + j)) = [ev]) ∧
    (PDUNotificationOrIndication.handle n ≠ c.value_handle →
      (notify_characteristics fallback n si ci0 cs).1.filter
        (Event.is_notify_cb_for si (ci0 + j)) = []) := by
  induction cs generalizing ci0 j with
  | nil => simp at hc
  | cons c0 cs ih =>
    unfold notify_characteristics at hok ⊢
    split_ifs at hok ⊢ with hh
    · split at hok
      · next ev0 hcall =>
        simp only at hok
        simp only [hcall]
        cases j with
        | zero =>
          simp only [List.getElem?_cons_zero, Option.some.injEq] at hc
          subst hc
          have htrue : Event.is_notify_cb_for si (ci0 + 0) ev0 = true := by
            rw [(notify_call_event _ _ _ _ _ _ hcall).2.2 si (ci0 + 0)]
            simp
          have hrest := notify_characteristics_filter_other fallback n si cs (ci0 + 1) si
            (ci0 + 0) (Or.inr (by omega))
          constructor
          · intro _
            exact ⟨ev0, hcall, by simp only [List.filter_cons, htrue, if_true, hrest]⟩
          · intro hne
            exact absurd hh hne
        | succ j =>
          simp only [List.getElem?_cons_succ] at hc
          have hfalse : Event.is_notify_cb_for si (ci0 + (j + 1)) ev0 = false := by
            rw [(notify_call_event _ _ _ _ _ _ hcall).2.2 si (ci0 + (j + 1))]
            have : (ci0 == ci0 + (j + 1)) = false := by simp
            simp [this]
          have hidx : ci0 + (j + 1) = ci0 + 1 + j := by omega
          simp only [List.filter_cons, hfalse]
          rw [hidx]
          simpa using ih (ci0 + 1) hok j hc
      · simp at hok
    · cases j with
      | zero =>
        simp only [List.getElem?_cons_zero, Option.some.injEq] at hc
        subst hc
        constructor
        · intro heq
          exact absurd heq hh
        · intro _
          exact notify_characteristics_filter_other fallback n si cs (ci0 + 1) si (ci0 + 0)
            (Or.inr (by omega))
      | succ j =>
        simp only [List.getElem?_cons_succ] at hc
        have hidx : ci0 + (j + 1) = ci0 + 1 + j := by omega
        rw [hidx]
        exact ih (ci0 + 1) hok j hc

/-- Helper: the service loop started at `si0` invokes nothing for a characteristic of a
service before `si0`. -/
theorem notify_services_filter_other (fallback : Option Nat) (n : PDUResponse)
    (ss : List PrimaryService) (si0 si1 ci1 : Nat) (h : si1 < si0) :
    (notify_services fallback n si0 ss).1.filter (Event.is_notify_cb_for si1 ci1) = [] := by
  induction ss generalizing si0 with
  | nil => simp [notify_services]
  | cons s ss ih =>
    unfold notify_services
    split_ifs with hh
    · split
      · next es e heq =>
        have := notify_characteristics_filter_other fallback n si0 s.characteristics 0 si1 ci1
          (Or.inl (by omega))
        rw [heq] at this
        exact this
      · next es heq =>
        have := notify_characteristics_filter_other fallback n si0 s.characteristics 0 si1 ci1
          (Or.inl (by omega))
        rw [heq] at this
        simp only [List.filter_append, this, List.nil_append]
        exact ih (si0 + 1) (by omega)
    · exact ih (si0 + 1) (by omega)

/-- Helper: when the service loop throws nothing, the callback events it produces for the
characteristic `ci` of the service at position `si0 + i` are exactly the one call made for
it when the service's range contains the frame's handle and the characteristic's value
handle is that handle, and none otherwise. -/
theorem notify_services_filter_at (fallback : Option Nat) (n : PDUResponse)
    (ss : List PrimaryService) (si0 : Nat)
    (hok : (notify_services fallback n si0 ss).2 = none)
    (i : Nat) (s : PrimaryService) (hs : ss[i]? = some s)
    (ci : Nat) (c : Characteristic) (hc : s.characteristics[ci]? = some c) :
    (((PDUNotificationOrIndication.handle n > s.start_handle ∧
          PDUNotificationOrIndication.handle n ≤ s.end_handle) ∧
        PDUNotificationOrIndication.handle n = c.value_handle) →
      ∃ ev, notify_call fallback n (si0 + i) ci c = some ev ∧
        (notify_services fallback n si0 ss).1.filter
          (Event.is_notify_cb_for (si0 + i) ci) = [ev]) ∧
    (¬ ((PDUNotificationOrIndication.handle n > s.start_handle ∧
          PDUNotificationOrIndication.handle n ≤ s.end_handle) ∧
        PDUNotificationOrIndication.handle n = c.value_handle) →
      (notify_services fallback n si0 ss).1.filter
        (Event.is_notify_cb_for (si0 + i) ci) = []) := by
  induction ss generalizing si0 i with
  | nil => simp at hs
  | cons s0 ss ih =>
    unfold notify_services at hok ⊢
    split_ifs at hok ⊢ with hh
    · split at hok
      · simp at hok
      · next es heq =>
        simp only at hok
        simp only [heq]
        cases i with
        | zero =>
          simp only [List.getElem?_cons_zero, Option.some.injEq] at hs
          subst hs
          have hrest := notify_services_filter_other fallback n ss (si0 + 1) si0 ci
            (by omega)
          have hat := notify_characteristics_filter_at fallback n si0 s0.characteristics 0
            (by rw [heq]) ci c hc
          rw [heq] at hat
          simp only [Nat.zero_add] at hat
          simp only [Nat.add_zero]
          simp only [List.filter_append, hrest, List.append_nil]
          constructor
          · intro hin
            exact hat.1 hin.2
          · intro hnot
            exact hat.2 (fun heq1 => hnot ⟨hh, heq1⟩)
        | succ i =>
          simp only [List.getElem?_cons_succ] at hs
          have hes := notify_characteristics_filter_other fallback n si0 s0.characteristics 0
            (si0 + (i + 1)) ci (Or.inl (by omega))
          rw [heq] at hes
          have hidx : si0 + (i + 1) = si0 + 1 + i := by omega
          simp only [List.filter_append, hes, List.nil_append]
          rw [hidx]
          exact ih (si0 + 1) hok i hs
    · cases i with
      | zero =>
        simp only [List.getElem?_cons_zero, Option.some.injEq] at hs
        subst hs
        constructor
        · intro hin
          exact absurd hin.1 hh
        · intro _
          exact notify_services_filter_other fallback n ss (si0 + 1) (si0 + 0) ci (by omega)
      | succ i =>
        simp only [List.getElem?_cons_succ] at hs
        have hidx : si0 + (i + 1) = si0 + 1 + i := by omega
        rw [hidx]
        exact ih (si0 + 1) hok i hs

/-- Helper: when the pump throws nothing on a notification or indication, the dispatch
loop threw nothing and the callback events the pump added to the trace for a given
characteristic are those of the dispatch loop. -/
theorem notification_trace (cbs : Callbacks) (m : BLEGATTStateMachine) (r : PDUResponse)
    (ht : r.type = ATT_OP_HANDLE_NOTIFY ∨ r.type = ATT_OP_HANDLE_IND)
    (hok : (read_and_process_next cbs m r).thrown = none) (si ci : Nat) :
    (notify_services m.cb_notify_or_indicate r 0 m.primary_services).2 = none ∧
    ((read_and_process_next cbs m r).m.trace.drop m.trace.length).filter
        (Event.is_notify_cb_for si ci) =
      (notify_services m.cb_notify_or_indicate r 0 m.primary_services).1.filter
        (Event.is_notify_cb_for si ci) := by
  unfold read_and_process_next at hok ⊢
  rw [if_pos ht] at hok ⊢
  unfold handle_notification at hok ⊢
  split at hok
  · simp at hok
  · next es heq =>
    rw [heq]
    refine ⟨rfl, ?_⟩
    split_ifs
    · simp [List.append_assoc, Event.is_notify_cb_for]
    · simp

/-- C10, counterexample: the database holds a characteristic whose value handle 0x0010 is
the handle of the notification, and the machine-wide callback is bound, yet the pump
invokes no callback at all: the handle is outside the range of the characteristic's
service, which the loop tests first. -/
theorem C10_counterexample_value_handle_outside_service :
    ex_notification.type = ATT_OP_HANDLE_NOTIFY ∧
    (∃ s ∈ ex_value_handle_outside.primary_services, ∃ c ∈ s.characteristics,
      c.value_handle = PDUNotificationOrIndication.handle ex_notification) ∧
    ex_value_handle_outside.cb_notify_or_indicate = some 9 ∧
    (read_and_process_next Callbacks.default ex_value_handle_outside ex_notification).thrown =
      none ∧
    (read_and_process_next Callbacks.default ex_value_handle_outside ex_notification).m.trace =
      ex_value_handle_outside.trace := by
  decide

/-- C10, amended: on a notification or indication with handle h on which the pump throws
nothing, for the characteristic c at any position (si, ci) of the database, in service s.
If s.start_handle < h <= s.end_handle and c.value_handle = h, the pump invokes exactly one
callback for it, with that frame: c's own `cb_notify_or_indicate` when bound (and then not
the machine-wide one), otherwise the machine-wide one, which is then bound.  In every
other case -- c.value_handle differs from h, or h is outside the range of s -- it invokes
no callback for it. -/
theorem C10_notification_dispatch (cbs : Callbacks) (m : BLEGATTStateMachine)
    (r : PDUResponse) (ht : r.type = ATT_OP_HANDLE_NOTIFY ∨ r.type = ATT_OP_HANDLE_IND)
    (hok : (read_and_process_next cbs m r).thrown = none)
    (si ci : Nat) (s : PrimaryService) (c : Characteristic)
    (hs : m.primary_services[si]? = some s) (hc : s.characteristics[ci]? = some c) :
    (((PDUNotificationOrIndication.handle r > s.start_handle ∧
          PDUNotificationOrIndication.handle r ≤ s.end_handle) ∧
        PDUNotificationOrIndication.handle r = c.value_handle) →
      (∀ k, c.cb_notify_or_indicate = some k →
        ((read_and_process_next cbs m r).m.trace.drop m.trace.length).filter
          (Event.is_notify_cb_for si ci) = [Event.characteristic_cb k si ci r]) ∧
      (c.cb_notify_or_indicate = none →
        ∃ k, m.cb_notify_or_indicate = some k ∧
          ((read_and_process_next cbs m r).m.trace.drop m.trace.length).filter
            (Event.is_notify_cb_for si ci) = [Event.machine_cb k si ci r])) ∧
    (¬ ((PDUNotificationOrIndication.handle r > s.start_handle ∧
          PDUNotificationOrIndication.handle r ≤ s.end_handle) ∧
        PDUNotificationOrIndication.handle r = c.value_handle) →
      ((read_and_process_next cbs m r).m.trace.drop m.trace.length).filter
        (Event.is_notify_cb_for si ci) = []) := by
  obtain ⟨hloop, htrace⟩ := notification_trace cbs m r ht hok si ci
  have hat := notify_services_filter_at m.cb_notify_or_indicate r m.primary_services 0 hloop
    si s hs ci c hc
  simp only [Nat.zero_add] at hat
  rw [htrace]
  refine ⟨fun hin => ?_, hat.2⟩
  obtain ⟨ev, hcall, hfilter⟩ := hat.1 hin
  rw [hfilter]
  unfold notify_call at hcall
  constructor
  · intro k hk
    rw [hk] at hcall
    simp only [Option.some.injEq] at hcall
    rw [hcall]
  · intro hnone
    rw [hnone] at hcall
    simp only at hcall
    split at hcall
    · next k hk =>
      simp only [Option.some.injEq] at hcall
      exact ⟨k, hk, by rw [hcall]⟩
    · simp at hcall

/-- C10, witness: the notification of scenario 4 (handle 0x0010) on `ex_discovered_bound`,
whose characteristic (0, 0) has value handle 0x0010 and no callback of its own. -/
theorem C10_notification_dispatch_witness :
    (ex_notification.type = ATT_OP_HANDLE_NOTIFY ∨ ex_notification.type = ATT_OP_HANDLE_IND) ∧
    (read_and_process_next Callbacks.default ex_discovered_bound ex_notification).thrown = none ∧
    ex_discovered_bound.primary_services[0]? = some ex_thermometer_service ∧
    ex_thermometer_service.characteristics[0]? = some ex_thermometer_characteristic ∧
    ((((PDUNotificationOrIndication.handle ex_notification > ex_thermometer_service.start_handle ∧
          PDUNotificationOrIndication.handle ex_notification ≤
            ex_thermometer_service.end_handle) ∧
        PDUNotificationOrIndication.handle ex_notification =
          ex_thermometer_characteristic.value_handle) →
      (∀ k, ex_thermometer_characteristic.cb_notify_or_indicate = some k →
        ((read_and_process_next Callbacks.default ex_discovered_bound
            ex_notification).m.trace.drop ex_discovered_bound.trace.length).filter
          (Event.is_notify_cb_for 0 0) = [Event.characteristic_cb k 0 0 ex_notification]) ∧
      (ex_thermometer_characteristic.cb_notify_or_indicate = none →
        ∃ k, ex_discovered_bound.cb_notify_or_indicate = some k ∧
          ((read_and_process_next Callbacks.default ex_discovered_bound
              ex_notification).m.trace.drop ex_discovered_bound.trace.length).filter
            (Event.is_notify_cb_for 0 0) = [Event.machine_cb k 0 0 ex_notification])) ∧
    (¬ ((PDUNotificationOrIndication.handle ex_notification >
            ex_thermometer_service.start_handle ∧
          PDUNotificationOrIndication.handle ex_notification ≤
            ex_thermometer_service.end_handle) ∧
        PDUNotificationOrIndication.handle ex_notification =
          ex_thermometer_characteristic.value_handle) →
      ((read_and_process_next Callbacks.default ex_discovered_bound
          ex_notification).m.trace.drop ex_discovered_bound.trace.length).filter
        (Event.is_notify_cb_for 0 0) = [])) :=
  ⟨by decide, by decide, by decide, by decide,
    C10_notification_dispatch Callbacks.default ex_discovered_bound ex_notification
      (by decide) (by decide) 0 0 ex_thermometer_service ex_thermometer_characteristic
      (by decide) (by decide)⟩

/-! ## Discovery: phase entry from Idle -/

/-- C11: called from Idle, each discovery entry point throws nothing, sets
`next_handle_to_read` to 1, records its request opcode in `last_request`, enters its phase
and sends exactly one request, over the range (1, 0xFFFF): READ_BY_GROUP_REQ for UUID
0x2800, READ_BY_TYPE_REQ for UUID 0x2803, READ_BY_TYPE_REQ for UUID 0x2902.  The stored
services are not touched. -/
theorem C11_phase_entry_from_idle (m : BLEGATTStateMachine) (h : m.state = States.Idle) :
    ((read_primary_services m).thrown = none ∧
      (read_primary_services m).m.state = States.ReadingPrimaryService ∧
      (read_primary_services m).m.next_handle_to_read = 1 ∧
      (read_primary_services m).m.last_request = 0x10 ∧
      (read_primary_services m).m.trace =
        m.trace ++ [Event.send_read_group_by_type (UUID.u16 0x2800) 1 0xFFFF] ∧
      (read_primary_services m).m.primary_services = m.primary_services) ∧
    ((find_all_characteristics m).thrown = none ∧
      (find_all_characteristics m).m.state = States.FindAllCharacteristics ∧
      (find_all_characteristics m).m.next_handle_to_read = 1 ∧
      (find_all_characteristics m).m.last_request = 0x08 ∧
      (find_all_characteristics m).m.trace =
        m.trace ++ [Event.send_read_by_type (UUID.u16 0x2803) 1 0xFFFF] ∧
      (find_all_characteristics m).m.primary_services = m.primary_services) ∧
    ((get_client_characteristic_configuration m).thrown = none ∧
      (get_client_characteristic_configuration m).m.state =
        States.GetClientCharaceristicConfiguration ∧
      (get_client_characteristic_configuration m).m.next_handle_to_read = 1 ∧
      (get_client_characteristic_configuration m).m.last_request = 0x08 ∧
      (get_client_characteristic_configuration m).m.trace =
        m.trace ++ [Event.send_read_by_type (UUID.u16 0x2902) 1 0xFFFF] ∧
      (get_client_characteristic_configuration m).m.primary_services = m.primary_services) := by
  refine ⟨?_, ?_, ?_⟩
  · simp [read_primary_services, state_machine_write, ATT_OP_READ_BY_GROUP_REQ,
      GATT_UUID_PRIMARY]
  · simp [find_all_characteristics, h, state_machine_write, ATT_OP_READ_BY_TYPE_REQ,
      GATT_CHARACTERISTIC]
  · simp [get_client_characteristic_configuration, h, state_machine_write,
      ATT_OP_READ_BY_TYPE_REQ, GATT_CLIENT_CHARACTERISTIC_CONFIGURATION]

/-- C11, witness: the three entry points on the machine right after construction. -/
theorem C11_phase_entry_from_idle_witness :
    BLEGATTStateMachine.init.state = States.Idle ∧
    (read_primary_services BLEGATTStateMachine.init).m.trace =
      [] ++ [Event.send_read_group_by_type (UUID.u16 0x2800) 1 0xFFFF] ∧
    (find_all_characteristics BLEGATTStateMachine.init).m.trace =
      [] ++ [Event.send_read_by_type (UUID.u16 0x2803) 1 0xFFFF] ∧
    (get_client_characteristic_configuration BLEGATTStateMachine.init).m.trace =
      [] ++ [Event.send_read_by_type (UUID.u16 0x2902) 1 0xFFFF] :=
  ⟨by decide,
    (C11_phase_entry_from_idle BLEGATTStateMachine.init (by decide)).1.2.2.2.2.1,
    (C11_phase_entry_from_idle BLEGATTStateMachine.init (by decide)).2.1.2.2.2.2.1,
    (C11_phase_entry_from_idle BLEGATTStateMachine.init (by decide)).2.2.2.2.2.2.1⟩

/-! ## Discovery: the ATTR_NOT_FOUND terminator -/

/-- Helper: a fired callback that throws nothing throws nothing. -/
theorem fire_not_thrown (name : CallbackName) (cb : BLEGATTStateMachine → Outcome)
    (m : BLEGATTStateMachine) (hcb : ∀ m1, (cb m1).thrown = none) :
    (fire name cb m).thrown = none :=
  hcb _

/-- Helper: what the `ReadingPrimaryService` branch throws when the host callback throws
nothing, and the machine it leaves. -/
theorem process_ReadingPrimaryService_thrown (cbs : Callbacks) (m : BLEGATTStateMachine)
    (r : PDUResponse) (e : Exn) (hcb : ∀ m1, (cbs.cb_services_read m1).thrown = none)
    (h : (process_ReadingPrimaryService cbs m r).thrown = some e) :
    ((∃ code, e = Exn.received_unexpected_error code) ∧
        (process_ReadingPrimaryService cbs m r).m = reset m) ∨
    (e = Exn.invalid_uuid_length ∧ (process_ReadingPrimaryService cbs m r).m = m) ∨
    (e = Exn.back_of_empty_vector ∧
      (process_ReadingPrimaryService cbs m r).m.state = m.state ∧
      (process_ReadingPrimaryService cbs m r).m.last_request = m.last_request ∧
      (process_ReadingPrimaryService cbs m r).m.next_handle_to_read = m.next_handle_to_read) := by
  unfold process_ReadingPrimaryService at h ⊢
  split_ifs at h ⊢ with h1 h2
  · have hf := fire_not_thrown CallbackName.cb_services_read cbs.cb_services_read m hcb
    simp only [hf] at h
    simp at h
  · simp only [Option.some.injEq] at h
    exact Or.inl ⟨⟨_, h.symm⟩, rfl⟩
  · cases hctor : GATTReadServiceGroup.ctor r with
    | some e2 =>
      simp only [hctor, Option.some.injEq] at h ⊢
      unfold GATTReadServiceGroup.ctor at hctor
      split_ifs at hctor
      simp only [Option.some.injEq] at hctor
      exact Or.inr (Or.inl ⟨by rw [← h, ← hctor], trivial⟩)
    | none =>
      simp only [hctor] at h ⊢
      split at h
      · next hlast =>
        simp only [Option.some.injEq] at h
        refine Or.inr (Or.inr ⟨h.symm, ?_, ?_, ?_⟩) <;> simp only [hlast]
      · next back hlast =>
        split_ifs at h with h3
        · have hf := fire_not_thrown CallbackName.cb_services_read cbs.cb_services_read
            (reset { m with
              primary_services := m.primary_services ++
                (List.range (PDUReadGroupByTypeResponse.num_elements r)).map (service_of r) })
            hcb
          rw [hf] at h
          simp at h

/-- Helper: what the `FindAllCharacteristics` branch throws when the host callback throws
nothing, and the machine it leaves. -/
theorem process_FindAllCharacteristics_thrown (cbs : Callbacks) (m : BLEGATTStateMachine)
    (r : PDUResponse) (e : Exn) (hcb : ∀ m1, (cbs.cb_find_characteristics m1).thrown = none)
    (h : (process_FindAllCharacteristics cbs m r).thrown = some e) :
    ((∃ code, e = Exn.received_unexpected_error code) ∧
        (process_FindAllCharacteristics cbs m r).m = reset m) ∨
    (e = Exn.invalid_packet_size ∧ (process_FindAllCharacteristics cbs m r).m = m) := by
  unfold process_FindAllCharacteristics at h ⊢
  split_ifs at h ⊢ with h1 h2
  · rw [fire_not_thrown _ _ _ hcb] at h
    simp at h
  · simp only [Option.some.injEq] at h
    exact Or.inl ⟨⟨_, h.symm⟩, rfl⟩
  · cases hctor : GATTReadCharacteristic.ctor r with
    | some e2 =>
      simp only [hctor, Option.some.injEq] at h ⊢
      unfold GATTReadCharacteristic.ctor at hctor
      split_ifs at hctor
      simp only [Option.some.injEq] at hctor
      exact Or.inr ⟨by rw [← h, ← hctor], trivial⟩
    | none =>
      simp only [hctor] at h
      simp at h

/-- Helper: what the CCC branch throws when the host callback throws nothing, and the
machine it leaves. -/
theorem process_GetClientCharaceristicConfiguration_thrown (cbs : Callbacks)
    (m : BLEGATTStateMachine) (r : PDUResponse) (e : Exn)
    (hcb : ∀ m1, (cbs.cb_get_client_characteristic_configuration m1).thrown = none)
    (h : (process_GetClientCharaceristicConfiguration cbs m r).thrown = some e) :
    ((∃ code, e = Exn.received_unexpected_error code) ∧
        (process_GetClientCharaceristicConfiguration cbs m r).m = reset m) ∨
    (e = Exn.invalid_packet_size ∧
      (process_GetClientCharaceristicConfiguration cbs m r).m = m) := by
  unfold process_GetClientCharaceristicConfiguration at h ⊢
  split_ifs at h ⊢ with h1 h2
  · rw [fire_not_thrown _ _ _ hcb] at h
    simp at h
  · simp only [Option.some.injEq] at h
    exact Or.inl ⟨⟨_, h.symm⟩, rfl⟩
  · cases hctor : GATTReadCCC.ctor r with
    | some e2 =>
      simp only [hctor, Option.some.injEq] at h ⊢
      unfold GATTReadCCC.ctor at hctor
      split_ifs at hctor
      simp only [Option.some.injEq] at hctor
      exact Or.inr ⟨by rw [← h, ← hctor], trivial⟩
    | none =>
      simp only [hctor] at h
      simp at h

/-- Helper: what the `AwaitingWriteResponse` branch throws when the host callback throws
nothing: the error of an ERROR_RESP, the machine left as it was. -/
theorem process_AwaitingWriteResponse_thrown (cbs : Callbacks) (m : BLEGATTStateMachine)
    (r : PDUResponse) (e : Exn) (hcb : ∀ m1, (cbs.cb_write_response m1).thrown = none)
    (h : (process_AwaitingWriteResponse cbs m r).thrown = some e) :
    (∃ code, e = Exn.received_unexpected_error code) ∧
      (process_AwaitingWriteResponse cbs m r).m = m := by
  unfold process_AwaitingWriteResponse at h ⊢
  split_ifs at h ⊢ with h1
  · simp only [Option.some.injEq] at h
    exact ⟨⟨_, h.symm⟩, rfl⟩
  · rw [fire_not_thrown _ _ _ hcb] at h
    simp at h

/-- Helper: every way the pump can throw when the host callbacks throw nothing, with the
machine each leaves. -/
theorem read_and_process_next_thrown (cbs : Callbacks) (m : BLEGATTStateMachine)
    (r : PDUResponse) (e : Exn)
    (hcb : ∀ cb ∈ [cbs.cb_services_read, cbs.cb_find_characteristics,
        cbs.cb_get_client_characteristic_configuration, cbs.cb_write_response],
      ∀ m1, (cb m1).thrown = none)
    (h : (read_and_process_next cbs m r).thrown = some e) :
    (e.is_desync = true ∧ (read_and_process_next cbs m r).m = reset m) ∨
    ((∃ code, e = Exn.received_unexpected_error code) ∧
      m.state ≠ States.AwaitingWriteResponse ∧ (read_and_process_next cbs m r).m = reset m) ∨
    ((∃ code, e = Exn.received_unexpected_error code) ∧
      m.state = States.AwaitingWriteResponse ∧ (read_and_process_next cbs m r).m = m) ∨
    ((e = Exn.invalid_packet_size ∨ e = Exn.invalid_uuid_length) ∧
      (read_and_process_next cbs m r).m = m) ∨
    ((e = Exn.back_of_empty_vector ∨ e = Exn.bad_function_call) ∧
      (read_and_process_next cbs m r).m.state = m.state ∧
      (read_and_process_next cbs m r).m.last_request = m.last_request ∧
      (read_and_process_next cbs m r).m.next_handle_to_read = m.next_handle_to_read) := by
  unfold read_and_process_next at h ⊢
  split_ifs at h ⊢ with h1 h2 h3
  · unfold handle_notification at h ⊢
    split at h
    · next es e2 heq =>
      simp only [Option.some.injEq] at h
      subst h
      have := notify_services_thrown m.cb_notify_or_indicate r m.primary_services 0 e2
        (by rw [heq])
      subst this
      exact Or.inr (Or.inr (Or.inr (Or.inr ⟨Or.inr rfl, rfl, rfl, rfl⟩)))
    · split_ifs at h
  · simp only [Option.some.injEq] at h
    subst h
    exact Or.inl ⟨rfl, rfl⟩
  · simp only [Option.some.injEq] at h
    subst h
    exact Or.inl ⟨rfl, rfl⟩
  · cases hs : m.state with
    | ReadingPrimaryService =>
      simp only [hs] at h ⊢
      rcases process_ReadingPrimaryService_thrown cbs m r e (hcb _ (by simp)) h with
        ⟨h4, h5⟩ | ⟨h4, h5⟩ | ⟨h4, h5⟩
      · exact Or.inr (Or.inl ⟨h4, by simp, h5⟩)
      · exact Or.inr (Or.inr (Or.inr (Or.inl ⟨Or.inr h4, h5⟩)))
      · rw [hs] at h5
        exact Or.inr (Or.inr (Or.inr (Or.inr ⟨Or.inl h4, h5⟩)))
    | FindAllCharacteristics =>
      simp only [hs] at h ⊢
      rcases process_FindAllCharacteristics_thrown cbs m r e (hcb _ (by simp)) h with
        ⟨h4, h5⟩ | ⟨h4, h5⟩
      · exact Or.inr (Or.inl ⟨h4, by simp, h5⟩)
      · exact Or.inr (Or.inr (Or.inr (Or.inl ⟨Or.inl h4, h5⟩)))
    | GetClientCharaceristicConfiguration =>
      simp only [hs] at h ⊢
      rcases process_GetClientCharaceristicConfiguration_thrown cbs m r e (hcb _ (by simp)) h
        with ⟨h4, h5⟩ | ⟨h4, h5⟩
      · exact Or.inr (Or.inl ⟨h4, by simp, h5⟩)
      · exact Or.inr (Or.inr (Or.inr (Or.inl ⟨Or.inl h4, h5⟩)))
    | AwaitingWriteResponse =>
      simp only [hs] at h ⊢
      obtain ⟨h4, h5⟩ := process_AwaitingWriteResponse_thrown cbs m r e (hcb _ (by simp)) h
      exact Or.inr (Or.inr (Or.inl ⟨h4, trivial, h5⟩))
    | Idle =>
      simp only [hs] at h
      simp at h

/-- C13, counterexample: while the first page of characteristics is awaited, a
READ_BY_TYPE_RESP whose element_size byte is 5 makes the constructor of
`GATTReadCharacteristic` throw; the pump has reset nothing: the machine is still in
`FindAllCharacteristics` with `last_request` 0x08 and `next_handle_to_read` 1. -/
theorem C13_counterexample_decode_error_without_reset :
    (read_and_process_next Callbacks.default ex_awaiting_characteristics ex_width_5_page).thrown =
      some Exn.invalid_packet_size ∧
    (read_and_process_next Callbacks.default ex_awaiting_characteristics ex_width_5_page).m.state =
      States.FindAllCharacteristics ∧
    (read_and_process_next Callbacks.default ex_awaiting_characteristics
      ex_width_5_page).m.last_request = 0x08 ∧
    (read_and_process_next Callbacks.default ex_awaiting_characteristics
      ex_width_5_page).m.next_handle_to_read = 1 := by
  decide

/-- C13, amended: when the pump throws (the host callbacks throwing nothing themselves),
then after an opcode desync, and after an ERROR_RESP with a code other than ATTR_NOT_FOUND
in any state but `AwaitingWriteResponse`, the machine is Idle with `last_request` and
`next_handle_to_read` -1; after the error of a view constructor for an illegal element
width the machine is exactly as it was before the frame. -/
theorem C13_pump_errors (cbs : Callbacks) (m : BLEGATTStateMachine) (r : PDUResponse)
    (e : Exn)
    (hcb : ∀ cb ∈ [cbs.cb_services_read, cbs.cb_find_characteristics,
        cbs.cb_get_client_characteristic_configuration, cbs.cb_write_response],
      ∀ m1, (cb m1).thrown = none)
    (h : (read_and_process_next cbs m r).thrown = some e) :
    ((e.is_desync = true ∨
        ((∃ code, e = Exn.received_unexpected_error code) ∧
          m.state ≠ States.AwaitingWriteResponse)) →
      (read_and_process_next cbs m r).m.state = States.Idle ∧
      (read_and_process_next cbs m r).m.last_request = -1 ∧
      (read_and_process_next cbs m r).m.next_handle_to_read = -1) ∧
    ((e = Exn.invalid_packet_size ∨ e = Exn.invalid_uuid_length) →
      (read_and_process_next cbs m r).m = m) := by
  rcases read_and_process_next_thrown cbs m r e hcb h with
    ⟨h1, h2⟩ | ⟨⟨c, h1⟩, _, h2⟩ | ⟨⟨c, h1⟩, h3, h2⟩ | ⟨h1, h2⟩ | ⟨h1, _⟩
  · constructor
    · intro _
      rw [h2]
      exact ⟨rfl, rfl, rfl⟩
    · rintro (h3 | h3) <;> (rw [h3] at h1; cases h1)
  · constructor
    · intro _
      rw [h2]
      exact ⟨rfl, rfl, rfl⟩
    · rintro (h3 | h3) <;> (rw [h3] at h1; cases h1)
  · constructor
    · rintro (h4 | ⟨_, h4⟩)
      · rw [h1] at h4
        cases h4
      · exact absurd h3 h4
    · rintro (h4 | h4) <;> (rw [h4] at h1; cases h1)
  · constructor
    · rintro (h4 | ⟨⟨c, h4⟩, _⟩)
      · rcases h1 with h1 | h1 <;> (rw [h1] at h4; cases h4)
      · rcases h1 with h1 | h1 <;> (rw [h1] at h4; cases h4)
    · intro _
      exact h2
  · constructor
    · rintro (h4 | ⟨⟨c, h4⟩, _⟩)
      · rcases h1 with h1 | h1 <;> (rw [h1] at h4; cases h4)
      · rcases h1 with h1 | h1 <;> (rw [h1] at h4; cases h4)
    · rintro (h4 | h4) <;> rcases h1 with h1 | h1 <;> (rw [h1] at h4; cases h4)

/-- Helper: the default callbacks throw nothing at all. -/
theorem default_callbacks_not_thrown :
    ∀ cb ∈ [Callbacks.default.cb_services_read, Callbacks.default.cb_find_characteristics,
        Callbacks.default.cb_get_client_characteristic_configuration,
        Callbacks.default.cb_write_response],
      ∀ (m1 : BLEGATTStateMachine), (cb m1).thrown = none := by
  intro cb hcb m1
  simp only [Callbacks.default, List.mem_cons, List.mem_singleton, or_self,
    List.not_mem_nil, or_false] at hcb
  subst hcb
  rfl

/-- C13, witness: the illegal element width of the counterexample (the machine is left as
it was), under the default callbacks. -/
theorem C13_pump_errors_witness :
    (read_and_process_next Callbacks.default ex_awaiting_characteristics ex_width_5_page).thrown =
      some Exn.invalid_packet_size ∧
    (((Exn.invalid_packet_size).is_desync = true ∨
        ((∃ code, Exn.invalid_packet_size = Exn.received_unexpected_error code) ∧
          ex_awaiting_characteristics.state ≠ States.AwaitingWriteResponse)) →
      (read_and_process_next Callbacks.default ex_awaiting_characteristics
        ex_width_5_page).m.state = States.Idle ∧
      (read_and_process_next Callbacks.default ex_awaiting_characteristics
        ex_width_5_page).m.last_request = -1 ∧
      (read_and_process_next Callbacks.default ex_awaiting_characteristics
        ex_width_5_page).m.next_handle_to_read = -1) ∧
    ((Exn.invalid_packet_size = Exn.invalid_packet_size ∨
        Exn.invalid_packet_size = Exn.invalid_uuid_length) →
      (read_and_process_next Callbacks.default ex_awaiting_characteristics ex_width_5_page).m =
        ex_awaiting_characteristics) :=
  ⟨by decide,
    C13_pump_errors Callbacks.default ex_awaiting_characteristics ex_width_5_page
      Exn.invalid_packet_size default_callbacks_not_thrown (by decide)⟩

/-! ## The invariant `last_request = -1` iff `Idle` -/

/-- Helper: the loop over the elements of a characteristic page touches neither `state`,
nor `last_request`, nor the trace. -/
theorem find_characteristics_fold_frame (r : PDUResponse) (is : List Nat)
    (m : BLEGATTStateMachine) :
    (is.foldl (find_characteristics_element r) m).state = m.state ∧
    (is.foldl (find_characteristics_element r) m).last_request = m.last_request ∧
    (is.foldl (find_characteristics_element r) m).trace = m.trace ∧
    (is.foldl (find_characteristics_element r) m).cb_notify_or_indicate =
      m.cb_notify_or_indicate := by
  induction is generalizing m with
  | nil => exact ⟨rfl, rfl, rfl, rfl⟩
  | cons i is ih =>
    simp only [List.foldl_cons]
    obtain ⟨h1, h2, h3, h4⟩ := ih (find_characteristics_element r m i)
    exact ⟨h1, h2, h3, h4⟩

/-- Helper: the loop over the elements of a CCC page touches neither `state`, nor
`last_request`, nor the trace. -/
theorem ccc_fold_frame (r : PDUResponse) (is : List Nat) (m : BLEGATTStateMachine) :
    (is.foldl (ccc_element r) m).state = m.state ∧
    (is.foldl (ccc_element r) m).last_request = m.last_request ∧
    (is.foldl (ccc_element r) m).trace = m.trace ∧
    (is.foldl (ccc_element r) m).cb_notify_or_indicate = m.cb_notify_or_indicate := by
  induction is generalizing m with
  | nil => exact ⟨rfl, rfl, rfl, rfl⟩
  | cons i is ih =>
    simp only [List.foldl_cons]
    obtain ⟨h1, h2, h3, h4⟩ := ih (ccc_element r m i)
    exact ⟨h1, h2, h3, h4⟩

/-- Helper: in a discovery phase `state_machine_write` keeps the state and records an
opcode, which is not -1. -/
theorem state_machine_write_phase (m : BLEGATTStateMachine)
    (h : m.state = States.ReadingPrimaryService ∨ m.state = States.FindAllCharacteristics ∨
      m.state = States.GetClientCharaceristicConfiguration) :
    (state_machine_write m).state = m.state ∧ (state_machine_write m).state ≠ States.Idle ∧
    (state_machine_write m).last_request ≠ -1 := by
  unfold state_machine_write
  rcases h with h | h | h <;> simp [h, ATT_OP_READ_BY_GROUP_REQ, ATT_OP_READ_BY_TYPE_REQ]

/-- Helper: after `state_machine_write` in a discovery phase, `last_request` is not -1 and
the state is not Idle. -/
theorem state_machine_write_coherent (m : BLEGATTStateMachine)
    (h : m.state = States.ReadingPrimaryService ∨ m.state = States.FindAllCharacteristics ∨
      m.state = States.GetClientCharaceristicConfiguration) :
    (state_machine_write m).last_request = -1 ↔ (state_machine_write m).state = States.Idle :=
  ⟨fun h1 => absurd h1 (state_machine_write_phase m h).2.2,
    fun h1 => absurd h1 (state_machine_write_phase m h).2.1⟩

/-- Helper: the notification branch leaves `state`, `last_request`, `next_handle_to_read`
and the stored services as they were. -/
theorem handle_notification_frame (m : BLEGATTStateMachine) (n : PDUResponse) :
    (handle_notification m n).m.state = m.state ∧
    (handle_notification m n).m.last_request = m.last_request ∧
    (handle_notification m n).m.next_handle_to_read = m.next_handle_to_read ∧
    (handle_notification m n).m.primary_services = m.primary_services := by
  unfold handle_notification
  split
  · exact ⟨rfl, rfl, rfl, rfl⟩
  · split_ifs <;> exact ⟨rfl, rfl, rfl, rfl⟩

/-- Helper: the `ReadingPrimaryService` branch under the default callbacks keeps
"`last_request` is -1 iff the state is Idle". -/
theorem process_ReadingPrimaryService_coherent (m : BLEGATTStateMachine) (r : PDUResponse)
    (hs : m.state = States.ReadingPrimaryService)
    (hI : m.last_request = -1 ↔ m.state = States.Idle) :
    (process_ReadingPrimaryService Callbacks.default m r).m.last_request = -1 ↔
      (process_ReadingPrimaryService Callbacks.default m r).m.state = States.Idle := by
  unfold process_ReadingPrimaryService
  split_ifs with h1 h2
  · simp [fire, Callbacks.default, buggerall, reset]
  · simp [reset]
  · split
    · exact hI
    · simp only
      split
      · exact hI
      · split_ifs
        · simp [fire, Callbacks.default, buggerall, reset]
        · apply state_machine_write_coherent
          exact Or.inl hs

/-- Helper: the `FindAllCharacteristics` branch under the default callbacks keeps
"`last_request` is -1 iff the state is Idle". -/
theorem process_FindAllCharacteristics_coherent (m : BLEGATTStateMachine) (r : PDUResponse)
    (hs : m.state = States.FindAllCharacteristics)
    (hI : m.last_request = -1 ↔ m.state = States.Idle) :
    (process_FindAllCharacteristics Callbacks.default m r).m.last_request = -1 ↔
      (process_FindAllCharacteristics Callbacks.default m r).m.state = States.Idle := by
  unfold process_FindAllCharacteristics
  split_ifs with h1 h2
  · simp [fire, Callbacks.default, buggerall, reset]
  · simp [reset]
  · split
    · exact hI
    · apply state_machine_write_coherent
      rw [(find_characteristics_fold_frame r _ m).1]
      exact Or.inr (Or.inl hs)

/-- Helper: the CCC branch under the default callbacks keeps "`last_request` is -1 iff the
state is Idle". -/
theorem process_GetClientCharaceristicConfiguration_coherent (m : BLEGATTStateMachine)
    (r : PDUResponse) (hs : m.state = States.GetClientCharaceristicConfiguration)
    (hI : m.last_request = -1 ↔ m.state = States.Idle) :
    (process_GetClientCharaceristicConfiguration Callbacks.default m r).m.last_request = -1 ↔
      (process_GetClientCharaceristicConfiguration Callbacks.default m r).m.state =
        States.Idle := by
  unfold process_GetClientCharaceristicConfiguration
  split_ifs with h1 h2
  · simp [fire, Callbacks.default, buggerall, reset]
  · simp [reset]
  · split
    · exact hI
    · apply state_machine_write_coherent
      rw [(ccc_fold_frame r _ m).1]
      exact Or.inr (Or.inr hs)

/-- Helper: the `AwaitingWriteResponse` branch under the default callbacks keeps
"`last_request` is -1 iff the state is Idle". -/
theorem process_AwaitingWriteResponse_coherent (m : BLEGATTStateMachine) (r : PDUResponse)
    (hI : m.last_request = -1 ↔ m.state = States.Idle) :
    (process_AwaitingWriteResponse Callbacks.default m r).m.last_request = -1 ↔
      (process_AwaitingWriteResponse Callbacks.default m r).m.state = States.Idle := by
  unfold process_AwaitingWriteResponse
  split_ifs with h1
  · exact hI
  · simp [fire, Callbacks.default, buggerall, reset]

/-- Helper: one turn of the pump under the default callbacks keeps "`last_request` is -1
iff the state is Idle", whatever the frame. -/
theorem read_and_process_next_coherent (m : BLEGATTStateMachine) (r : PDUResponse)
    (hI : m.last_request = -1 ↔ m.state = States.Idle) :
    (read_and_process_next Callbacks.default m r).m.last_request = -1 ↔
      (read_and_process_next Callbacks.default m r).m.state = States.Idle := by
  unfold read_and_process_next
  split_ifs with h1 h2 h3
  · rw [(handle_notification_frame m r).1, (handle_notification_frame m r).2.1]
    exact hI
  · simp [reset]
  · simp [reset]
  · split
    · next hs => exact process_ReadingPrimaryService_coherent m r hs hI
    · next hs => exact process_FindAllCharacteristics_coherent m r hs hI
    · next hs => exact process_GetClientCharaceristicConfiguration_coherent m r hs hI
    · exact process_AwaitingWriteResponse_coherent m r hI
    · exact hI

/-- Helper: `Characteristic::set_notify_and_indicate` on a stored characteristic touches
neither `state` nor `last_request`. -/
theorem stored_set_notify_and_indicate_frame (m : BLEGATTStateMachine) (si ci : Nat)
    (notify indicate : Bool) :
    (Characteristic.set_notify_and_indicate m si ci notify indicate).m.state = m.state ∧
    (Characteristic.set_notify_and_indicate m si ci notify indicate).m.last_request =
      m.last_request := by
  unfold Characteristic.set_notify_and_indicate
  split
  · exact ⟨rfl, rfl⟩
  · split
    · exact ⟨rfl, rfl⟩
    · next c _ =>
      exact ⟨(set_notify_and_indicate_frame m c notify indicate).1,
        (set_notify_and_indicate_frame m c notify indicate).2.2.1⟩

/-- Helper: every call keeps "`last_request` is -1 iff the state is Idle". -/
theorem call_apply_coherent (m : BLEGATTStateMachine) (call : Call)
    (hI : m.last_request = -1 ↔ m.state = States.Idle) :
    (Call.apply m call).last_request = -1 ↔ (Call.apply m call).state = States.Idle := by
  cases call with
  | read_primary_services =>
    exact state_machine_write_coherent _ (Or.inl rfl)
  | find_all_characteristics =>
    show (find_all_characteristics m).m.last_request = -1 ↔
      (find_all_characteristics m).m.state = States.Idle
    unfold find_all_characteristics
    split_ifs
    · exact hI
    · exact state_machine_write_coherent _ (Or.inr (Or.inl rfl))
  | get_client_characteristic_configuration =>
    show (get_client_characteristic_configuration m).m.last_request = -1 ↔
      (get_client_characteristic_configuration m).m.state = States.Idle
    unfold get_client_characteristic_configuration
    split_ifs
    · exact hI
    · exact state_machine_write_coherent _ (Or.inr (Or.inr rfl))
  | set_notify_and_indicate c notify indicate =>
    show (set_notify_and_indicate m c notify indicate).1.m.last_request = -1 ↔
      (set_notify_and_indicate m c notify indicate).1.m.state = States.Idle
    rw [(set_notify_and_indicate_frame m c notify indicate).1,
      (set_notify_and_indicate_frame m c notify indicate).2.2.1]
    exact hI
  | stored_set_notify_and_indicate si ci notify indicate =>
    show (Characteristic.set_notify_and_indicate m si ci notify indicate).m.last_request = -1 ↔
      (Characteristic.set_notify_and_indicate m si ci notify indicate).m.state = States.Idle
    rw [(stored_set_notify_and_indicate_frame m si ci notify indicate).1,
      (stored_set_notify_and_indicate_frame m si ci notify indicate).2]
    exact hI
  | read_and_process_next r => exact read_and_process_next_coherent m r hI

/-- Helper: the invariant along a sequence of calls from any machine that has it. -/
theorem foldl_apply_coherent (calls : List Call) (m : BLEGATTStateMachine)
    (hI : m.last_request = -1 ↔ m.state = States.Idle) :
    (calls.foldl Call.apply m).last_request = -1 ↔
      (calls.foldl Call.apply m).state = States.Idle := by
  induction calls generalizing m with
  | nil => exact hI
  | cons call calls ih =>
    simp only [List.foldl_cons]
    exact ih _ (call_apply_coherent m call hI)

/-- C14: in every machine reached from the freshly constructed one (Idle, `last_request`
-1) by any sequence of phase entries, subscriptions and turns of the pump on arbitrary
frames, under the default no-op callbacks, `last_request` is -1 if and only if the state is
Idle. -/
theorem C14_last_request_iff_idle (calls : List Call) :
    (run_calls calls).last_request = -1 ↔ (run_calls calls).state = States.Idle :=
  foldl_apply_coherent calls BLEGATTStateMachine.init (by decide)

/-! ## The machine-wide notification callback has no default -/

/-- C15, evaluated where it fails: `cb_notify_or_indicate` is the one callback member
declared without the `buggerall` initialiser, so on a freshly constructed machine it is an
empty `std::function`.  After the discovery of a characteristic with value handle 0x0010
(itself without a callback), a notification for 0x0010 makes the pump throw
`std::bad_function_call`; so does an indication, and the confirmation is not sent. -/
theorem C15_unbound_machine_callback_is_called :
    BLEGATTStateMachine.init.cb_notify_or_indicate = none ∧
    ex_discovered.cb_notify_or_indicate = none ∧
    ex_discovered.primary_services = [ex_thermometer_service] ∧
    ex_thermometer_characteristic.cb_notify_or_indicate = none ∧
    ex_thermometer_characteristic.value_handle =
      PDUNotificationOrIndication.handle ex_notification ∧
    (read_and_process_next Callbacks.default ex_discovered ex_notification).thrown =
      some Exn.bad_function_call ∧
    (read_and_process_next Callbacks.default ex_discovered ex_indication).thrown =
      some Exn.bad_function_call ∧
    ((read_and_process_next Callbacks.default ex_discovered ex_indication).m.trace.filter
      Event.is_send) = ex_discovered.trace.filter Event.is_send := by
  decide

/-! ## The view `GATTReadCharacteristic` -/

/-- C16, counterexample: a READ_BY_TYPE_RESP whose element_size byte is 5 is rejected by
the constructor of `GATTReadCharacteristic` (its value size is 3), and one whose
element_size byte is 7 is accepted. -/
theorem C16_counterexample_element_size_5_rejected :
    PDUReadByTypeResponse.element_size ex_width_5_page = 5 ∧
    GATTReadCharacteristic.ctor ex_width_5_page = some Exn.invalid_packet_size ∧
    PDUReadByTypeResponse.element_size ex_width_7_page = 7 ∧
    GATTReadCharacteristic.ctor ex_width_7_page = none := by
  decide

/-- C16, amended: the view `GATTReadCharacteristic` over a READ_BY_TYPE_RESP (whose
value_size is element_size - 2) is constructed successfully if and only if the value size
is 5 or 19, that is if and only if the element_size byte is 7 or 21; every other
element_size is rejected with the `runtime_error` of the constructor. -/
theorem C16_characteristic_view_widths (p : PDUResponse) :
    (GATTReadCharacteristic.ctor p = none ↔
      (PDUReadByTypeResponse.element_size p = 7 ∨ PDUReadByTypeResponse.element_size p = 21)) ∧
    (¬ (PDUReadByTypeResponse.element_size p = 7 ∨ PDUReadByTypeResponse.element_size p = 21) →
      GATTReadCharacteristic.ctor p = some Exn.invalid_packet_size) ∧
    ((PDUReadByTypeResponse.element_size p = 7 ↔ PDUReadByTypeResponse.value_size p = 5) ∧
      (PDUReadByTypeResponse.element_size p = 21 ↔ PDUReadByTypeResponse.value_size p = 19)) := by
  unfold GATTReadCharacteristic.ctor PDUReadByTypeResponse.value_size
  refine ⟨?_, ?_, ?_, ?_⟩
  · split_ifs with h
    · simp only [false_iff, reduceCtorEq]
      omega
    · simp only [true_iff]
      omega
  · intro h
    rw [if_pos (by omega)]
  · omega
  · omega

/-! ## The flag byte of a characteristic declaration -/

set_option maxRecDepth 100000 in
/-- Helper: for a byte, the eight mask tests of lines 692-699 read the eight bits, and the
byte is the sum of its bits. -/
theorem flag_byte_bits :
    ∀ f, f < 256 →
      ((f &&& GATT_CHARACTERISTIC_FLAGS_BROADCAST != 0) = f.testBit 0 ∧
        (f &&& GATT_CHARACTERISTIC_FLAGS_READ != 0) = f.testBit 1 ∧
        (f &&& GATT_CHARACTERISTIC_FLAGS_WRITE_WITHOUT_RESPONSE != 0) = f.testBit 2 ∧
        (f &&& GATT_CHARACTERISTIC_FLAGS_WRITE != 0) = f.testBit 3 ∧
        (f &&& GATT_CHARACTERISTIC_FLAGS_NOTIFY != 0) = f.testBit 4 ∧
        (f &&& GATT_CHARACTERISTIC_FLAGS_INDICATE != 0) = f.testBit 5 ∧
        (f &&& GATT_CHARACTERISTIC_FLAGS_AUTHENTICATED_SIGNED_WRITES != 0) = f.testBit 6 ∧
        (f &&& GATT_CHARACTERISTIC_FLAGS_EXTENDED_PROPERTIES != 0) = f.testBit 7) ∧
      f = (f.testBit 0).toNat + 2 * (f.testBit 1).toNat + 4 * (f.testBit 2).toNat +
        8 * (f.testBit 3).toNat + 16 * (f.testBit 4).toNat + 32 * (f.testBit 5).toNat +
        64 * (f.testBit 6).toNat + 128 * (f.testBit 7).toNat := by
  decide

/-- Helper: a byte read from a frame is below 256. -/
theorem uint8_lt (r : PDUResponse) (i : Nat) : r.uint8 i < 256 :=
  Nat.mod_lt _ (by decide)

/-- Helper: a u16 read from a frame is below 65536. -/
theorem uint16_lt (r : PDUResponse) (i : Nat) : r.uint16 i < 65536 := by
  have h1 := uint8_lt r i
  have h2 := uint8_lt r (i + 1)
  unfold PDUResponse.uint16
  omega

/-! ## Discovery: a page of primary services -/

/-- Helper: a frame that is no notification, no indication and no error, and whose opcode
is `last_request + 1`, passes the opcode validation and reaches the branch of the current
state. -/
theorem read_and_process_next_response (cbs : Callbacks) (m : BLEGATTStateMachine)
    (r : PDUResponse) (hn : r.type ≠ ATT_OP_HANDLE_NOTIFY) (hi : r.type ≠ ATT_OP_HANDLE_IND)
    (he : r.type ≠ ATT_OP_ERROR) (hl : (r.type : Int) = m.last_request + 1) :
    read_and_process_next cbs m r =
      match m.state with
      | States.ReadingPrimaryService => process_ReadingPrimaryService cbs m r
      | States.FindAllCharacteristics => process_FindAllCharacteristics cbs m r
      | States.GetClientCharaceristicConfiguration =>
        process_GetClientCharaceristicConfiguration cbs m r
      | States.AwaitingWriteResponse => process_AwaitingWriteResponse cbs m r
      | States.Idle => { m := m, thrown := none } := by
  unfold read_and_process_next
  rw [if_neg (by simp [hn, hi]), if_neg (by simp [he]), if_neg (by simp [hl])]

/-- Helper: two machines with the same six members are the same machine. -/
theorem machine_eq (a b : BLEGATTStateMachine)
    (h1 : a.primary_services = b.primary_services) (h2 : a.state = b.state)
    (h3 : a.next_handle_to_read = b.next_handle_to_read) (h4 : a.last_request = b.last_request)
    (h5 : a.cb_notify_or_indicate = b.cb_notify_or_indicate) (h6 : a.trace = b.trace) :
    a = b := by
  cases a
  cases b
  simp only at h1 h2 h3 h4 h5 h6
  subst h1 h2 h3 h4 h5 h6
  rfl

/-- Helper: `terminate_previous` keeps the number of characteristics. -/
theorem terminate_previous_length (handle : Nat) (cs : List Characteristic) :
    (terminate_previous handle cs).length = cs.length := by
  induction cs with
  | nil => rfl
  | cons c cs ih =>
    cases cs with
    | nil => simp [terminate_previous]
    | cons d cs =>
      simp only [terminate_previous, List.length_cons] at ih ⊢
      omega

/-- Helper: `terminate_previous` leaves every characteristic but the last as it was. -/
theorem terminate_previous_getElem (handle : Nat) (cs : List Characteristic) (j : Nat)
    (hj : j + 1 < cs.length) : (terminate_previous handle cs)[j]? = cs[j]? := by
  induction cs generalizing j with
  | nil => simp at hj
  | cons c cs ih =>
    cases cs with
    | nil => simp at hj
    | cons d cs =>
      simp only [terminate_previous]
      cases j with
      | zero => simp
      | succ j =>
        simp only [List.getElem?_cons_succ]
        exact ih j (by simpa using hj)

/-- Helper: `terminate_previous` rewrites `last_handle` of the last characteristic. -/
theorem terminate_previous_getLast (handle : Nat) (cs : List Characteristic)
    (c0 : Characteristic) (h : cs.getLast? = some c0) :
    (terminate_previous handle cs).getLast? =
      some { c0 with last_handle := (handle + 65535) % 65536 } := by
  induction cs with
  | nil => simp at h
  | cons c cs ih =>
    cases cs with
    | nil =>
      simp only [List.getLast?_singleton, Option.some.injEq] at h
      subst h
      simp [terminate_previous]
    | cons d cs =>
      simp only [terminate_previous]
      rw [List.getLast?_cons_cons] at h
      rw [List.getLast?_cons, ih h]
      rfl

/-- Helper: `state_machine_write` in `FindAllCharacteristics`. -/
theorem state_machine_write_FindAllCharacteristics (m : BLEGATTStateMachine)
    (h : m.state = States.FindAllCharacteristics) :
    state_machine_write m =
      { m with
        last_request := 0x08
        trace := m.trace ++
          [Event.send_read_by_type (UUID.u16 0x2803) m.next_handle_to_read 0xFFFF] } := by
  unfold state_machine_write
  rw [if_neg (by rw [h]; decide), if_pos h]
  rfl

/-- Helper: `state_machine_write` in `GetClientCharaceristicConfiguration`. -/
theorem state_machine_write_GetClientCharaceristicConfiguration (m : BLEGATTStateMachine)
    (h : m.state = States.GetClientCharaceristicConfiguration) :
    state_machine_write m =
      { m with
        last_request := 0x08
        trace := m.trace ++
          [Event.send_read_by_type (UUID.u16 0x2902) m.next_handle_to_read 0xFFFF] } := by
  unfold state_machine_write
  rw [if_neg (by rw [h]; decide), if_neg (by rw [h]; decide), if_pos h]
  rfl

/-- Helper: the stored services after the element loop of a characteristic page are the
services transformed element by element. -/
theorem find_characteristics_fold_services (r : PDUResponse) (is : List Nat)
    (m : BLEGATTStateMachine) :
    (is.foldl (find_characteristics_element r) m).primary_services =
      is.foldl
        (fun ss i =>
          ss.map (add_characteristic (PDUReadByTypeResponse.handle r i)
            (GATTReadCharacteristic.characteristic r i)))
        m.primary_services := by
  induction is generalizing m with
  | nil => rfl
  | cons i is ih =>
    simp only [List.foldl_cons]
    rw [ih]
    rfl

/-- Helper: after the element loop over `k + 1` elements, `next_handle_to_read` is the
handle of the last element plus one. -/
theorem find_characteristics_fold_next (r : PDUResponse) (k : Nat) (m : BLEGATTStateMachine) :
    ((List.range (k + 1)).foldl (find_characteristics_element r) m).next_handle_to_read =
      (PDUReadByTypeResponse.handle r k : Int) + 1 := by
  rw [List.range_succ, List.foldl_append]
  rfl

/-- Helper: the declaration handle of an element that lies in a service range is at least
1, so the u16 `handle - 1` does not wrap. -/
theorem handle_pred (r : PDUResponse) (i start : Nat)
    (h : PDUReadByTypeResponse.handle r i > start) :
    (PDUReadByTypeResponse.handle r i + 65535) % 65536 = PDUReadByTypeResponse.handle r i - 1 := by
  have := uint16_lt r (i * PDUReadByTypeResponse.element_size r + 2)
  unfold PDUReadByTypeResponse.handle at h ⊢
  omega

/-- C18: in `FindAllCharacteristics`, a READ_BY_TYPE_RESP accepted by the view (value size 5
or 19) with n >= 1 elements throws nothing and leaves the state as it is; the elements are
applied in order to every stored service, `next_handle_to_read` ends as the declaration
handle of the last element plus one, and exactly one request is sent,
READ_BY_TYPE_REQ(0x2803, `next_handle_to_read`, 0xFFFF).  Applying the element with
declaration handle h to a service s with s.start_handle < h <= s.end_handle keeps the
characteristics already there, except that the last of them (if any) gets
`last_handle` = h - 1, and appends one characteristic with `first_handle` = h,
`last_handle` = s.end_handle, the value handle of the declaration (the u16 after the flag
byte), the UUID of the declaration (the u16 after the value handle when the value size is
5, the 128-bit value there otherwise), CCC handle 0, `ccc_last_known_value` not assigned
and no callback; a service whose range does not contain h is left as it is. -/
theorem C18_characteristics_page (cbs : Callbacks) (m : BLEGATTStateMachine) (r : PDUResponse)
    (hs : m.state = States.FindAllCharacteristics) (hl : m.last_request = 0x08)
    (ht : r.type = ATT_OP_READ_BY_TYPE_RESP)
    (hv : PDUReadByTypeResponse.value_size r = 5 ∨ PDUReadByTypeResponse.value_size r = 19)
    (hn : 1 ≤ PDUReadByTypeResponse.num_elements r) :
    read_and_process_next cbs m r =
      { m :=
          { m with
            primary_services :=
              (List.range (PDUReadByTypeResponse.num_elements r)).foldl
                (fun ss i =>
                  ss.map (add_characteristic (PDUReadByTypeResponse.handle r i)
                    (GATTReadCharacteristic.characteristic r i)))
                m.primary_services
            next_handle_to_read :=
              (PDUReadByTypeResponse.handle r (PDUReadByTypeResponse.num_elements r - 1) : Int) + 1
            trace := m.trace ++
              [Event.send_read_by_type (UUID.u16 0x2803)
                ((PDUReadByTypeResponse.handle r
                  (PDUReadByTypeResponse.num_elements r - 1) : Int) + 1) 0xFFFF] }
        thrown := none } ∧
    (∀ (i : Nat) (s : PrimaryService),
      (PDUReadByTypeResponse.handle r i > s.start_handle ∧
          PDUReadByTypeResponse.handle r i ≤ s.end_handle) →
        ∃ c : Characteristic,
          add_characteristic (PDUReadByTypeResponse.handle r i)
              (GATTReadCharacteristic.characteristic r i) s =
            { s with
              characteristics :=
                terminate_previous (PDUReadByTypeResponse.handle r i) s.characteristics ++ [c] } ∧
          c.first_handle = PDUReadByTypeResponse.handle r i ∧
          c.last_handle = s.end_handle ∧
          c.value_handle = r.uint16 (PDUReadByTypeResponse.value r i + 1) ∧
          c.uuid =
            (if PDUReadByTypeResponse.value_size r = 5 then
              UUID.u16 (r.uint16 (PDUReadByTypeResponse.value r i + 3))
            else UUID.u128 (r.le_value (PDUReadByTypeResponse.value r i + 3) 16)) ∧
          c.client_characteric_configuration_handle = 0 ∧
          c.ccc_last_known_value = none ∧
          c.cb_notify_or_indicate = none ∧
          (terminate_previous (PDUReadByTypeResponse.handle r i) s.characteristics).length =
            s.characteristics.length ∧
          (∀ j, j + 1 < s.characteristics.length →
            (terminate_previous (PDUReadByTypeResponse.handle r i) s.characteristics)[j]? =
              s.characteristics[j]?) ∧
          (∀ c0, s.characteristics.getLast? = some c0 →
            (terminate_previous (PDUReadByTypeResponse.handle r i) s.characteristics).getLast? =
              some { c0 with last_handle := PDUReadByTypeResponse.handle r i - 1 })) ∧
    (∀ (i : Nat) (s : PrimaryService),
      ¬ (PDUReadByTypeResponse.handle r i > s.start_handle ∧
          PDUReadByTypeResponse.handle r i ≤ s.end_handle) →
        add_characteristic (PDUReadByTypeResponse.handle r i)
          (GATTReadCharacteristic.characteristic r i) s = s) := by
  refine ⟨?_, ?_, ?_⟩
  · have hpump : read_and_process_next cbs m r = process_FindAllCharacteristics cbs m r := by
      rw [read_and_process_next_response cbs m r (by rw [ht]; decide) (by rw [ht]; decide)
        (by rw [ht]; decide) (by rw [ht, hl]; decide), hs]
    have hctor : GATTReadCharacteristic.ctor r = none := by
      unfold GATTReadCharacteristic.ctor
      rw [if_neg]
      rcases hv with h | h <;> simp [h]
    obtain ⟨k, hk⟩ : ∃ k, PDUReadByTypeResponse.num_elements r = k + 1 :=
      ⟨PDUReadByTypeResponse.num_elements r - 1, by omega⟩
    rw [hpump]
    unfold process_FindAllCharacteristics
    rw [if_neg (by rw [ht]; decide)]
    simp only [hctor, hk, Nat.add_sub_cancel]
    have hframe := find_characteristics_fold_frame r (List.range (k + 1)) m
    have hps := find_characteristics_fold_services r (List.range (k + 1)) m
    have hnext := find_characteristics_fold_next r k m
    rw [state_machine_write_FindAllCharacteristics _ (by rw [hframe.1]; exact hs)]
    congr 1
    apply machine_eq
    · exact hps
    · exact hframe.1
    · exact hnext
    · exact hl.symm
    · exact hframe.2.2.2
    · show _ ++ _ = _ ++ _
      rw [hframe.2.2.1, hnext]
  · intro i s hin
    refine ⟨new_characteristic (PDUReadByTypeResponse.handle r i)
      (GATTReadCharacteristic.characteristic r i) s.end_handle, ?_, rfl, rfl, rfl, rfl, rfl, rfl,
      rfl, terminate_previous_length _ _, terminate_previous_getElem _ _, ?_⟩
    · unfold add_characteristic
      rw [if_pos hin]
    · intro c0 hc0
      rw [terminate_previous_getLast _ _ c0 hc0, handle_pred r i s.start_handle hin.1]
  · intro i s hout
    unfold add_characteristic
    rw [if_neg hout]

/-- C18, witness: the page with the declaration at 0x000F (value handle 0x0010, UUID
0x2A1C, indicate) received with the service 0x0001..0xFFFF stored. -/
theorem C18_characteristics_page_witness :
    ex_awaiting_thermometer_characteristics.state = States.FindAllCharacteristics ∧
    ex_awaiting_thermometer_characteristics.last_request = 0x08 ∧
    ex_characteristics_page.type = ATT_OP_READ_BY_TYPE_RESP ∧
    PDUReadByTypeResponse.value_size ex_characteristics_page = 5 ∧
    PDUReadByTypeResponse.num_elements ex_characteristics_page = 1 ∧
    (read_and_process_next Callbacks.default ex_awaiting_thermometer_characteristics
      ex_characteristics_page).m.primary_services = [ex_thermometer_service] ∧
    (read_and_process_next Callbacks.default ex_awaiting_thermometer_characteristics
      ex_characteristics_page).m.next_handle_to_read = 0x10 := by
  have h := (C18_characteristics_page Callbacks.default ex_awaiting_thermometer_characteristics
    ex_characteristics_page (by decide) (by decide) (by decide) (Or.inl (by decide))
    (by decide)).1
  refine ⟨by decide, by decide, by decide, by decide, by decide, ?_, ?_⟩
  · rw [h]
    decide
  · rw [h]
    decide

/-! ## Discovery: a page of CCC descriptors -/

/-- Helper: the stored services after the element loop of a CCC page are the services
transformed element by element. -/
theorem ccc_fold_services (r : PDUResponse) (is : List Nat) (m : BLEGATTStateMachine) :
    (is.foldl (ccc_element r) m).primary_services =
      is.foldl
        (fun ss i =>
          ss.map (set_ccc_service (PDUReadByTypeResponse.handle r i) (GATTReadCCC.ccc r i)))
        m.primary_services := by
  induction is generalizing m with
  | nil => rfl
  | cons i is ih =>
    simp only [List.foldl_cons]
    rw [ih]
    rfl

/-- Helper: after the element loop over `k + 1` elements of a CCC page,
`next_handle_to_read` is the handle of the last element plus one. -/
theorem ccc_fold_next (r : PDUResponse) (k : Nat) (m : BLEGATTStateMachine) :
    ((List.range (k + 1)).foldl (ccc_element r) m).next_handle_to_read =
      (PDUReadByTypeResponse.handle r k : Int) + 1 := by
  rw [List.range_succ, List.foldl_append]
  rfl

/-- Helper: the view `GATTReadCCC` is constructed exactly for element_size 4. -/
theorem GATTReadCCC_ctor_iff (r : PDUResponse) :
    (PDUReadByTypeResponse.element_size r = 4 → GATTReadCCC.ctor r = none) ∧
    (PDUReadByTypeResponse.element_size r ≠ 4 →
      GATTReadCCC.ctor r = some Exn.invalid_packet_size) := by
  unfold GATTReadCCC.ctor PDUReadByTypeResponse.value_size
  constructor
  · intro h
    rw [if_neg (by omega)]
  · intro h
    rw [if_pos (by omega)]

/-- C20: in `GetClientCharaceristicConfiguration`, a READ_BY_TYPE_RESP whose element_size
is not 4 makes the constructor of `GATTReadCCC` throw, the machine left as it was.  One
whose element_size is 4, with n >= 1 elements, throws nothing: the elements are applied in
order to every stored service, `next_handle_to_read` ends as the handle of the last
element plus one and exactly one request is sent, READ_BY_TYPE_REQ(0x2902,
`next_handle_to_read`, 0xFFFF).  Applying the element (handle, value), the value being the
little-endian u16 after the handle, to a service s keeps its handles, UUID and number of
characteristics; a characteristic c of s with s.start_handle < handle <= s.end_handle and
c.first_handle < handle <= c.last_handle gets CCC handle = handle and
`ccc_last_known_value` = value, nothing else of it changing, and every other
characteristic is left as it is. -/
theorem C20_ccc_page (cbs : Callbacks) (m : BLEGATTStateMachine) (r : PDUResponse)
    (hs : m.state = States.GetClientCharaceristicConfiguration) (hl : m.last_request = 0x08)
    (ht : r.type = ATT_OP_READ_BY_TYPE_RESP) :
    (PDUReadByTypeResponse.element_size r ≠ 4 →
      read_and_process_next cbs m r = { m := m, thrown := some Exn.invalid_packet_size }) ∧
    (PDUReadByTypeResponse.element_size r = 4 → 1 ≤ PDUReadByTypeResponse.num_elements r →
      read_and_process_next cbs m r =
        { m :=
            { m with
              primary_services :=
                (List.range (PDUReadByTypeResponse.num_elements r)).foldl
                  (fun ss i =>
                    ss.map (set_ccc_service (PDUReadByTypeResponse.handle r i)
                      (GATTReadCCC.ccc r i)))
                  m.primary_services
              next_handle_to_read :=
                (PDUReadByTypeResponse.handle r
                  (PDUReadByTypeResponse.num_elements r - 1) : Int) + 1
              trace := m.trace ++
                [Event.send_read_by_type (UUID.u16 0x2902)
                  ((PDUReadByTypeResponse.handle r
                    (PDUReadByTypeResponse.num_elements r - 1) : Int) + 1) 0xFFFF] }
          thrown := none }) ∧
    (∀ (i : Nat) (s : PrimaryService),
      GATTReadCCC.ccc r i = r.uint16 (i * PDUReadByTypeResponse.element_size r + 4) ∧
      (set_ccc_service (PDUReadByTypeResponse.handle r i) (GATTReadCCC.ccc r i) s).start_handle =
        s.start_handle ∧
      (set_ccc_service (PDUReadByTypeResponse.handle r i) (GATTReadCCC.ccc r i) s).end_handle =
        s.end_handle ∧
      (set_ccc_service (PDUReadByTypeResponse.handle r i) (GATTReadCCC.ccc r i) s).uuid =
        s.uuid ∧
      (set_ccc_service (PDUReadByTypeResponse.handle r i)
          (GATTReadCCC.ccc r i) s).characteristics.length = s.characteristics.length ∧
      ∀ (j : Nat) (c : Characteristic), s.characteristics[j]? = some c →
        (((PDUReadByTypeResponse.handle r i > s.start_handle ∧
              PDUReadByTypeResponse.handle r i ≤ s.end_handle) ∧
            (PDUReadByTypeResponse.handle r i > c.first_handle ∧
              PDUReadByTypeResponse.handle r i ≤ c.last_handle)) →
          (set_ccc_service (PDUReadByTypeResponse.handle r i)
              (GATTReadCCC.ccc r i) s).characteristics[j]? =
            some { c with
                   client_characteric_configuration_handle := PDUReadByTypeResponse.handle r i
                   ccc_last_known_value := some (GATTReadCCC.ccc r i) }) ∧
        (¬ ((PDUReadByTypeResponse.handle r i > s.start_handle ∧
              PDUReadByTypeResponse.handle r i ≤ s.end_handle) ∧
            (PDUReadByTypeResponse.handle r i > c.first_handle ∧
              PDUReadByTypeResponse.handle r i ≤ c.last_handle)) →
          (set_ccc_service (PDUReadByTypeResponse.handle r i)
              (GATTReadCCC.ccc r i) s).characteristics[j]? = some c)) ∧
    (∀ (is : List Nat),
      (is.foldl
        (fun ss i =>
          ss.map (set_ccc_service (PDUReadByTypeResponse.handle r i) (GATTReadCCC.ccc r i)))
        m.primary_services).length = m.primary_services.length) := by
  have hpump : read_and_process_next cbs m r =
      process_GetClientCharaceristicConfiguration cbs m r := by
    rw [read_and_process_next_response cbs m r (by rw [ht]; decide) (by rw [ht]; decide)
      (by rw [ht]; decide) (by rw [ht, hl]; decide), hs]
  refine ⟨?_, ?_, ?_, ?_⟩
  · intro hes
    rw [hpump]
    unfold process_GetClientCharaceristicConfiguration
    rw [if_neg (by rw [ht]; decide)]
    simp only [(GATTReadCCC_ctor_iff r).2 hes]
  · intro hes hn
    obtain ⟨k, hk⟩ : ∃ k, PDUReadByTypeResponse.num_elements r = k + 1 :=
      ⟨PDUReadByTypeResponse.num_elements r - 1, by omega⟩
    rw [hpump]
    unfold process_GetClientCharaceristicConfiguration
    rw [if_neg (by rw [ht]; decide)]
    simp only [(GATTReadCCC_ctor_iff r).1 hes, hk, Nat.add_sub_cancel]
    have hframe := ccc_fold_frame r (List.range (k + 1)) m
    have hps := ccc_fold_services r (List.range (k + 1)) m
    have hnext := ccc_fold_next r k m
    rw [state_machine_write_GetClientCharaceristicConfiguration _
      (by rw [hframe.1]; exact hs)]
    congr 1
    apply machine_eq
    · exact hps
    · exact hframe.1
    · exact hnext
    · exact hl.symm
    · exact hframe.2.2.2
    · show _ ++ _ = _ ++ _
      rw [hframe.2.2.1, hnext]
  · intro i s
    refine ⟨rfl, ?_, ?_, ?_, ?_, ?_⟩
    · unfold set_ccc_service
      split_ifs <;> rfl
    · unfold set_ccc_service
      split_ifs <;> rfl
    · unfold set_ccc_service
      split_ifs <;> rfl
    · unfold set_ccc_service
      split_ifs
      · simp
      · rfl
    · intro j c hc
      constructor
      · rintro ⟨hinS, hinC⟩
        unfold set_ccc_service
        rw [if_pos hinS]
        simp only [List.getElem?_map, hc, Option.map_some', set_ccc, if_pos hinC]
      · intro hnot
        unfold set_ccc_service
        by_cases hinS : PDUReadByTypeResponse.handle r i > s.start_handle ∧
            PDUReadByTypeResponse.handle r i ≤ s.end_handle
        · rw [if_pos hinS]
          have hinC : ¬ (PDUReadByTypeResponse.handle r i > c.first_handle ∧
              PDUReadByTypeResponse.handle r i ≤ c.last_handle) := fun h => hnot ⟨hinS, h⟩
          simp only [List.getElem?_map, hc, Option.map_some', set_ccc, if_neg hinC]
        · rw [if_neg hinS]
          exact hc
  · intro is
    generalize m.primary_services = ss
    induction is generalizing ss with
    | nil => rfl
    | cons i is ih =>
      simp only [List.foldl_cons]
      rw [ih]
      simp

/-- C20, witness: the CCC page (0x0011, 0x0002) received for the characteristic
0x000F..0xFFFF of `ex_discovered`. -/
theorem C20_ccc_page_witness :
    ex_awaiting_ccc.state = States.GetClientCharaceristicConfiguration ∧
    ex_awaiting_ccc.last_request = 0x08 ∧
    ex_ccc_page.type = ATT_OP_READ_BY_TYPE_RESP ∧
    PDUReadByTypeResponse.element_size ex_ccc_page = 4 ∧
    PDUReadByTypeResponse.num_elements ex_ccc_page = 1 ∧
    (read_and_process_next Callbacks.default ex_awaiting_ccc ex_ccc_page).m.primary_services =
      [{ ex_thermometer_service with
         characteristics :=
           [{ ex_thermometer_characteristic with
              client_characteric_configuration_handle := 0x11
              ccc_last_known_value := some 0x0002 }] }] ∧
    (read_and_process_next Callbacks.default ex_awaiting_ccc ex_ccc_page).m.next_handle_to_read =
      0x12 := by
  have h := (C20_ccc_page Callbacks.default ex_awaiting_ccc ex_ccc_page (by decide) (by decide)
    (by decide)).2.1 (by decide) (by decide)
  refine ⟨by decide, by decide, by decide, by decide, by decide, ?_, ?_⟩
  · rw [h]
    decide
  · rw [h]
    decide

/-! ## Paging of the READ_BY_TYPE phases -/

/-- C21, evaluated where it fails: the READ_BY_TYPE phases have no test of the handle
against 0xFFFF (the service phase tests `end_handle == 0xffff`).  A page whose last element
has handle 0xFFFF throws nothing, fires no callback and leaves the phase active;
`next_handle_to_read` becomes 0x10000 and a request is sent with that start: for a
characteristic declaration at 0xFFFF, and for a CCC descriptor at 0xFFFF. -/
theorem C21_no_terminator_at_last_handle :
    PDUReadByTypeResponse.handle ex_last_handle_declaration_page 0 = 0xFFFF ∧
    (read_and_process_next Callbacks.default ex_awaiting_thermometer_characteristics
      ex_last_handle_declaration_page).thrown = none ∧
    (read_and_process_next Callbacks.default ex_awaiting_thermometer_characteristics
      ex_last_handle_declaration_page).m.state = States.FindAllCharacteristics ∧
    (read_and_process_next Callbacks.default ex_awaiting_thermometer_characteristics
      ex_last_handle_declaration_page).m.next_handle_to_read = 0x10000 ∧
    (read_and_process_next Callbacks.default ex_awaiting_thermometer_characteristics
      ex_last_handle_declaration_page).m.trace =
      ex_awaiting_thermometer_characteristics.trace ++
        [Event.send_read_by_type (UUID.u16 0x2803) 0x10000 0xFFFF] ∧
    PDUReadByTypeResponse.handle ex_last_handle_ccc_page 0 = 0xFFFF ∧
    (read_and_process_next Callbacks.default ex_awaiting_ccc ex_last_handle_ccc_page).thrown =
      none ∧
    (read_and_process_next Callbacks.default ex_awaiting_ccc ex_last_handle_ccc_page).m.state =
      States.GetClientCharaceristicConfiguration ∧
    (read_and_process_next Callbacks.default ex_awaiting_ccc
      ex_last_handle_ccc_page).m.next_handle_to_read = 0x10000 ∧
    (read_and_process_next Callbacks.default ex_awaiting_ccc ex_last_handle_ccc_page).m.trace =
      ex_awaiting_ccc.trace ++ [Event.send_read_by_type (UUID.u16 0x2902) 0x10000 0xFFFF] := by
  decide

/-! ## The last element of `primary_services` -/

/-- C25, evaluated where it fails: `primary_services.back()` is read after the loop whatever
the number of elements.  The frame `11 06` is accepted by `GATTReadServiceGroup` (value
size 2) and decodes to zero elements: on a machine with no service stored `back()` is
taken of an empty vector; on a machine with a service stored the decision is taken on that
older entry (end handle 0x000B), and the request from 0x000C is sent again. -/
theorem C25_back_after_zero_elements :
    GATTReadServiceGroup.ctor ex_empty_services_page = none ∧
    PDUReadGroupByTypeResponse.num_elements ex_empty_services_page = 0 ∧
    ex_awaiting_services.primary_services = [] ∧
    (read_and_process_next Callbacks.default ex_awaiting_services ex_empty_services_page).thrown =
      some Exn.back_of_empty_vector ∧
    (read_and_process_next Callbacks.default ex_reading_services ex_empty_services_page).thrown =
      none ∧
    (read_and_process_next Callbacks.default ex_reading_services
      ex_empty_services_page).m.primary_services = ex_reading_services.primary_services ∧
    (read_and_process_next Callbacks.default ex_reading_services
      ex_empty_services_page).m.next_handle_to_read = 0x0C ∧
    (read_and_process_next Callbacks.default ex_reading_services ex_empty_services_page).m.trace =
      [Event.send_read_group_by_type (UUID.u16 0x2800) 0x0C 0xFFFF] := by
  decide

/-! ## A declaration outside every service -/

/-- Helper: in `FindAllCharacteristics` a READ_BY_TYPE_RESP accepted by the view, with any
number of elements, throws nothing: the element loop runs and the next request is written. -/
theorem read_and_process_next_characteristics_page (cbs : Callbacks) (m : BLEGATTStateMachine)
    (r : PDUResponse) (hs : m.state = States.FindAllCharacteristics)
    (hl : m.last_request = 0x08) (ht : r.type = ATT_OP_READ_BY_TYPE_RESP)
    (hv : PDUReadByTypeResponse.value_size r = 5 ∨ PDUReadByTypeResponse.value_size r = 19) :
    read_and_process_next cbs m r =
      { m := state_machine_write
          ((List.range (PDUReadByTypeResponse.num_elements r)).foldl
            (find_characteristics_element r) m)
        thrown := none } := by
  have hctor : GATTReadCharacteristic.ctor r = none := by
    unfold GATTReadCharacteristic.ctor
    rw [if_neg]
    rcases hv with h | h <;> simp [h]
  rw [read_and_process_next_response cbs m r (by rw [ht]; decide) (by rw [ht]; decide)
    (by rw [ht]; decide) (by rw [ht, hl]; decide), hs]
  show process_FindAllCharacteristics cbs m r = _
  unfold process_FindAllCharacteristics
  rw [if_neg (by rw [ht]; decide)]
  simp only [hctor]

/-- Helper: a declaration whose handle lies in the range of none of the services leaves
every one of them as it is. -/
theorem map_add_characteristic_outside (handle : Nat)
    (ch : GATTReadCharacteristic.Characteristic) (ss : List PrimaryService)
    (h : ∀ s ∈ ss, ¬ (handle > s.start_handle ∧ handle ≤ s.end_handle)) :
    ss.map (add_characteristic handle ch) = ss := by
  induction ss with
  | nil => rfl
  | cons s ss ih =>
    simp only [List.map_cons]
    rw [ih (fun t ht => h t (List.mem_cons_of_mem _ ht))]
    unfold add_characteristic
    rw [if_neg (h s (List.mem_cons_self _ _))]

/-- Helper: a run of declarations, each outside the range of every service, leaves the
services as they are. -/
theorem foldl_add_characteristic_outside (r : PDUResponse) (is : List Nat)
    (ss : List PrimaryService)
    (h : ∀ i ∈ is, ∀ s ∈ ss,
      ¬ (PDUReadByTypeResponse.handle r i > s.start_handle ∧
        PDUReadByTypeResponse.handle r i ≤ s.end_handle)) :
    is.foldl
        (fun ss i =>
          ss.map (add_characteristic (PDUReadByTypeResponse.handle r i)
            (GATTReadCharacteristic.characteristic r i)))
        ss = ss := by
  induction is with
  | nil => rfl
  | cons i is ih =>
    simp only [List.foldl_cons]
    rw [map_add_characteristic_outside _ _ ss (h i (List.mem_cons_self _ _))]
    exact ih (fun j hj => h j (List.mem_cons_of_mem _ hj))

/-- C22, counterexample: with the single service 0x0001..0x000B stored, the page with the
declaration at handle 0x000F, which lies in no service, throws nothing; no characteristic
is stored and the next request, from 0x0010, is sent. -/
theorem C22_counterexample_declaration_dropped :
    ex_awaiting_first_characteristics.primary_services =
      [{ start_handle := 1, end_handle := 0x0B, uuid := UUID.u16 0x1800,
         characteristics := [] }] ∧
    PDUReadByTypeResponse.handle ex_characteristics_page 0 = 0x0F ∧
    (read_and_process_next Callbacks.default ex_awaiting_first_characteristics
      ex_characteristics_page).thrown = none ∧
    (read_and_process_next Callbacks.default ex_awaiting_first_characteristics
      ex_characteristics_page).m.primary_services =
      ex_awaiting_first_characteristics.primary_services ∧
    (read_and_process_next Callbacks.default ex_awaiting_first_characteristics
      ex_characteristics_page).m.trace =
      ex_awaiting_first_characteristics.trace ++
        [Event.send_read_by_type (UUID.u16 0x2803) 0x10 0xFFFF] := by
  decide

/-- C22, amended: in `FindAllCharacteristics`, a READ_BY_TYPE_RESP accepted by the view
never makes the pump throw, wherever its declarations lie, and the phase stays active
(state and `last_request` 0x08 as before).  A declaration whose handle h lies in the range
of none of the services leaves every service as it is (it is stored nowhere) and the
element loop only sets `next_handle_to_read` to h + 1; when this is so for every element
of the page the stored services are unchanged.  Whatever the page holds, exactly one
request is sent, READ_BY_TYPE_REQ(0x2803, `next_handle_to_read`, 0xFFFF), and when the
page has an element `next_handle_to_read` is the declaration handle of the last element
plus one. -/
theorem C22_declaration_outside_every_service (cbs : Callbacks) (m : BLEGATTStateMachine)
    (r : PDUResponse) (hs : m.state = States.FindAllCharacteristics)
    (hl : m.last_request = 0x08) (ht : r.type = ATT_OP_READ_BY_TYPE_RESP)
    (hv : PDUReadByTypeResponse.value_size r = 5 ∨ PDUReadByTypeResponse.value_size r = 19) :
    (read_and_process_next cbs m r).thrown = none ∧
    (read_and_process_next cbs m r).m.state = States.FindAllCharacteristics ∧
    (read_and_process_next cbs m r).m.last_request = 0x08 ∧
    (∀ (i : Nat) (ss : List PrimaryService),
      (∀ s ∈ ss, ¬ (PDUReadByTypeResponse.handle r i > s.start_handle ∧
        PDUReadByTypeResponse.handle r i ≤ s.end_handle)) →
      ss.map (add_characteristic (PDUReadByTypeResponse.handle r i)
        (GATTReadCharacteristic.characteristic r i)) = ss) ∧
    (∀ (i : Nat) (m1 : BLEGATTStateMachine),
      (∀ s ∈ m1.primary_services, ¬ (PDUReadByTypeResponse.handle r i > s.start_handle ∧
        PDUReadByTypeResponse.handle r i ≤ s.end_handle)) →
      find_characteristics_element r m1 i =
        { m1 with next_handle_to_read := (PDUReadByTypeResponse.handle r i : Int) + 1 }) ∧
    ((∀ i, i < PDUReadByTypeResponse.num_elements r → ∀ s ∈ m.primary_services,
        ¬ (PDUReadByTypeResponse.handle r i > s.start_handle ∧
          PDUReadByTypeResponse.handle r i ≤ s.end_handle)) →
      (read_and_process_next cbs m r).m.primary_services = m.primary_services) ∧
    (read_and_process_next cbs m r).m.trace =
      m.trace ++
        [Event.send_read_by_type (UUID.u16 0x2803)
          (read_and_process_next cbs m r).m.next_handle_to_read 0xFFFF] ∧
    (1 ≤ PDUReadByTypeResponse.num_elements r →
      (read_and_process_next cbs m r).m.next_handle_to_read =
        (PDUReadByTypeResponse.handle r (PDUReadByTypeResponse.num_elements r - 1) : Int) + 1) ∧
    (PDUReadByTypeResponse.num_elements r = 0 →
      (read_and_process_next cbs m r).m.next_handle_to_read = m.next_handle_to_read) := by
  have hframe := find_characteristics_fold_frame r
    (List.range (PDUReadByTypeResponse.num_elements r)) m
  have hps := find_characteristics_fold_services r
    (List.range (PDUReadByTypeResponse.num_elements r)) m
  rw [read_and_process_next_characteristics_page cbs m r hs hl ht hv,
    state_machine_write_FindAllCharacteristics _ (by rw [hframe.1]; exact hs)]
  refine ⟨rfl, ?_, rfl, ?_, ?_, ?_, ?_, ?_, ?_⟩
  · exact hframe.1.trans hs
  · intro i ss h
    exact map_add_characteristic_outside _ _ ss h
  · intro i m1 h
    unfold find_characteristics_element
    rw [map_add_characteristic_outside _ _ m1.primary_services h]
  · intro h
    show (List.foldl (find_characteristics_element r) m _).primary_services = _
    rw [hps]
    exact foldl_add_characteristic_outside r _ _
      (fun i hi => h i (List.mem_range.1 hi))
  · show (List.foldl (find_characteristics_element r) m _).trace ++ _ = _
    rw [hframe.2.2.1]
  · intro hn
    obtain ⟨k, hk⟩ : ∃ k, PDUReadByTypeResponse.num_elements r = k + 1 :=
      ⟨PDUReadByTypeResponse.num_elements r - 1, by omega⟩
    show (List.foldl (find_characteristics_element r) m _).next_handle_to_read = _
    rw [hk, Nat.add_sub_cancel]
    exact find_characteristics_fold_next r k m
  · intro hn
    show (List.foldl (find_characteristics_element r) m _).next_handle_to_read = _
    rw [hn]
    rfl

/-- C22, witness: the page of the counterexample; its single declaration, at 0x000F, is
dropped and the next request is sent from 0x0010. -/
theorem C22_declaration_outside_every_service_witness :
    ex_awaiting_first_characteristics.state = States.FindAllCharacteristics ∧
    ex_awaiting_first_characteristics.last_request = 0x08 ∧
    ex_characteristics_page.type = ATT_OP_READ_BY_TYPE_RESP ∧
    PDUReadByTypeResponse.value_size ex_characteristics_page = 5 ∧
    1 ≤ PDUReadByTypeResponse.num_elements ex_characteristics_page ∧
    (read_and_process_next Callbacks.default ex_awaiting_first_characteristics
      ex_characteristics_page).thrown = none ∧
    (read_and_process_next Callbacks.default ex_awaiting_first_characteristics
      ex_characteristics_page).m.state = States.FindAllCharacteristics ∧
    (read_and_process_next Callbacks.default ex_awaiting_first_characteristics
      ex_characteristics_page).m.next_handle_to_read =
      (PDUReadByTypeResponse.handle ex_characteristics_page
        (PDUReadByTypeResponse.num_elements ex_characteristics_page - 1) : Int) + 1 ∧
    (PDUReadByTypeResponse.handle ex_characteristics_page
      (PDUReadByTypeResponse.num_elements ex_characteristics_page - 1) : Int) + 1 = 0x10 :=
  ⟨by decide, by decide, by decide, by decide, by decide,
    (C22_declaration_outside_every_service Callbacks.default ex_awaiting_first_characteristics
      ex_characteristics_page (by decide) (by decide) (by decide) (Or.inl (by decide))).1,
    (C22_declaration_outside_every_service Callbacks.default ex_awaiting_first_characteristics
      ex_characteristics_page (by decide) (by decide) (by decide) (Or.inl (by decide))).2.1,
    (C22_declaration_outside_every_service Callbacks.default ex_awaiting_first_characteristics
      ex_characteristics_page (by decide) (by decide) (by decide)
      (Or.inl (by decide))).2.2.2.2.2.2.2.1 (by decide),
    by decide⟩

/-! ## Invariants of the stored services -/

/-- Helper: `state_machine_write` does not touch the stored services. -/
theorem state_machine_write_services (m : BLEGATTStateMachine) :
    (state_machine_write m).primary_services = m.primary_services := by
  unfold state_machine_write
  split_ifs <;> rfl

/-- Helper: the stored services after one turn of the pump under the default callbacks
are the old ones, or the old ones followed by the services of the page, or the old ones
transformed by the declarations of the page, or by its CCC elements. -/
theorem read_and_process_next_services (m : BLEGATTStateMachine) (r : PDUResponse) :
    (read_and_process_next Callbacks.default m r).m.primary_services = m.primary_services ∨
    (read_and_process_next Callbacks.default m r).m.primary_services =
      m.primary_services ++
        (List.range (PDUReadGroupByTypeResponse.num_elements r)).map (service_of r) ∨
    (read_and_process_next Callbacks.default m r).m.primary_services =
      (List.range (PDUReadByTypeResponse.num_elements r)).foldl
        (fun ss i =>
          ss.map (add_characteristic (PDUReadByTypeResponse.handle r i)
            (GATTReadCharacteristic.characteristic r i)))
        m.primary_services ∨
    (read_and_process_next Callbacks.default m r).m.primary_services =
      (List.range (PDUReadByTypeResponse.num_elements r)).foldl
        (fun ss i =>
          ss.map (set_ccc_service (PDUReadByTypeResponse.handle r i) (GATTReadCCC.ccc r i)))
        m.primary_services := by
  unfold read_and_process_next
  split_ifs with h1 h2 h3
  · exact Or.inl (handle_notification_frame m r).2.2.2
  · exact Or.inl rfl
  · exact Or.inl rfl
  · split
    · unfold process_ReadingPrimaryService
      split_ifs
      · exact Or.inl rfl
      · exact Or.inl rfl
      · split
        · exact Or.inl rfl
        · simp only
          split
          · exact Or.inr (Or.inl rfl)
          · split_ifs
            · exact Or.inr (Or.inl rfl)
            · exact Or.inr (Or.inl (state_machine_write_services _))
    · unfold process_FindAllCharacteristics
      split_ifs
      · exact Or.inl rfl
      · exact Or.inl rfl
      · split
        · exact Or.inl rfl
        · refine Or.inr (Or.inr (Or.inl ?_))
          show (state_machine_write _).primary_services = _
          rw [state_machine_write_services, find_characteristics_fold_services]
    · unfold process_GetClientCharaceristicConfiguration
      split_ifs
      · exact Or.inl rfl
      · exact Or.inl rfl
      · split
        · exact Or.inl rfl
        · refine Or.inr (Or.inr (Or.inr ?_))
          show (state_machine_write _).primary_services = _
          rw [state_machine_write_services, ccc_fold_services]
    · unfold process_AwaitingWriteResponse
      split_ifs
      · exact Or.inl rfl
      · exact Or.inl rfl
    · exact Or.inl rfl

/-- Helper: `set_notify_and_indicate` changes at most `ccc_last_known_value` of the
characteristic. -/
theorem set_notify_and_indicate_result (m : BLEGATTStateMachine) (c : Characteristic)
    (notify indicate : Bool) :
    ∃ v, (set_notify_and_indicate m c notify indicate).2 =
      { c with ccc_last_known_value := v } := by
  unfold set_notify_and_indicate
  split_ifs
  · exact ⟨c.ccc_last_known_value, rfl⟩
  · exact ⟨c.ccc_last_known_value, rfl⟩
  · exact ⟨c.ccc_last_known_value, rfl⟩
  · exact ⟨_, rfl⟩

/-- Helper: the stored services after `Characteristic::set_notify_and_indicate` on a
stored characteristic: unchanged, or that one characteristic replaced by itself with
another `ccc_last_known_value`. -/
theorem stored_set_notify_and_indicate_services (m : BLEGATTStateMachine) (si ci : Nat)
    (notify indicate : Bool) :
    (Characteristic.set_notify_and_indicate m si ci notify indicate).m.primary_services =
        m.primary_services ∨
    ∃ s c v, m.primary_services[si]? = some s ∧ s.characteristics[ci]? = some c ∧
      (Characteristic.set_notify_and_indicate m si ci notify indicate).m.primary_services =
        replace_at m.primary_services si
          { s with
            characteristics :=
              replace_at s.characteristics ci { c with ccc_last_known_value := v } } := by
  unfold Characteristic.set_notify_and_indicate
  split
  · exact Or.inl rfl
  · next s hs =>
    split
    · exact Or.inl rfl
    · next c hc =>
      obtain ⟨v, hv⟩ := set_notify_and_indicate_result m c notify indicate
      refine Or.inr ⟨s, c, v, by simpa using hs, by simpa using hc, ?_⟩
      simp only [hv, (set_notify_and_indicate_frame m c notify indicate).2.2.2]

/-- Helper: a property of services that holds of a freshly decoded service and is kept by
the three updates the code makes to a stored service (a declaration decoded from a page,
a CCC element, the CCC value written by a subscription) holds of every service of every
machine reached from the freshly constructed one. -/
theorem run_calls_services (Q : PrimaryService → Prop)
    (hnew : ∀ (r : PDUResponse) (i : Nat), Q (service_of r i))
    (hadd : ∀ (r : PDUResponse) (i : Nat) (s : PrimaryService), Q s →
      Q (add_characteristic (PDUReadByTypeResponse.handle r i)
        (GATTReadCharacteristic.characteristic r i) s))
    (hccc : ∀ (h v : Nat) (s : PrimaryService), Q s → Q (set_ccc_service h v s))
    (hset : ∀ (s : PrimaryService) (ci : Nat) (c : Characteristic) (v : Option Nat),
      s.characteristics[ci]? = some c → Q s →
      Q { s with
          characteristics :=
            replace_at s.characteristics ci { c with ccc_last_known_value := v } })
    (calls : List Call) : ∀ s ∈ (run_calls calls).primary_services, Q s := by
  have hfoldadd : ∀ (r : PDUResponse) (is : List Nat) (ss : List PrimaryService),
      (∀ s ∈ ss, Q s) →
      ∀ s ∈ is.foldl
        (fun ss i =>
          ss.map (add_characteristic (PDUReadByTypeResponse.handle r i)
            (GATTReadCharacteristic.characteristic r i))) ss, Q s := by
    intro r is
    induction is with
    | nil => exact fun ss h => h
    | cons i is ih =>
      intro ss h
      simp only [List.foldl_cons]
      apply ih
      intro s hs
      obtain ⟨t, ht, rfl⟩ := List.mem_map.1 hs
      exact hadd r i t (h t ht)
  have hfoldccc : ∀ (r : PDUResponse) (is : List Nat) (ss : List PrimaryService),
      (∀ s ∈ ss, Q s) →
      ∀ s ∈ is.foldl
        (fun ss i =>
          ss.map (set_ccc_service (PDUReadByTypeResponse.handle r i) (GATTReadCCC.ccc r i)))
        ss, Q s := by
    intro r is
    induction is with
    | nil => exact fun ss h => h
    | cons i is ih =>
      intro ss h
      simp only [List.foldl_cons]
      apply ih
      intro s hs
      obtain ⟨t, ht, rfl⟩ := List.mem_map.1 hs
      exact hccc _ _ t (h t ht)
  have hstep : ∀ (m : BLEGATTStateMachine) (call : Call),
      (∀ s ∈ m.primary_services, Q s) → ∀ s ∈ (Call.apply m call).primary_services, Q s := by
    intro m call hm
    cases call with
    | read_primary_services =>
      show ∀ s ∈ (state_machine_write _).primary_services, Q s
      rw [state_machine_write_services]
      exact hm
    | find_all_characteristics =>
      show ∀ s ∈ (find_all_characteristics m).m.primary_services, Q s
      unfold find_all_characteristics
      split_ifs
      · exact hm
      · show ∀ s ∈ (state_machine_write _).primary_services, Q s
        rw [state_machine_write_services]
        exact hm
    | get_client_characteristic_configuration =>
      show ∀ s ∈ (get_client_characteristic_configuration m).m.primary_services, Q s
      unfold get_client_characteristic_configuration
      split_ifs
      · exact hm
      · show ∀ s ∈ (state_machine_write _).primary_services, Q s
        rw [state_machine_write_services]
        exact hm
    | set_notify_and_indicate c notify indicate =>
      show ∀ s ∈ (set_notify_and_indicate m c notify indicate).1.m.primary_services, Q s
      rw [(set_notify_and_indicate_frame m c notify indicate).2.2.2]
      exact hm
    | stored_set_notify_and_indicate si ci notify indicate =>
      show ∀ s ∈ (Characteristic.set_notify_and_indicate m si ci notify
        indicate).m.primary_services, Q s
      rcases stored_set_notify_and_indicate_services m si ci notify indicate with
        h | ⟨s0, c, v, hs0, hc, h⟩
      · rw [h]
        exact hm
      · rw [h]
        intro s hs
        rcases List.mem_or_eq_of_mem_set hs with h1 | h1
        · exact hm s h1
        · rw [h1]
          exact hset s0 ci c v hc (hm s0 (List.getElem?_mem hs0))
    | read_and_process_next r =>
      show ∀ s ∈ (read_and_process_next Callbacks.default m r).m.primary_services, Q s
      rcases read_and_process_next_services m r with h | h | h | h
      · rw [h]
        exact hm
      · rw [h]
        intro s hs
        rcases List.mem_append.1 hs with h1 | h1
        · exact hm s h1
        · obtain ⟨i, _, rfl⟩ := List.mem_map.1 h1
          exact hnew r i
      · rw [h]
        exact hfoldadd r _ _ hm
      · rw [h]
        exact hfoldccc r _ _ hm
  have hrun : ∀ (calls : List Call) (m : BLEGATTStateMachine),
      (∀ s ∈ m.primary_services, Q s) →
      ∀ s ∈ (calls.foldl Call.apply m).primary_services, Q s := by
    intro calls
    induction calls with
    | nil => exact fun m h => h
    | cons call calls ih =>
      intro m h
      simp only [List.foldl_cons]
      exact ih _ (hstep m call h)
  exact hrun calls BLEGATTStateMachine.init (by
    intro s hs
    simp [BLEGATTStateMachine.init] at hs)

/-- Helper: a characteristic of `terminate_previous handle cs` is one of `cs`, or the last
of `cs` with its `last_handle` rewritten. -/
theorem mem_terminate_previous (handle : Nat) (cs : List Characteristic) (c : Characteristic)
    (h : c ∈ terminate_previous handle cs) :
    c ∈ cs ∨ ∃ c0, cs.getLast? = some c0 ∧
      c = { c0 with last_handle := (handle + 65535) % 65536 } := by
  induction cs with
  | nil => simp [terminate_previous] at h
  | cons c1 cs ih =>
    cases cs with
    | nil =>
      simp only [terminate_previous, List.mem_singleton] at h
      exact Or.inr ⟨c1, rfl, h⟩
    | cons d cs =>
      simp only [terminate_previous, List.mem_cons] at h
      rcases h with h | h
      · exact Or.inl (by rw [h]; exact List.mem_cons_self _ _)
      · rcases ih (by simpa [terminate_previous] using h) with h1 | ⟨c0, h1, h2⟩
        · exact Or.inl (List.mem_cons_of_mem _ h1)
        · exact Or.inr ⟨c0, by rw [List.getLast?_cons_cons]; exact h1, h2⟩

/-- Helper: `set_ccc` keeps the three handles of every characteristic. -/
theorem forall2_same_handles_set_ccc (handle ccc : Nat) (cs : List Characteristic) :
    List.Forall₂ same_handles cs (cs.map (set_ccc handle ccc)) := by
  induction cs with
  | nil => exact List.Forall₂.nil
  | cons c cs ih =>
    refine List.Forall₂.cons ?_ ih
    unfold set_ccc
    split_ifs <;> exact ⟨rfl, rfl, rfl⟩

/-- Helper: replacing a characteristic by itself with another `ccc_last_known_value`
keeps the three handles of every characteristic. -/
theorem forall2_same_handles_replace_at (cs : List Characteristic) (ci : Nat)
    (c : Characteristic) (v : Option Nat) (h : cs[ci]? = some c) :
    List.Forall₂ same_handles cs
      (replace_at cs ci { c with ccc_last_known_value := v }) := by
  have hrefl : ∀ l : List Characteristic, List.Forall₂ same_handles l l := by
    intro l
    induction l with
    | nil => exact List.Forall₂.nil
    | cons a l ih => exact List.Forall₂.cons ⟨rfl, rfl, rfl⟩ ih
  induction cs generalizing ci with
  | nil => simp at h
  | cons a cs ih =>
    cases ci with
    | zero =>
      simp only [List.getElem?_cons_zero, Option.some.injEq] at h
      subst h
      exact List.Forall₂.cons ⟨rfl, rfl, rfl⟩ (hrefl cs)
    | succ ci =>
      simp only [List.getElem?_cons_succ] at h
      exact List.Forall₂.cons ⟨rfl, rfl, rfl⟩ (ih ci h)

/-- Helper: along `same_handles`, every characteristic of the second list has its
counterpart in the first. -/
theorem forall2_same_handles_mem (cs ds : List Characteristic)
    (h : List.Forall₂ same_handles cs ds) (d : Characteristic) (hd : d ∈ ds) :
    ∃ c ∈ cs, same_handles c d := by
  induction h with
  | nil => simp at hd
  | cons hab _ ih =>
    rcases List.mem_cons.1 hd with h1 | h1
    · exact ⟨_, List.mem_cons_self _ _, by rw [h1]; exact hab⟩
    · obtain ⟨c, hc, hcd⟩ := ih h1
      exact ⟨c, List.mem_cons_of_mem _ hc, hcd⟩

/-- Helper: along `same_handles`, the last characteristic of the second list has the
handles of the last of the first. -/
theorem forall2_same_handles_getLast (cs ds : List Characteristic)
    (h : List.Forall₂ same_handles cs ds) (d : Characteristic) (hd : ds.getLast? = some d) :
    ∃ c, cs.getLast? = some c ∧ same_handles c d := by
  induction h with
  | nil => simp at hd
  | cons hab hrest ih =>
    cases hrest with
    | nil =>
      simp only [List.getLast?_singleton, Option.some.injEq] at hd
      exact ⟨_, rfl, by rw [← hd]; exact hab⟩
    | cons hab2 hrest2 =>
      rw [List.getLast?_cons_cons] at hd ⊢
      exact ih hd

/-- Helper: `handles_bounded` only looks at the handles. -/
theorem handles_bounded_of_same_handles (s : PrimaryService) (ds : List Characteristic)
    (h : List.Forall₂ same_handles s.characteristics ds) (hs : s.handles_bounded) :
    PrimaryService.handles_bounded { s with characteristics := ds } := by
  constructor
  · intro d hd
    obtain ⟨c, hc, h1, h2, _⟩ := forall2_same_handles_mem _ _ h d hd
    have := hs.1 c hc
    show s.start_handle < d.first_handle ∧ d.first_handle ≤ s.end_handle ∧
      d.last_handle ≤ s.end_handle
    rw [h1, h2]
    exact this
  · intro d hd
    obtain ⟨c, hc, _, h2, _⟩ := forall2_same_handles_getLast _ _ h d hd
    show d.last_handle = s.end_handle
    rw [h2]
    exact hs.2 c hc

/-- Helper: a declaration keeps `handles_bounded`. -/
theorem add_characteristic_handles_bounded (handle : Nat)
    (ch : GATTReadCharacteristic.Characteristic) (s : PrimaryService)
    (hs : s.handles_bounded) : (add_characteristic handle ch s).handles_bounded := by
  unfold add_characteristic
  split_ifs with hin
  · constructor
    · intro c hc
      show s.start_handle < c.first_handle ∧ c.first_handle ≤ s.end_handle ∧
        c.last_handle ≤ s.end_handle
      simp only [List.mem_append, List.mem_singleton] at hc
      rcases hc with hc | hc
      · rcases mem_terminate_previous handle _ c hc with h1 | ⟨c0, h1, h2⟩
        · exact hs.1 c h1
        · have h3 := hs.1 c0 (List.mem_of_mem_getLast? h1)
          rw [h2]
          refine ⟨h3.1, h3.2.1, ?_⟩
          show (handle + 65535) % 65536 ≤ s.end_handle
          omega
      · rw [hc]
        exact ⟨hin.1, hin.2, le_refl _⟩
    · intro c hc
      simp only [List.getLast?_concat, Option.some.injEq] at hc
      rw [← hc]
      rfl
  · exact hs

/-- Helper: a declaration decoded from a page keeps the full invariant `handles_ordered`
of a service, provided that, when the service contains its handle, its value handle lies
between its handle and the end of the service and its handle lies above the value handle
of the last characteristic stored so far. -/
theorem add_characteristic_handles_ordered (r : PDUResponse) (i : Nat) (s : PrimaryService)
    (hs : s.handles_ordered)
    (hside : (PDUReadByTypeResponse.handle r i > s.start_handle ∧
        PDUReadByTypeResponse.handle r i ≤ s.end_handle) →
      PDUReadByTypeResponse.handle r i ≤ (GATTReadCharacteristic.characteristic r i).handle ∧
      (GATTReadCharacteristic.characteristic r i).handle ≤ s.end_handle ∧
      ∀ c0, s.characteristics.getLast? = some c0 →
        c0.value_handle < PDUReadByTypeResponse.handle r i) :
    (add_characteristic (PDUReadByTypeResponse.handle r i)
      (GATTReadCharacteristic.characteristic r i) s).handles_ordered := by
  unfold add_characteristic
  split_ifs with hin
  · obtain ⟨hv1, hv2, hprev⟩ := hside hin
    intro c hc
    show s.start_handle < c.first_handle ∧ c.first_handle ≤ c.last_handle ∧
      c.last_handle ≤ s.end_handle ∧ c.first_handle ≤ c.value_handle ∧
      c.value_handle ≤ c.last_handle
    simp only [List.mem_append, List.mem_singleton] at hc
    rcases hc with hc | hc
    · rcases mem_terminate_previous _ _ c hc with h1 | ⟨c0, h1, h2⟩
      · exact hs c h1
      · have h3 := hs c0 (List.mem_of_mem_getLast? h1)
        have h4 := hprev c0 h1
        have h5 := handle_pred r i s.start_handle hin.1
        rw [h2]
        show s.start_handle < c0.first_handle ∧
          c0.first_handle ≤ (PDUReadByTypeResponse.handle r i + 65535) % 65536 ∧
          (PDUReadByTypeResponse.handle r i + 65535) % 65536 ≤ s.end_handle ∧
          c0.first_handle ≤ c0.value_handle ∧
          c0.value_handle ≤ (PDUReadByTypeResponse.handle r i + 65535) % 65536
        rw [h5]
        omega
    · rw [hc]
      exact ⟨hin.1, hin.2, le_refl _, hv1, hv2⟩
  · exact hs

/-- C23, counterexample: two reachable databases in which a stored characteristic breaks
the claimed inequalities (triples are `first_handle`, `last_handle`, `value_handle`).
After a page that declares 0x0005 and then 0x0003 in the service 0x0001..0x000B, the first
characteristic is (5, 2, 6), so `first_handle > last_handle`, and the second is
(3, 11, 16), its value handle outside its range.  After a second run of the
characteristic discovery against the same peer, the characteristic stored by the first
run is (15, 14, 16). -/
theorem C23_counterexample_handles_not_ordered :
    (run_calls ex_descending_calls).primary_services.map
        (fun s => (s.start_handle, s.end_handle,
          s.characteristics.map
            (fun c => (c.first_handle, c.last_handle, c.value_handle)))) =
      [(1, 0x0B, [(5, 2, 6), (3, 0x0B, 0x10)])] ∧
    (run_calls ex_rediscovery_calls).primary_services.map
        (fun s => (s.start_handle, s.end_handle,
          s.characteristics.map
            (fun c => (c.first_handle, c.last_handle, c.value_handle)))) =
      [(1, 0xFFFF, [(0x0F, 0x0E, 0x10), (0x0F, 0xFFFF, 0x10)])] ∧
    (∃ s ∈ (run_calls ex_descending_calls).primary_services, ∃ c ∈ s.characteristics,
      ¬ (s.start_handle < c.first_handle ∧ c.first_handle ≤ c.last_handle ∧
        c.last_handle ≤ s.end_handle ∧ c.first_handle ≤ c.value_handle ∧
        c.value_handle ≤ c.last_handle)) ∧
    (∃ s ∈ (run_calls ex_rediscovery_calls).primary_services, ∃ c ∈ s.characteristics,
      ¬ (s.start_handle < c.first_handle ∧ c.first_handle ≤ c.last_handle ∧
        c.last_handle ≤ s.end_handle ∧ c.first_handle ≤ c.value_handle ∧
        c.value_handle ≤ c.last_handle)) := by
  exact ⟨by decide, by decide, by decide, by decide⟩

/-- C23, amended: in every machine reached from the freshly constructed one by any
sequence of calls (phase entries, subscriptions, turns of the pump on arbitrary frames,
default callbacks), every characteristic c stored in a service s has
s.start_handle < c.first_handle <= s.end_handle and c.last_handle <= s.end_handle, and the
last characteristic of s has last_handle = s.end_handle.  The other inequalities of the
invariant (c.first_handle <= c.last_handle, c.first_handle <= c.value_handle <=
c.last_handle) are kept by a declaration decoded from a page when, for every service that
contains its handle h, its value handle lies in [h, s.end_handle] and h lies above the
value handle of the last characteristic stored in s. -/
theorem C23_handles_within_service (calls : List Call) :
    (∀ s ∈ (run_calls calls).primary_services, s.handles_bounded) ∧
    (∀ (r : PDUResponse) (i : Nat) (ss : List PrimaryService),
      (∀ s ∈ ss, s.handles_ordered) →
      (∀ s ∈ ss,
        (PDUReadByTypeResponse.handle r i > s.start_handle ∧
          PDUReadByTypeResponse.handle r i ≤ s.end_handle) →
        PDUReadByTypeResponse.handle r i ≤ (GATTReadCharacteristic.characteristic r i).handle ∧
        (GATTReadCharacteristic.characteristic r i).handle ≤ s.end_handle ∧
        ∀ c0, s.characteristics.getLast? = some c0 →
          c0.value_handle < PDUReadByTypeResponse.handle r i) →
      ∀ s ∈ ss.map (add_characteristic (PDUReadByTypeResponse.handle r i)
        (GATTReadCharacteristic.characteristic r i)), s.handles_ordered) := by
  constructor
  · apply run_calls_services PrimaryService.handles_bounded
    · intro r i
      constructor
      · intro c hc
        simp [service_of] at hc
      · intro c hc
        simp [service_of] at hc
    · intro r i s hs
      exact add_characteristic_handles_bounded _ _ s hs
    · intro h v s hs
      unfold set_ccc_service
      split_ifs
      · exact handles_bounded_of_same_handles s _ (forall2_same_handles_set_ccc h v _) hs
      · exact hs
    · intro s ci c v hc hs
      exact handles_bounded_of_same_handles s _
        (forall2_same_handles_replace_at _ ci c v hc) hs
  · intro r i ss hss hside s hs
    obtain ⟨t, ht, rfl⟩ := List.mem_map.1 hs
    exact add_characteristic_handles_ordered r i t (hss t ht) (hside t ht)

/-! ## Consecutive characteristics of a service -/

/-- Helper: a relation holds along a list (`List.Chain'`) exactly when it holds of every
two elements at consecutive positions. -/
theorem chain_iff_consecutive {α : Type} (T : α → α → Prop) (l : List α) :
    List.Chain' T l ↔ ∀ j a b, l[j]? = some a → l[j + 1]? = some b → T a b := by
  induction l with
  | nil => simp
  | cons x l ih =>
    cases l with
    | nil => simp
    | cons y l =>
      rw [List.chain'_cons, ih]
      constructor
      · rintro ⟨hxy, hrest⟩ j a b ha hb
        cases j with
        | zero =>
          simp only [List.getElem?_cons_zero, Option.some.injEq, zero_add,
            List.getElem?_cons_succ] at ha hb
          rw [← ha, ← hb]
          exact hxy
        | succ j =>
          simp only [List.getElem?_cons_succ] at ha hb
          exact hrest j a b ha (by simpa using hb)
      · intro h
        refine ⟨h 0 x y (by simp) (by simp), ?_⟩
        intro j a b ha hb
        exact h (j + 1) a b (by simpa using ha) (by simpa using hb)

/-- Helper: `terminate_previous` keeps a relation along the list when the relation does
not look at the `last_handle` of its second argument. -/
theorem terminate_previous_chain (T : Characteristic → Characteristic → Prop)
    (hT : ∀ c1 c2 l, T c1 c2 → T c1 { c2 with last_handle := l }) (handle : Nat)
    (cs : List Characteristic) (h : List.Chain' T cs) :
    List.Chain' T (terminate_previous handle cs) := by
  induction cs with
  | nil => simp [terminate_previous]
  | cons c cs ih =>
    cases cs with
    | nil => simp [terminate_previous]
    | cons d cs =>
      rw [List.chain'_cons] at h
      cases cs with
      | nil =>
        simp only [terminate_previous, List.chain'_cons, List.chain'_singleton, and_true]
        exact hT c d _ h.1
      | cons e cs =>
        have ih2 := ih h.2
        simp only [terminate_previous] at ih2 ⊢
        rw [List.chain'_cons]
        exact ⟨h.1, ih2⟩

/-- Helper: a relation that only looks at the handles is carried along `same_handles`. -/
theorem chain_of_same_handles (T : Characteristic → Characteristic → Prop)
    (hT : ∀ a b c d, same_handles a c → same_handles b d → T a b → T c d)
    (cs ds : List Characteristic) (h : List.Forall₂ same_handles cs ds)
    (hc : List.Chain' T cs) : List.Chain' T ds := by
  induction h with
  | nil => simp
  | cons hab hrest ih =>
    cases hrest with
    | nil => simp
    | cons hab2 hrest2 =>
      rw [List.chain'_cons] at hc ⊢
      exact ⟨hT _ _ _ _ hab hab2 hc.1, ih hc.2⟩

/-- Helper: the last characteristic of `terminate_previous handle cs` is the last of `cs`
with its `last_handle` rewritten. -/
theorem getLast_terminate_previous (handle : Nat) (cs : List Characteristic)
    (x : Characteristic) (h : (terminate_previous handle cs).getLast? = some x) :
    ∃ c0, cs.getLast? = some c0 ∧ x = { c0 with last_handle := (handle + 65535) % 65536 } := by
  cases hcs : cs.getLast? with
  | none =>
    rw [List.getLast?_eq_none_iff] at hcs
    rw [hcs] at h
    simp [terminate_previous] at h
  | some c0 =>
    rw [terminate_previous_getLast handle cs c0 hcs] at h
    exact ⟨c0, rfl, (Option.some.inj h).symm⟩

/-- Helper: appending the declaration at `handle` keeps a relation along the
characteristics when the relation does not look at the `last_handle` of its second
argument and holds between the terminated last characteristic and the new one. -/
theorem add_characteristic_chain (T : Characteristic → Characteristic → Prop)
    (hT : ∀ c1 c2 l, T c1 c2 → T c1 { c2 with last_handle := l }) (handle : Nat)
    (ch : GATTReadCharacteristic.Characteristic) (s : PrimaryService)
    (hs : List.Chain' T s.characteristics)
    (hlast : (handle > s.start_handle ∧ handle ≤ s.end_handle) →
      ∀ c0, s.characteristics.getLast? = some c0 →
        T { c0 with last_handle := (handle + 65535) % 65536 }
          (new_characteristic handle ch s.end_handle)) :
    List.Chain' T (add_characteristic handle ch s).characteristics := by
  unfold add_characteristic
  split_ifs with hin
  · apply List.Chain'.append (terminate_previous_chain T hT handle _ hs)
      (List.chain'_singleton _)
    intro x hx y hy
    simp only [List.head?_cons, Option.mem_def, Option.some.injEq] at hy
    obtain ⟨c0, hc0, hx0⟩ := getLast_terminate_previous handle _ x hx
    rw [← hy, hx0]
    exact hlast hin c0 hc0
  · exact hs

/-- Helper: in every reachable machine the characteristics of every service are
contiguous along the list. -/
theorem run_calls_contiguous (calls : List Call) :
    ∀ s ∈ (run_calls calls).primary_services, List.Chain' contiguous s.characteristics := by
  apply run_calls_services (fun s => List.Chain' contiguous s.characteristics)
  · intro r i
    simp [service_of]
  · intro r i s hs
    apply add_characteristic_chain contiguous (fun _ _ _ h => h) _ _ s hs
    intro hin c0 _
    show (PDUReadByTypeResponse.handle r i + 65535) % 65536 + 1 = PDUReadByTypeResponse.handle r i
    have := handle_pred r i s.start_handle hin.1
    omega
  · intro h v s hs
    unfold set_ccc_service
    split_ifs
    · exact chain_of_same_handles contiguous
        (fun a b c d hac hbd (hab : a.last_handle + 1 = b.first_handle) =>
          show c.last_handle + 1 = d.first_handle by rw [hac.2.1, hbd.1]; exact hab)
        _ _ (forall2_same_handles_set_ccc h v _) hs
    · exact hs
  · intro s ci c v hc hs
    exact chain_of_same_handles contiguous
      (fun a b c d hac hbd (hab : a.last_handle + 1 = b.first_handle) =>
        show c.last_handle + 1 = d.first_handle by rw [hac.2.1, hbd.1]; exact hab)
      _ _ (forall2_same_handles_replace_at _ ci c v hc) hs

/-- C24, counterexample: two reachable databases with consecutive characteristics not in
ascending order (pairs are `first_handle`, `last_handle`, in append order).  After a page
that declares 0x0005 and then 0x0003 the service holds (5, 2) followed by (3, 11); after a
second run of the characteristic discovery against the same peer it holds (15, 14)
followed by (15, 65535). -/
theorem C24_counterexample_not_ascending :
    (run_calls ex_descending_calls).primary_services.map
        (fun s => s.characteristics.map (fun c => (c.first_handle, c.last_handle))) =
      [[(5, 2), (3, 0x0B)]] ∧
    (run_calls ex_rediscovery_calls).primary_services.map
        (fun s => s.characteristics.map (fun c => (c.first_handle, c.last_handle))) =
      [[(0x0F, 0x0E), (0x0F, 0xFFFF)]] ∧
    (∃ s ∈ (run_calls ex_descending_calls).primary_services,
      ∃ c1 ∈ s.characteristics, ∃ c2 ∈ s.characteristics,
        s.characteristics[0]? = some c1 ∧ s.characteristics[1]? = some c2 ∧
          ¬ (c2.first_handle > c1.first_handle)) ∧
    (∃ s ∈ (run_calls ex_rediscovery_calls).primary_services,
      ∃ c1 ∈ s.characteristics, ∃ c2 ∈ s.characteristics,
        s.characteristics[0]? = some c1 ∧ s.characteristics[1]? = some c2 ∧
          ¬ (c2.first_handle > c1.first_handle)) := by
  exact ⟨by decide, by decide, by decide, by decide⟩

/-- C24, amended: in every machine reached from the freshly constructed one by any
sequence of calls, for any two consecutive characteristics c1, c2 of one service (in
append order) c1.last_handle = c2.first_handle - 1, with c2.first_handle >= 1.  The
ascending order c2.first_handle > c1.first_handle is not enforced by the code; it is kept
by a declaration decoded from a page when, in every service that contains its handle h,
h lies above the `first_handle` of the last characteristic stored so far. -/
theorem C24_consecutive_characteristics (calls : List Call) :
    (∀ s ∈ (run_calls calls).primary_services, ∀ (j : Nat) (c1 c2 : Characteristic),
      s.characteristics[j]? = some c1 → s.characteristics[j + 1]? = some c2 →
        c1.last_handle = c2.first_handle - 1 ∧ 1 ≤ c2.first_handle) ∧
    (∀ (r : PDUResponse) (i : Nat) (ss : List PrimaryService),
      (∀ s ∈ ss, ∀ (j : Nat) (c1 c2 : Characteristic),
        s.characteristics[j]? = some c1 → s.characteristics[j + 1]? = some c2 →
          c2.first_handle > c1.first_handle) →
      (∀ s ∈ ss,
        (PDUReadByTypeResponse.handle r i > s.start_handle ∧
          PDUReadByTypeResponse.handle r i ≤ s.end_handle) →
        ∀ c0, s.characteristics.getLast? = some c0 →
          PDUReadByTypeResponse.handle r i > c0.first_handle) →
      ∀ s ∈ ss.map (add_characteristic (PDUReadByTypeResponse.handle r i)
          (GATTReadCharacteristic.characteristic r i)),
        ∀ (j : Nat) (c1 c2 : Characteristic),
          s.characteristics[j]? = some c1 → s.characteristics[j + 1]? = some c2 →
            c2.first_handle > c1.first_handle) := by
  constructor
  · intro s hs j c1 c2 h1 h2
    have hc : c1.last_handle + 1 = c2.first_handle :=
      (chain_iff_consecutive contiguous _).1 (run_calls_contiguous calls s hs) j c1 c2 h1 h2
    omega
  · intro r i ss hss hside s hs
    obtain ⟨t, ht, rfl⟩ := List.mem_map.1 hs
    have hchain : List.Chain' ascending t.characteristics :=
      (chain_iff_consecutive ascending _).2 (hss t ht)
    exact (chain_iff_consecutive ascending _).1
      (add_characteristic_chain ascending (fun _ _ _ h => h) _ _ t hchain
        (fun hin c0 hc0 => hside t ht hin c0 hc0))

/-- Helper: the database of `ex_discovered`, discovered in one run from a peer whose
declaration at 0x000F has its value at 0x0010, has the full invariant of the
specification, ascending order and contiguity included (there is one characteristic). -/
theorem ex_discovered_handles_ordered :
    (∀ s ∈ ex_discovered.primary_services, s.handles_ordered) ∧
    ex_discovered.primary_services.map
        (fun s => (s.start_handle, s.end_handle,
          s.characteristics.map
            (fun c => (c.first_handle, c.last_handle, c.value_handle)))) =
      [(1, 0xFFFF, [(0x0F, 0xFFFF, 0x10)])] := by
  constructor
  · unfold PrimaryService.handles_ordered
    decide
  · decide

/-! ## The flag byte of a stored characteristic -/

/-- Helper: `terminate_previous` changes no flag. -/
theorem terminate_previous_flag_bools (handle : Nat) (cs : List Characteristic) :
    (terminate_previous handle cs).map Characteristic.flag_bools =
      cs.map Characteristic.flag_bools := by
  induction cs with
  | nil => rfl
  | cons c cs ih =>
    cases cs with
    | nil => simp [terminate_previous, Characteristic.flag_bools]
    | cons d cs =>
      simp only [terminate_previous, List.map_cons] at ih ⊢
      rw [ih]

/-- Helper: the eight booleans of the characteristic built for element `i` of a page are
the bits of the first value byte of the element. -/
theorem new_characteristic_flag_bools (r : PDUResponse) (i handle end_handle : Nat) :
    (new_characteristic handle (GATTReadCharacteristic.characteristic r i)
      end_handle).flag_bools = byte_bits (r.uint8 (PDUReadByTypeResponse.value r i)) := by
  obtain ⟨⟨h0, h1, h2, h3, h4, h5, h6, h7⟩, _⟩ :=
    flag_byte_bits (r.uint8 (PDUReadByTypeResponse.value r i)) (uint8_lt r _)
  show [_, _, _, _, _, _, _, _] = [_, _, _, _, _, _, _, _]
  rw [← h0, ← h1, ← h2, ← h3, ← h4, ← h5, ← h6, ← h7]
  rfl

/-- Helper: a loop that maps every service at each step is the map of the loop run on
each service. -/
theorem foldl_map_services (f : Nat → PrimaryService → PrimaryService) (is : List Nat)
    (ss : List PrimaryService) :
    is.foldl (fun ss i => ss.map (f i)) ss = ss.map (fun s => is.foldl (fun t i => f i t) s) := by
  induction is generalizing ss with
  | nil => simp
  | cons i is ih =>
    simp only [List.foldl_cons]
    rw [ih, List.map_map]
    rfl

/-- Helper: the flags stored in one service after a run of declarations: those already
there, then the bits of the flag byte of every declaration of the run that lies in the
range of the service, in order. -/
theorem foldl_add_characteristic_flag_bools (r : PDUResponse) (is : List Nat)
    (s : PrimaryService) :
    (is.foldl
        (fun t i =>
          add_characteristic (PDUReadByTypeResponse.handle r i)
            (GATTReadCharacteristic.characteristic r i) t) s).characteristics.map
        Characteristic.flag_bools =
      s.characteristics.map Characteristic.flag_bools ++
        (is.filter
          (fun i =>
            decide (PDUReadByTypeResponse.handle r i > s.start_handle ∧
              PDUReadByTypeResponse.handle r i ≤ s.end_handle))).map
          (fun i => byte_bits (r.uint8 (PDUReadByTypeResponse.value r i))) := by
  induction is generalizing s with
  | nil => simp
  | cons i is ih =>
    simp only [List.foldl_cons]
    rw [ih]
    by_cases hin : PDUReadByTypeResponse.handle r i > s.start_handle ∧
        PDUReadByTypeResponse.handle r i ≤ s.end_handle
    · have hadd : add_characteristic (PDUReadByTypeResponse.handle r i)
          (GATTReadCharacteristic.characteristic r i) s =
          { s with
            characteristics :=
              terminate_previous (PDUReadByTypeResponse.handle r i) s.characteristics ++
                [new_characteristic (PDUReadByTypeResponse.handle r i)
                  (GATTReadCharacteristic.characteristic r i) s.end_handle] } := by
        unfold add_characteristic
        rw [if_pos hin]
      rw [hadd, List.filter_cons_of_pos (by simpa using hin)]
      simp only [List.map_append, List.map_cons, List.map_nil, terminate_previous_flag_bools,
        new_characteristic_flag_bools, List.append_assoc, List.singleton_append]
    · have hadd : add_characteristic (PDUReadByTypeResponse.handle r i)
          (GATTReadCharacteristic.characteristic r i) s = s := by
        unfold add_characteristic
        rw [if_neg hin]
      rw [hadd, List.filter_cons_of_neg (by simpa using hin)]

/-- C19: the flag byte f of element `i` of a characteristic page is the first value byte
of the element (the u16 value handle follows it).  The characteristic that the element
loop appends to a service whose range contains the declaration handle has as its eight
booleans exactly the bits of f: broadcast bit 0 (0x01), read bit 1 (0x02),
write_without_response bit 2 (0x04), write bit 3 (0x08), notify bit 4 (0x10), indicate
bit 5 (0x20), authenticated_write bit 6 (0x40), extended bit 7 (0x80); f is the sum of
the eight booleans weighted by their masks.  After the pump has processed an accepted
page in `FindAllCharacteristics`, every stored service holds the flags it held before,
followed by the bits of the flag byte of every element of the page whose declaration
handle lies in the range of the service, in the order of the page. -/
theorem C19_flags_are_the_bits (cbs : Callbacks) (m : BLEGATTStateMachine) (r : PDUResponse)
    (hs : m.state = States.FindAllCharacteristics) (hl : m.last_request = 0x08)
    (ht : r.type = ATT_OP_READ_BY_TYPE_RESP)
    (hv : PDUReadByTypeResponse.value_size r = 5 ∨ PDUReadByTypeResponse.value_size r = 19) :
    (∀ i : Nat,
      (GATTReadCharacteristic.characteristic r i).flags =
        r.uint8 (PDUReadByTypeResponse.value r i) ∧
      (GATTReadCharacteristic.characteristic r i).handle =
        r.uint16 (PDUReadByTypeResponse.value r i + 1) ∧
      r.uint8 (PDUReadByTypeResponse.value r i) < 256) ∧
    (∀ (i : Nat) (s : PrimaryService),
      (PDUReadByTypeResponse.handle r i > s.start_handle ∧
          PDUReadByTypeResponse.handle r i ≤ s.end_handle) →
        ∃ c : Characteristic,
          (add_characteristic (PDUReadByTypeResponse.handle r i)
            (GATTReadCharacteristic.characteristic r i) s).characteristics.getLast? = some c ∧
          c.first_handle = PDUReadByTypeResponse.handle r i ∧
          c.broadcast = (r.uint8 (PDUReadByTypeResponse.value r i)).testBit 0 ∧
          c.read = (r.uint8 (PDUReadByTypeResponse.value r i)).testBit 1 ∧
          c.write_without_response = (r.uint8 (PDUReadByTypeResponse.value r i)).testBit 2 ∧
          c.write = (r.uint8 (PDUReadByTypeResponse.value r i)).testBit 3 ∧
          c.notify = (r.uint8 (PDUReadByTypeResponse.value r i)).testBit 4 ∧
          c.indicate = (r.uint8 (PDUReadByTypeResponse.value r i)).testBit 5 ∧
          c.authenticated_write = (r.uint8 (PDUReadByTypeResponse.value r i)).testBit 6 ∧
          c.extended = (r.uint8 (PDUReadByTypeResponse.value r i)).testBit 7 ∧
          r.uint8 (PDUReadByTypeResponse.value r i) =
            c.broadcast.toNat + 2 * c.read.toNat + 4 * c.write_without_response.toNat +
              8 * c.write.toNat + 16 * c.notify.toNat + 32 * c.indicate.toNat +
              64 * c.authenticated_write.toNat + 128 * c.extended.toNat) ∧
    (read_and_process_next cbs m r).m.primary_services.map
        (fun s => s.characteristics.map Characteristic.flag_bools) =
      m.primary_services.map
        (fun s =>
          s.characteristics.map Characteristic.flag_bools ++
            ((List.range (PDUReadByTypeResponse.num_elements r)).filter
              (fun i =>
                decide (PDUReadByTypeResponse.handle r i > s.start_handle ∧
                  PDUReadByTypeResponse.handle r i ≤ s.end_handle))).map
              (fun i => byte_bits (r.uint8 (PDUReadByTypeResponse.value r i)))) := by
  refine ⟨fun i => ⟨rfl, rfl, uint8_lt r _⟩, ?_, ?_⟩
  · intro i s hin
    obtain ⟨⟨h0, h1, h2, h3, h4, h5, h6, h7⟩, hsum⟩ :=
      flag_byte_bits (r.uint8 (PDUReadByTypeResponse.value r i)) (uint8_lt r _)
    refine ⟨new_characteristic (PDUReadByTypeResponse.handle r i)
      (GATTReadCharacteristic.characteristic r i) s.end_handle, ?_, rfl, h0, h1, h2, h3, h4,
      h5, h6, h7, ?_⟩
    · unfold add_characteristic
      rw [if_pos hin]
      simp
    · show r.uint8 (PDUReadByTypeResponse.value r i) =
        (r.uint8 (PDUReadByTypeResponse.value r i) &&& GATT_CHARACTERISTIC_FLAGS_BROADCAST
            != 0).toNat +
          2 * (r.uint8 (PDUReadByTypeResponse.value r i) &&& GATT_CHARACTERISTIC_FLAGS_READ
            != 0).toNat +
          4 * (r.uint8 (PDUReadByTypeResponse.value r i) &&&
            GATT_CHARACTERISTIC_FLAGS_WRITE_WITHOUT_RESPONSE != 0).toNat +
          8 * (r.uint8 (PDUReadByTypeResponse.value r i) &&& GATT_CHARACTERISTIC_FLAGS_WRITE
            != 0).toNat +
          16 * (r.uint8 (PDUReadByTypeResponse.value r i) &&& GATT_CHARACTERISTIC_FLAGS_NOTIFY
            != 0).toNat +
          32 * (r.uint8 (PDUReadByTypeResponse.value r i) &&& GATT_CHARACTERISTIC_FLAGS_INDICATE
            != 0).toNat +
          64 * (r.uint8 (PDUReadByTypeResponse.value r i) &&&
            GATT_CHARACTERISTIC_FLAGS_AUTHENTICATED_SIGNED_WRITES != 0).toNat +
          128 * (r.uint8 (PDUReadByTypeResponse.value r i) &&&
            GATT_CHARACTERISTIC_FLAGS_EXTENDED_PROPERTIES != 0).toNat
      rw [h0, h1, h2, h3, h4, h5, h6, h7]
      exact hsum
  · rw [read_and_process_next_characteristics_page cbs m r hs hl ht hv]
    show (state_machine_write _).primary_services.map _ = _
    rw [state_machine_write_services, find_characteristics_fold_services, foldl_map_services,
      List.map_map]
    apply List.map_congr_left
    intro s _
    exact foldl_add_characteristic_flag_bools r _ s

/-- C19, witness: the page with the declaration at 0x000F, flag byte 0x20, received with
the service 0x0001..0xFFFF stored: the characteristic stored has `indicate` set and no
other flag. -/
theorem C19_flags_are_the_bits_witness :
    ex_awaiting_thermometer_characteristics.state = States.FindAllCharacteristics ∧
    ex_awaiting_thermometer_characteristics.last_request = 0x08 ∧
    ex_characteristics_page.type = ATT_OP_READ_BY_TYPE_RESP ∧
    PDUReadByTypeResponse.value_size ex_characteristics_page = 5 ∧
    (read_and_process_next Callbacks.default ex_awaiting_thermometer_characteristics
        ex_characteristics_page).m.primary_services.map
        (fun s => s.characteristics.map Characteristic.flag_bools) =
      [[[false, false, false, false, false, true, false, false]]] :=
  ⟨by decide, by decide, by decide, by decide,
    ((C19_flags_are_the_bits Callbacks.default ex_awaiting_thermometer_characteristics
      ex_characteristics_page (by decide) (by decide) (by decide)
      (Or.inl (by decide))).2.2).trans (by decide)⟩

end Blepp
